import Mathlib

set_option linter.unusedVariables false

/-!
Shallow embedding of the configuration-reconciliation core of the zedagent
(pkg/pillar/cmd/zedagent/parseconfig.go).  Wire-format protobuf structures are
embedded as Lean structures prefixed with Z; internal entity types keep the
names of the Go types package.  The object store is an association list keyed
by strings; every publish/unpublish/side effect is also recorded in an event
trace so that theorems can count calls.  Content hashes (sha256 over the
json-marshalled elements) are modelled by the element list itself: json.Marshal
is injective on these records and sha256 is treated as collision-free, so two
digests are equal exactly when the element lists are equal.
-/

/-- Modelled from the spec: hex-digit test used by the external
uuid / net parsing collaborators (github.com/satori/go.uuid, net). -/
def isHexDigit (c : Char) : Bool :=
  c.isDigit || ('a' ≤ c && c ≤ 'f') || ('A' ≤ c && c ≤ 'F')

/-- Modelled from the spec: splitting a character list on a separator
character (a structural stand-in for the splitting done by the external
uuid / net parsers). -/
def splitOnChar (sep : Char) : List Char → List (List Char)
  | [] => [[]]
  | x :: xs =>
      if x = sep then [] :: splitOnChar sep xs
      else
        match splitOnChar sep xs with
        | [] => [[x]]
        | g :: gs => (x :: g) :: gs

/-- Modelled from the spec: the numeric value of a decimal digit string. -/
def digitsToNat (l : List Char) : Nat :=
  l.foldl (fun n c => n * 10 + (c.toNat - 48)) 0

/-- Modelled from the spec: ASCII lower-casing of one character. -/
def lowerChar (c : Char) : Char :=
  if 'A' ≤ c ∧ c ≤ 'Z' then Char.ofNat (c.toNat + 32) else c

/-- Modelled from the spec: ASCII lower-casing (strings.ToLower). -/
def lowerStr (s : String) : String :=
  String.mk (s.toList.map lowerChar)

/-- Modelled from the spec: validity of a canonical 8-4-4-4-12 UUID string,
standing in for the external library uuid.FromString succeeding. -/
def isValidUUIDStr (s : String) : Bool :=
  match splitOnChar '-' s.toList with
  | [a, b, c, d, e] =>
      a.length == 8 && b.length == 4 && c.length == 4 && d.length == 4 &&
      e.length == 12 && (a ++ b ++ c ++ d ++ e).all isHexDigit
  | _ => false

/-- Modelled from the spec: external uuid.FromString; a parsed UUID is kept as
its canonical lower-case string form. -/
def uuidFromStr? (s : String) : Option String :=
  if isValidUUIDStr s then some (lowerStr s) else none

/-- The string form of the zero UUID (nilUUID in the source). -/
def nilUUIDStr : String := "00000000-0000-0000-0000-000000000000"

/-- Modelled from the spec: external uuid.FromString with the error ignored,
which leaves the zero UUID behind (the `id, _ :=` pattern in the source). -/
def uuidFromStrOrNil (s : String) : String :=
  match uuidFromStr? s with
  | some u => u
  | none => nilUUIDStr

/-- Modelled from the spec: one decimal octet of a dotted-quad IPv4 literal. -/
def isIPv4Octet (l : List Char) : Bool :=
  (1 ≤ l.length && l.length ≤ 3) && l.all Char.isDigit && digitsToNat l ≤ 255

/-- Modelled from the spec: dotted-quad shape of a character list. -/
def isIPv4Chars (l : List Char) : Bool :=
  match splitOnChar '.' l with
  | [a, b, c, d] => isIPv4Octet a && isIPv4Octet b && isIPv4Octet c && isIPv4Octet d
  | _ => false

/-- Modelled from the spec: external net.ParseIP accepting a dotted-quad IPv4
literal. -/
def isIPv4Str (s : String) : Bool :=
  isIPv4Chars s.toList

/-- Modelled from the spec: external net.ParseIP accepting a colon-separated
IPv6 literal (simplified to a shape check; the claims never depend on exact
IPv6 syntax). -/
def isIPv6Str (s : String) : Bool :=
  s.toList.any (fun c => c = ':') && s.toList.all (fun c => isHexDigit c || c = ':')

/-- Modelled from the spec: external net.ParseIP; a parsed IP is kept as its
string form. -/
def parseIP? (s : String) : Option String :=
  if isIPv4Str s then some s else if isIPv6Str s then some s else none

/-- Modelled from the spec: external net.IP.To4 being non-nil. -/
def ipIsV4 (ip : String) : Bool := isIPv4Str ip

/-- Modelled from the spec: external net.ParseMAC (six two-hex-digit groups). -/
def parseMAC? (s : String) : Option String :=
  match splitOnChar ':' s.toList with
  | [a, b, c, d, e, f] =>
      if [a, b, c, d, e, f].all (fun g => g.length == 2 && g.all isHexDigit) then
        some s
      else none
  | _ => none

/-- A parsed CIDR (external net.ParseCIDR result); base address and prefix. -/
structure Cidr where
  base : String
  prefixLen : Nat
deriving DecidableEq, Repr

/-- Modelled from the spec: external net.ParseCIDR on an a.b.c.d/n literal. -/
def parseCIDR? (s : String) : Option Cidr :=
  match splitOnChar '/' s.toList with
  | [ip, n] =>
      if isIPv4Chars ip && !n.isEmpty && n.all Char.isDigit && digitsToNat n ≤ 32 then
        some { base := String.mk ip, prefixLen := digitsToNat n }
      else none
  | _ => none

/-- Modelled from the spec: net.IPNet.String() of the network's subnet with the
port's address substituted in (non-empty whenever it is set at all). -/
def subnetWithIP (sub : Option Cidr) (ip : String) : String :=
  match sub with
  | some c => ip ++ "/" ++ toString c.prefixLen
  | none => ip ++ "/<nil>"

/-- The external keyed object store: an association list from key to entity.
Publish replaces or appends, unpublish deletes the key, get looks it up. -/
abbrev PubStore (α : Type) := List (String × α)

def pubGet {α : Type} (s : PubStore α) (k : String) : Option α :=
  match s.find? (fun p => p.1 == k) with
  | some p => some p.2
  | none => none

def pubContains {α : Type} (s : PubStore α) (k : String) : Bool :=
  s.any (fun p => p.1 == k)

def pubPublish {α : Type} (s : PubStore α) (k : String) (v : α) : PubStore α :=
  if pubContains s k then s.map (fun p => if p.1 == k then (k, v) else p)
  else s ++ [(k, v)]

def pubUnpublish {α : Type} (s : PubStore α) (k : String) : PubStore α :=
  s.filter (fun p => !(p.1 == k))

def pubKeys {α : Type} (s : PubStore α) : List String :=
  s.map (fun p => p.1)

/-! ## Enumerations (api/go/config and pillar/types) -/

/-- zconfig.ZNetworkInstType / types.NetworkInstanceType (the internal type is
a numeric cast of the wire enum, modelled as the same inductive). -/
inductive NetworkInstanceType where
  | znetInstFirst
  | znetInstSwitch
  | znetInstLocal
  | znetInstCloud
  | znetInstMesh
deriving DecidableEq, Repr

/-- zconfig address types / types.AddressType (numeric cast, same inductive). -/
inductive AddressType where
  | atNone
  | atIPV4
  | atIPV6
  | atCryptoIPV4
  | atCryptoIPV6
deriving DecidableEq, Repr

/-- zconfig.ZNetworkOpaqueConfigType. -/
inductive ZOpaqueType where
  | oNone
  | oVPN
  | oOther (code : Nat)
deriving DecidableEq, Repr

/-- Modelled from the spec: types.DhcpType (the types package is not under
src/); the claims only need DT_NONE, DT_STATIC, DT_CLIENT and a catch-all for
any other controller-fed value. -/
inductive DhcpType where
  | dtNone
  | dtStatic
  | dtClient
  | dtOther (code : Nat)
deriving DecidableEq, Repr

def dhcpTypeStr : DhcpType → String
  | DhcpType.dtNone => "DT_NONE"
  | DhcpType.dtStatic => "DT_STATIC"
  | DhcpType.dtClient => "DT_CLIENT"
  | DhcpType.dtOther code => "DT_" ++ toString code

/-- Modelled from the spec: types.IoType with its IsNet predicate (the types
package is not under src/); eth, wlan and wwan are the network-capable types. -/
inductive IoType where
  | ioNop
  | ioNetEth
  | ioUSB
  | ioCom
  | ioNetWLAN
  | ioNetWWAN
  | ioOther (code : Nat)
deriving DecidableEq, Repr

def IoType.isNet : IoType → Bool
  | IoType.ioNetEth => true
  | IoType.ioNetWLAN => true
  | IoType.ioNetWWAN => true
  | _ => false

/-! ## Wire-format (zconfig) structures -/

structure ZUUIDAndVersion where
  uuid : String
  version : String
deriving DecidableEq, Repr

structure ZDeviceOpsCmd where
  counter : Nat
  desiredState : String
  opsTime : String
deriving DecidableEq, Repr

structure ZOSKeyTags where
  oSVerKey : String
  oSVerValue : String
deriving DecidableEq, Repr

structure ZSignInfo where
  signature : String
  signercerturl : String
  intercertsurl : String
deriving DecidableEq, Repr

structure ZImage where
  dsId : String
  name : String
  uuidandversion : ZUUIDAndVersion
  iformat : Nat
  sizeBytes : Nat
  siginfo : ZSignInfo
  sha256 : String
deriving DecidableEq, Repr

/-- zconfig.Drive; target and drvtype enums are carried as their String() form. -/
structure ZDrive where
  image : Option ZImage
  readonly : Bool
  preserve : Bool
  maxsizebytes : Nat
  target : String
  drvtype : String
deriving DecidableEq, Repr

/-- zconfig.BaseOSConfig; the BaseOSDetails wrapper is flattened to its
BaseOSParams list. -/
structure ZBaseOSConfig where
  uuidandversion : ZUUIDAndVersion
  baseOSVersion : String
  activate : Bool
  baseOSParams : List ZOSKeyTags
  drives : List ZDrive
deriving DecidableEq, Repr

structure ZIpRange where
  start : String
  rangeEnd : String
deriving DecidableEq, Repr

/-- zconfig.Ipspec; the wire dhcp code is cast to types.DhcpType by the
network-object parser, modelled as the same inductive. -/
structure ZIpspec where
  dhcp : DhcpType
  domain : String
  subnet : String
  gateway : String
  ntp : String
  dns : List String
  dhcpRange : Option ZIpRange
deriving DecidableEq, Repr

structure ZDNSEntry where
  hostName : String
  address : List String
deriving DecidableEq, Repr

structure ZLispServer where
  zsType : Nat
  nameOrIp : String
  credential : String
deriving DecidableEq, Repr

structure ZLispConfig where
  lispMSs : List ZLispServer
  lispInstanceId : Nat
  allocate : Bool
  exportprivate : Bool
  allocationprefix : List Nat
  allocationprefixlen : Nat
  experimental : Bool
deriving DecidableEq, Repr

structure ZOpaqueConfig where
  oconfig : String
  otype : ZOpaqueType
  lispConfig : Option ZLispConfig
deriving DecidableEq, Repr

structure ZNetInstPort where
  name : String
deriving DecidableEq, Repr

structure ZNetworkInstanceConfig where
  uuidandversion : ZUUIDAndVersion
  displayname : String
  instType : NetworkInstanceType
  activate : Bool
  port : Option ZNetInstPort
  ipType : AddressType
  cfg : Option ZOpaqueConfig
  ip : Option ZIpspec
  dns : List ZDNSEntry
deriving DecidableEq, Repr

structure ZACLMatch where
  mtype : String
  value : String
deriving DecidableEq, Repr

structure ZACLAction where
  limit : Bool
  limitrate : Nat
  limitunit : String
  limitburst : Nat
  portmap : Bool
  appPort : Nat
deriving DecidableEq, Repr

/-- zconfig.ACL; the Matches field is named aclMatches here because matches is
a reserved word in Lean. -/
structure ZACL where
  id : Int
  name : String
  dir : Nat
  aclMatches : List ZACLMatch
  actions : List ZACLAction
deriving DecidableEq, Repr

structure ZNetworkAdapter where
  name : String
  networkId : String
  macAddress : String
  addr : String
  cryptoEid : String
  acls : List ZACL
  lispsignature : String
  pemcert : String
  pemprivatekey : String
deriving DecidableEq, Repr

structure ZVmConfig where
  kernel : String
  bootloader : String
  ramdisk : String
  rootdev : String
  maxmem : Nat
  memory : Nat
  vcpus : Nat
  virtualizationMode : Nat
  enableVnc : Bool
  vncDisplay : Nat
  vncPasswd : String
deriving DecidableEq, Repr

structure ZInstanceOpsCmd where
  counter : Nat
  opsTime : String
deriving DecidableEq, Repr

structure ZAdapter where
  atype : Nat
  name : String
deriving DecidableEq, Repr

structure ZAppInstanceConfig where
  uuidandversion : ZUUIDAndVersion
  displayname : String
  activate : Bool
  fixedresources : ZVmConfig
  drives : List ZDrive
  interfaces : List ZNetworkAdapter
  adapters : List ZAdapter
  restart : Option ZInstanceOpsCmd
  purge : Option ZInstanceOpsCmd
  userData : String
  remoteConsole : Bool
  cipherData : String
deriving DecidableEq, Repr

/-- Modelled from the spec: types.NetworkType — none / IPv4 / IPv6 / crypto-EID
(the types package is not under src/; the numeric wire cast is modelled as the
same inductive, with unknown codes kept for the unknown-type error branch). -/
inductive NetworkType where
  | ntNOOP
  | ntIPV4
  | ntIPV6
  | ntCryptoEID
  | ntOther (code : Nat)
deriving DecidableEq, Repr

/-- zconfig.ProxyProto. -/
inductive ZProxyProto where
  | pHTTP
  | pHTTPS
  | pSOCKS
  | pFTP
  | pOther (code : Nat)
deriving DecidableEq, Repr

/-- One zconfig.ProxyServer entry of a proxy configuration. -/
structure ZProxyServer where
  proto : ZProxyProto
  server : String
  port : Nat
deriving DecidableEq, Repr

/-- zconfig.ProxyConfig (EntProxy of a network). -/
structure ZProxyConfig where
  networkProxyEnable : Bool
  networkProxyURL : String
  pacfile : String
  proxyCertPEM : List String
  exceptions : String
  proxies : List ZProxyServer
deriving DecidableEq, Repr

/-- zconfig.WirelessType. -/
inductive ZWirelessType where
  | cellular
  | wifi
  | other (code : Nat)
deriving DecidableEq, Repr

/-- zconfig.CellularConfig. -/
structure ZCellularCfg where
  apn : String
deriving DecidableEq, Repr

/-- zconfig.WiFiKeyScheme. -/
inductive ZWiFiKeyScheme where
  | wpaPsk
  | wpaEap
  | other (code : Nat)
deriving DecidableEq, Repr

/-- zconfig.WifiConfig (wire). -/
structure ZWifiCfg where
  wifiSSID : String
  keyScheme : ZWiFiKeyScheme
  identity : String
  password : String
  priority : Nat
  cipherData : String
deriving DecidableEq, Repr

/-- zconfig.WirelessConfig (wire). -/
structure ZWirelessCfg where
  wtype : ZWirelessType
  cellularCfg : List ZCellularCfg
  wifiCfg : List ZWifiCfg
deriving DecidableEq, Repr

/-- zconfig.NetworkConfig; the wire type code is cast to types.NetworkType by
parseOneNetworkXObjectConfig, modelled as the same inductive. -/
structure ZNetworkConfig where
  id : String
  ntype : NetworkType
  entProxy : Option ZProxyConfig
  ip : Option ZIpspec
  dns : List ZDNSEntry
  wireless : Option ZWirelessCfg
deriving DecidableEq, Repr

/-- zconfig.DatastoreConfig; dtypeName stands for DType.String() (the enum
name of the wire datastore type). -/
structure ZDatastoreConfig where
  id : String
  dtypeName : String
  fqdn : String
  apiKey : String
  password : String
  dpath : String
  region : String
  cipherData : String
deriving DecidableEq, Repr

/-- zconfig.PhyIOUsagePolicy (wire). -/
structure ZUsagePolicy where
  freeUplink : Bool
deriving DecidableEq, Repr

/-- zconfig.PhysicalIO: one entry of the device I/O list.  Phyaddrs is a
string-to-string map, modelled as an association list (the source iterates it
in unspecified map order; the list order stands in for it). -/
structure ZPhysicalIO where
  ptype : IoType
  phylabel : String
  logicallabel : String
  assigngrp : String
  usage : Nat
  usagePolicy : Option ZUsagePolicy
  phyaddrs : List (String × String)
deriving DecidableEq, Repr

/-- zconfig.SystemAdapter; the Alias field is named aliasName here because
alias is a reserved word in Lean. -/
structure ZSystemAdapter where
  name : String
  aliasName : String
  lowerLayerName : String
  uplink : Bool
  freeUplink : Bool
  addr : String
  networkUUID : String
deriving DecidableEq, Repr

structure ZConfigItem where
  key : String
  value : String
deriving DecidableEq, Repr

/-! ## Internal (pillar/types) structures -/

structure UUIDandVersion where
  uuid : String
  version : String
deriving DecidableEq, Repr

structure OsVerParams where
  osVerKey : String
  osVerValue : String
deriving DecidableEq, Repr

structure StorageConfig where
  datastoreID : String
  name : String
  nameIsURL : Bool
  imageID : String
  format : Nat
  size : Nat
  imageSignature : String
  signatureKey : String
  certificateChain : List String
  readOnly : Bool
  preserve : Bool
  maxsizebytes : Nat
  target : String
  devtype : String
  imageSha256 : String
deriving DecidableEq, Repr

/-- The Go zero value of types.StorageConfig. -/
def zeroStorageConfig : StorageConfig :=
  { datastoreID := "", name := "", nameIsURL := false, imageID := "", format := 0,
    size := 0, imageSignature := "", signatureKey := "", certificateChain := [],
    readOnly := false, preserve := false, maxsizebytes := 0, target := "",
    devtype := "", imageSha256 := "" }

structure BaseOsConfig where
  uuidandversion : UUIDandVersion
  activate : Bool
  baseOsVersion : String
  osParams : List OsVerParams
  storageConfigList : List StorageConfig
  configSha256 : String
deriving DecidableEq, Repr

structure CertObjConfig where
  uuidandversion : UUIDandVersion
  configSha256 : String
  storageConfigList : List StorageConfig
deriving DecidableEq, Repr

/-- types.ACEMatch; Matches/Type renamed for Lean reserved words. -/
structure ACEMatch where
  mtype : String
  value : String
deriving DecidableEq, Repr

structure ACEAction where
  limit : Bool
  limitRate : Nat
  limitUnit : String
  limitBurst : Nat
  portMap : Bool
  targetPort : Nat
deriving DecidableEq, Repr

structure ACE where
  ruleID : Int
  name : String
  dir : Nat
  aclMatches : List ACEMatch
  actions : List ACEAction
deriving DecidableEq, Repr

structure UnderlayNetworkConfig where
  name : String
  network : String
  appMacAddr : Option String
  appIPAddr : Option String
  acls : List ACE
  intfOrder : Int
  error : String
deriving DecidableEq, Repr

/-- The Go zero value of types.UnderlayNetworkConfig
(new(types.UnderlayNetworkConfig) in the source). -/
def zeroUnderlay : UnderlayNetworkConfig :=
  { name := "", network := "", appMacAddr := none, appIPAddr := none,
    acls := [], intfOrder := 0, error := "" }

structure EIDOverlayConfig where
  name : String
  network : String
  appMacAddr : Option String
  appIPAddr : Option String
  eid : Option String
  lispSignature : String
  pemCert : String
  pemPrivateKey : String
  acls : List ACE
  intfOrder : Int
  error : String
deriving DecidableEq, Repr

/-- The Go zero value of types.EIDOverlayConfig. -/
def zeroOverlay : EIDOverlayConfig :=
  { name := "", network := "", appMacAddr := none, appIPAddr := none, eid := none,
    lispSignature := "", pemCert := "", pemPrivateKey := "", acls := [],
    intfOrder := 0, error := "" }

structure IoAdapter where
  atype : Nat
  name : String
deriving DecidableEq, Repr

structure AppInstanceOpsCmd where
  counter : Nat
  applyTime : String
deriving DecidableEq, Repr

/-- Modelled from the spec: types.CipherBlockStatus bookkeeping record
(cipher-object handling is an external concern; parseCipherBlock is not under
src/ and no claim depends on its contents). -/
structure CipherBlockStatus where
  key : String
  hasCipher : Bool
deriving DecidableEq, Repr

/-- types.VmConfig (the FixedResources fields copied by the source). -/
structure VmConfig where
  kernel : String
  bootLoader : String
  ramdisk : String
  maxMem : Nat
  memory : Nat
  rootDev : String
  vCpus : Nat
  virtualizationMode : Nat
  enableVnc : Bool
  vncDisplay : Nat
  vncPasswd : String
deriving DecidableEq, Repr

structure AppInstanceConfig where
  uuidandversion : UUIDandVersion
  displayName : String
  activate : Bool
  fixedResources : VmConfig
  storageConfigList : List StorageConfig
  overlayNetworkList : List EIDOverlayConfig
  underlayNetworkList : List UnderlayNetworkConfig
  ioAdapterList : List IoAdapter
  restartCmd : AppInstanceOpsCmd
  purgeCmd : AppInstanceOpsCmd
  cloudInitUserData : Option String
  remoteConsole : Bool
  cipherBlockStatus : CipherBlockStatus
  configSha256 : String
  errors : List String
deriving DecidableEq, Repr

structure DnsNameToIP where
  hostName : String
  ips : List String
deriving DecidableEq, Repr

structure MapServer where
  serviceType : Nat
  nameOrIp : String
  credential : String
deriving DecidableEq, Repr

structure NetworkInstanceLispConfig where
  mapServers : List MapServer
  iid : Nat
  allocate : Bool
  exportPrivate : Bool
  eidPrefix : List Nat
  eidPrefixLen : Nat
  experimental : Bool
deriving DecidableEq, Repr

structure IpRange where
  start : Option String
  rangeEnd : Option String
deriving DecidableEq, Repr

structure NetworkInstanceConfig where
  uuidandversion : UUIDandVersion
  displayName : String
  ntype : NetworkInstanceType
  activate : Bool
  logicallabel : String
  ipType : AddressType
  hasEncap : Bool
  opaqueConfig : String
  lispConfig : Option NetworkInstanceLispConfig
  subnet : Option Cidr
  gateway : Option String
  ntpServer : Option String
  dnsServers : List String
  dhcpRange : IpRange
  domainName : String
  dnsNameToIPList : List DnsNameToIP
deriving DecidableEq, Repr

/-- The Go zero value of types.NetworkInstanceConfig to which the translator
adds fields. -/
def zeroNetworkInstanceConfig : NetworkInstanceConfig :=
  { uuidandversion := { uuid := "", version := "" }, displayName := "",
    ntype := NetworkInstanceType.znetInstFirst, activate := false,
    logicallabel := "", ipType := AddressType.atNone, hasEncap := false,
    opaqueConfig := "", lispConfig := none, subnet := none, gateway := none,
    ntpServer := none, dnsServers := [], dhcpRange := { start := none, rangeEnd := none },
    domainName := "", dnsNameToIPList := [] }

structure CellConfig where
  apn : String
deriving DecidableEq, Repr

/-- Modelled from the spec: the numeric types.WirelessType and
types.WifiKeySchemeType constants (types package not under src/; zero is the
unset value). -/
def wirelessTypeCellular : Nat := 1

def wirelessTypeWifi : Nat := 2

def keySchemeWpaPsk : Nat := 1

def keySchemeWpaEap : Nat := 2

structure WifiConfig where
  ssid : String
  keyScheme : Nat
  identity : String
  password : String
  priority : Nat
  cipherBlockStatus : CipherBlockStatus
deriving DecidableEq, Repr

structure WirelessConfig where
  wType : Nat
  cellular : List CellConfig
  wifi : List WifiConfig
deriving DecidableEq, Repr

def zeroWirelessConfig : WirelessConfig :=
  { wType := 0, cellular := [], wifi := [] }

/-- Modelled from the spec: the numeric types.NetworkProxyType constants
(types package not under src/; zero is the unset value). -/
def nptHTTP : Nat := 1

def nptHTTPS : Nat := 2

def nptSOCKS : Nat := 3

def nptFTP : Nat := 4

structure ProxyEntry where
  ptype : Nat
  server : String
  port : Nat
deriving DecidableEq, Repr

structure ProxyConfig where
  proxies : List ProxyEntry
  exceptions : String
  pacfile : String
  networkProxyEnable : Bool
  networkProxyURL : String
  proxyCertPEM : List String
deriving DecidableEq, Repr

def zeroProxyConfig : ProxyConfig :=
  { proxies := [], exceptions := "", pacfile := "", networkProxyEnable := false,
    networkProxyURL := "", proxyCertPEM := [] }

/-- types.NetworkXObjectConfig: written by parseOneNetworkXObjectConfig and
read back from the published network-object store by the system-adapter
resolver. -/
structure NetworkXObjectConfig where
  uuid : String
  ntype : NetworkType
  dhcp : DhcpType
  subnet : Option Cidr
  gateway : Option String
  domainName : String
  ntpServer : Option String
  dnsServers : List String
  dhcpRange : IpRange
  proxy : Option ProxyConfig
  wirelessCfg : WirelessConfig
  dnsNameToIPList : List DnsNameToIP
  error : String
deriving DecidableEq, Repr

/-- The Go zero value of types.NetworkXObjectConfig. -/
def zeroNetworkXObjectConfig : NetworkXObjectConfig :=
  { uuid := "", ntype := NetworkType.ntNOOP, dhcp := DhcpType.dtNone, subnet := none,
    gateway := none, domainName := "", ntpServer := none, dnsServers := [],
    dhcpRange := { start := none, rangeEnd := none }, proxy := none,
    wirelessCfg := zeroWirelessConfig, dnsNameToIPList := [], error := "" }

/-- types.NetworkXObjectConfig.HasError(). -/
def NetworkXObjectConfig.hasError (n : NetworkXObjectConfig) : Bool :=
  !(n.error == "")

structure PhyIOUsagePolicy where
  freeUplink : Bool
deriving DecidableEq, Repr

structure PhysicalAddress where
  pciLong : String
  ifname : String
  serial : String
  irq : String
  ioports : String
  unknownType : String
deriving DecidableEq, Repr

/-- The Go zero value of types.PhysicalAddress. -/
def zeroPhysicalAddress : PhysicalAddress :=
  { pciLong := "", ifname := "", serial := "", irq := "", ioports := "",
    unknownType := "" }

/-- types.DatastoreConfig as published by publishDatastoreConfig; its key is
the parsed UUID rendered back to a string. -/
structure DatastoreConfig where
  uuid : String
  dsType : String
  fqdn : String
  apiKey : String
  password : String
  dpath : String
  region : String
  cipherBlockStatus : CipherBlockStatus
deriving DecidableEq, Repr

structure PhysicalIOAdapter where
  ptype : IoType
  phylabel : String
  logicallabel : String
  assigngrp : String
  usage : Nat
  usagePolicy : PhyIOUsagePolicy
  phyaddr : PhysicalAddress
deriving DecidableEq, Repr

/-- types.NetworkPortConfig.  The sticky per-port error-with-timestamp field
(types package not under src/) is modelled from the spec as the list of all
failures recorded on the port, so theorems can count recordings; the
controller-visible error is the first entry. -/
structure NetworkPortConfig where
  ifName : String
  phylabel : String
  logicallabel : String
  aliasName : String
  isMgmt : Bool
  free : Bool
  dhcp : DhcpType
  addrSubnet : String
  gateway : Option String
  domainName : String
  ntpServer : Option String
  dnsServers : List String
  networkUUID : String
  proxyConfig : ProxyConfig
  wirelessCfg : WirelessConfig
  failures : List String
deriving DecidableEq, Repr

/-- The Go zero value of types.NetworkPortConfig
(new(types.NetworkPortConfig) in the source). -/
def zeroPort : NetworkPortConfig :=
  { ifName := "", phylabel := "", logicallabel := "", aliasName := "",
    isMgmt := false, free := false, dhcp := DhcpType.dtNone, addrSubnet := "",
    gateway := none, domainName := "", ntpServer := none, dnsServers := [],
    networkUUID := "", proxyConfig := zeroProxyConfig,
    wirelessCfg := zeroWirelessConfig, failures := [] }

/-- Modelled from the spec: types.NetworkPortConfig.RecordFailure attaches a
resolution failure to the port without dropping it. -/
def recordFailure (p : NetworkPortConfig) (errStr : String) : NetworkPortConfig :=
  { p with failures := p.failures ++ [errStr] }

/-- types.DevicePortConfigVersion DPCInitial. -/
def DPCInitial : Nat := 0

/-- types.DevicePortConfigVersion DPCIsMgmt. -/
def DPCIsMgmt : Nat := 1

/-- types.DevicePortConfig; TimePriority is modelled as a Nat clock value. -/
structure DevicePortConfig where
  version : Nat
  timePriority : Nat
  ports : List NetworkPortConfig
deriving DecidableEq, Repr

/-- types.DeviceOpsCmd: the persisted reboot/backup record. -/
structure DeviceOpsCmd where
  counter : Nat
  desiredState : String
  opsTime : String
deriving DecidableEq, Repr

/-! ## Global config items (types.ConfigItemValueMap, modelled from the spec:
the types config-item machinery is not under src/) -/

inductive CfgVal where
  | intVal (n : Nat)
  | boolVal (b : Bool)
  | strVal (s : String)
deriving DecidableEq, Repr

/-- Modelled from the spec: per-key item specification (type and bounds). -/
inductive CfgItemType where
  | intType (lo hi : Nat)
  | boolType
  | strType
deriving DecidableEq, Repr

/-- Modelled from the spec: types.ConfigItemValueMap, a mapping from config
item key to validated value.  Both the live aggregate and every new aggregate
are built from the same default baseline by in-place updates, so association
lists compare equal exactly when the maps do. -/
structure GlobalConfig where
  items : List (String × CfgVal)
deriving DecidableEq, Repr

structure ConfigItemStatus where
  err : Option String
  value : String
deriving DecidableEq, Repr

structure GlobalStatus where
  configItems : List (String × ConfigItemStatus)
deriving DecidableEq, Repr

def emptyGlobalStatus : GlobalStatus := { configItems := [] }

def ConfigIntervalKey : String := "timer.config.interval"

def MetricIntervalKey : String := "timer.metric.interval"

def SSHAuthorizedKeysKey : String := "debug.enable.ssh"

def UsbAccessKey : String := "debug.enable.usb"

def cfgStringValue : CfgVal → String
  | CfgVal.intVal n => toString n
  | CfgVal.boolVal b => toString b
  | CfgVal.strVal s => s

def gcGet (gc : GlobalConfig) (k : String) : Option CfgVal :=
  match gc.items.find? (fun p => p.1 == k) with
  | some p => some p.2
  | none => none

def gcSet (gc : GlobalConfig) (k : String) (v : CfgVal) : GlobalConfig :=
  if gc.items.any (fun p => p.1 == k) then
    { items := gc.items.map (fun p => if p.1 == k then (k, v) else p) }
  else
    { items := gc.items ++ [(k, v)] }

def gcGetInt (gc : GlobalConfig) (k : String) : Nat :=
  match gcGet gc k with
  | some (CfgVal.intVal n) => n
  | _ => 0

def gcGetStr (gc : GlobalConfig) (k : String) : String :=
  match gcGet gc k with
  | some (CfgVal.strVal s) => s
  | _ => ""

/-- Modelled from the spec: the hard-coded default baseline
(types.DefaultConfigItemValueMap); only the keys the source reads are listed. -/
def DefaultConfigItemValueMap : GlobalConfig :=
  { items := [(ConfigIntervalKey, CfgVal.intVal 60),
              (MetricIntervalKey, CfgVal.intVal 60),
              (SSHAuthorizedKeysKey, CfgVal.strVal ""),
              (UsbAccessKey, CfgVal.boolVal true)] }

/-- Modelled from the spec: the specification map used by ParseItem. -/
def defaultSpecMap : List (String × CfgItemType) :=
  [(ConfigIntervalKey, CfgItemType.intType 5 3600),
   (MetricIntervalKey, CfgItemType.intType 5 3600),
   (SSHAuthorizedKeysKey, CfgItemType.strType),
   (UsbAccessKey, CfgItemType.boolType)]

/-- Modelled from the spec: parse/validate one raw string value against its
item specification. -/
def validateCfgItem : CfgItemType → String → Option CfgVal
  | CfgItemType.intType lo hi, v =>
      if !v.toList.isEmpty && v.toList.all Char.isDigit then
        (if lo ≤ digitsToNat v.toList ∧ digitsToNat v.toList ≤ hi then
          some (CfgVal.intVal (digitsToNat v.toList))
        else none)
      else none
  | CfgItemType.boolType, v =>
      if v == "true" then some (CfgVal.boolVal true)
      else if v == "false" then some (CfgVal.boolVal false)
      else none
  | CfgItemType.strType, v => some (CfgVal.strVal v)

/-- Modelled from the spec: types.ConfigItemSpecMap.ParseItem.  On success the
value is set in the new aggregate; on failure the previous aggregate's value
for that key is retained and an error is reported alongside the string form of
the value in effect. -/
def parseItemModel (specMap : List (String × CfgItemType)) (newGC oldGC : GlobalConfig)
    (key value : String) : GlobalConfig × CfgVal × Option String :=
  match specMap.find? (fun p => p.1 == key) with
  | none => (newGC, CfgVal.strVal "", some ("Unknown key " ++ key))
  | some sp =>
      match validateCfgItem sp.2 value with
      | some v => (gcSet newGC key v, v, none)
      | none =>
          let prev := (gcGet oldGC key).getD (CfgVal.strVal "")
          (gcSet newGC key prev, prev, some ("bad value " ++ value ++ " for " ++ key))

def gsSet (gs : GlobalStatus) (k : String) (v : ConfigItemStatus) : GlobalStatus :=
  if gs.configItems.any (fun p => p.1 == k) then
    { configItems := gs.configItems.map (fun p => if p.1 == k then (k, v) else p) }
  else
    { configItems := gs.configItems ++ [(k, v)] }

/-! ## Event trace and process-wide state

The Go file keeps its memo state in package-level variables and its stores in
the getconfigContext / zedagentContext; both are collected into one AgentState
record.  Every externally visible side effect (object-store publish/unpublish,
persisted-file write/remove, timer/ssh updates, the application-shutdown
sweep) is recorded as an event so theorems can count calls. -/

inductive AgentEvent where
  | pubBaseOs (k : String)
  | unpubBaseOs (k : String)
  | pubCertObj (k : String)
  | unpubCertObj (k : String)
  | pubAppInst (k : String)
  | unpubAppInst (k : String)
  | pubNetInst (k : String)
  | unpubNetInst (k : String)
  | pubNetX (k : String)
  | unpubNetX (k : String)
  | pubDatastore (k : String)
  | unpubDatastore (k : String)
  | pubPhyAdapters (adapterList : List PhysicalIOAdapter)
  | pubDevicePort (c : DevicePortConfig)
  | fileWrite (c : DeviceOpsCmd)
  | fileRemove
  | sweepStart
  | pubZedAgentStatus
  | pubGlobal (g : GlobalConfig)
  | cfgTimerUpdate (n : Nat)
  | metricsTimerUpdate (n : Nat)
  | sshKeysUpdate (s : String)
  | pubDevInfo
deriving DecidableEq, Repr

structure AgentState where
  baseosPrevConfigHash : Option (List ZBaseOSConfig)
  networkConfigPrevConfigHash : Option (List ZNetworkConfig)
  networkInstancePrevConfigHash : Option (List ZNetworkInstanceConfig)
  appinstancePrevConfigHash : Option (List ZAppInstanceConfig)
  systemAdaptersPrevConfigHash : Option (List ZSystemAdapter)
  deviceIoListPrevConfigHash : Option (List (Option ZPhysicalIO))
  datastoreConfigPrevConfigHash : Option (List ZDatastoreConfig)
  itemsPrevConfigHash : Option (List ZConfigItem)
  rebootPrevConfigHash : Option ZDeviceOpsCmd
  rebootPrevReturn : Bool
  rebootConfigFile : Option DeviceOpsCmd
  rebootConfigCounter : Nat
  deviceReboot : Bool
  rebootCmd : Bool
  updateInprogress : Bool
  rebootCmdDeferred : Bool
  currentRebootReason : String
  pubBaseOsConfig : PubStore BaseOsConfig
  pubCertObjConfig : PubStore CertObjConfig
  pubAppInstanceConfig : PubStore AppInstanceConfig
  pubNetworkInstanceConfig : PubStore NetworkInstanceConfig
  pubNetworkXObjectConfig : PubStore NetworkXObjectConfig
  pubDatastoreConfig : PubStore DatastoreConfig
  physicalIoAdapterMap : List (String × PhysicalIOAdapter)
  devicePortConfig : DevicePortConfig
  globalConfig : GlobalConfig
  globalStatus : GlobalStatus
  specMap : List (String × CfgItemType)
deriving DecidableEq, Repr

/-! ## Storage and certificate translators -/

/-- types.BaseOsObj object type tag. -/
def BaseOsObj : String := "baseOs.obj"

/-- types.AppImgObj object type tag. -/
def AppImgObj : String := "appImg.obj"

/-- One element of parseStorageConfigList.  When drive.Image is nil the source
records nilUUID as the datastore for error reporting (and would in fact fault
on the trailing unconditional Image.Sha256 read, modelled as the empty sha). -/
def parseStorageConfig (drive : ZDrive) : StorageConfig :=
  let image :=
    match drive.image with
    | none => { zeroStorageConfig with datastoreID := nilUUIDStr }
    | some im =>
        { zeroStorageConfig with
          datastoreID := uuidFromStrOrNil im.dsId,
          name := im.name,
          imageID := uuidFromStrOrNil im.uuidandversion.uuid,
          format := im.iformat,
          size := im.sizeBytes,
          imageSignature := im.siginfo.signature,
          signatureKey := im.siginfo.signercerturl,
          certificateChain :=
            if im.siginfo.intercertsurl ≠ "" then [im.siginfo.intercertsurl] else [] }
  { image with
    readOnly := drive.readonly,
    preserve := drive.preserve,
    maxsizebytes := drive.maxsizebytes,
    target := lowerStr drive.target,
    devtype := lowerStr drive.drvtype,
    imageSha256 := match drive.image with | some im => im.sha256 | none => "" }

/-- parseStorageConfigList; the source fills a pre-allocated slice in index
order, modelled as a map.  The objType argument is carried but (as in the
source) never read. -/
def parseStorageConfigList (objType : String) (drives : List ZDrive) : List StorageConfig :=
  drives.map parseStorageConfig

/-- getCertObjConfig: the placeholder storage entry synthesized for one
certificate URL. -/
def certDriveEntry (image : StorageConfig) (certUrl : String) : StorageConfig :=
  { zeroStorageConfig with
    datastoreID := image.datastoreID,
    name := certUrl,
    nameIsURL := true,
    size := 100 * 1024,
    imageSha256 := "" }

/-- The certificate-counting first pass of getCertObjects. -/
def countCertsOf (drives : List StorageConfig) : Nat :=
  drives.foldl
    (fun n image =>
      let n2 := if image.signatureKey ≠ "" then n + 1 else n
      image.certificateChain.foldl
        (fun m certUrl => if certUrl ≠ "" then m + 1 else m) n2)
    0

/-- The entry-building second pass of getCertObjects (the source fills an
array of size countCertsOf in the same traversal order). -/
def certStorageList (drives : List StorageConfig) : List StorageConfig :=
  drives.foldl
    (fun acc image =>
      let acc2 :=
        if image.signatureKey ≠ "" then acc ++ [certDriveEntry image image.signatureKey]
        else acc
      image.certificateChain.foldl
        (fun acc3 certUrl =>
          if certUrl ≠ "" then acc3 ++ [certDriveEntry image certUrl] else acc3)
        acc2)
    []

/-- getCertObjects: scans an owning entity's storage list and synthesizes its
certificate bundle, or nothing when no certificates are referenced. -/
def getCertObjects (uv : UUIDandVersion) (sha : String) (drives : List StorageConfig) :
    Option CertObjConfig :=
  if countCertsOf drives = 0 then none
  else some { uuidandversion := uv, configSha256 := sha, storageConfigList := certStorageList drives }

/-- publishCertObjConfig (keyed by the owning entity's UUID string). -/
def publishCertObjConfig (cs : PubStore CertObjConfig) (config : CertObjConfig)
    (uuidStr : String) : PubStore CertObjConfig × List AgentEvent :=
  (pubPublish cs uuidStr config, [AgentEvent.pubCertObj uuidStr])

/-- unpublishCertObjConfig: a no-op (with an error log) when no bundle is
stored under the key. -/
def unpublishCertObjConfig (cs : PubStore CertObjConfig) (uuidStr : String) :
    PubStore CertObjConfig × List AgentEvent :=
  match pubGet cs uuidStr with
  | none => (cs, [])
  | some _ => (pubUnpublish cs uuidStr, [AgentEvent.unpubCertObj uuidStr])

/-- Modelled from the spec: parseCipherBlock bookkeeping (cipherconfig.go is
not under src/; no claim depends on its contents). -/
def parseCipherBlock (key : String) (cipherData : String) : CipherBlockStatus :=
  { key := key, hasCipher := !(cipherData == "") }

/-! ## App-interface (underlay / overlay) translators -/

def lookupNetworkInstanceId (id : String) (cfgNetworkInstances : List ZNetworkInstanceConfig) :
    Option ZNetworkInstanceConfig :=
  cfgNetworkInstances.find? (fun netEnt => id == netEnt.uuidandversion.uuid)

def lookupNetworkInstanceById (uuid : String)
    (networkInstancesConfigList : List ZNetworkInstanceConfig) :
    Option ZNetworkInstanceConfig :=
  networkInstancesConfigList.find? (fun entry => uuid == entry.uuidandversion.uuid)

def isOverlayNetworkInstance (netInstEntry : ZNetworkInstanceConfig) : Bool :=
  netInstEntry.instType == NetworkInstanceType.znetInstMesh

/-- The per-ACL translation shared by the underlay and overlay entry parsers. -/
def parseACE (acl : ZACL) : ACE :=
  { ruleID := acl.id,
    name := acl.name,
    dir := acl.dir,
    aclMatches := acl.aclMatches.map (fun m => { mtype := m.mtype, value := m.value }),
    actions := acl.actions.map (fun action =>
      { limit := action.limit,
        limitRate := action.limitrate,
        limitUnit := action.limitunit,
        limitBurst := action.limitburst,
        portMap := action.portmap,
        targetPort := action.appPort }) }

/-- The interim interface-ordering key: the ACL loop seeds intfOrder with the
first rule identifier seen while the accumulator is still zero. -/
def seedIntfOrder (acls : List ZACL) : Int :=
  acls.foldl (fun intfOrder acl => if intfOrder = 0 then acl.id else intfOrder) 0

def ulCantFindErr (cfgApp : ZAppInstanceConfig) (intfEnt : ZNetworkAdapter) : String :=
  "App " ++ cfgApp.displayname ++ "-" ++ cfgApp.uuidandversion.uuid ++
    ": Can not find " ++ intfEnt.networkId ++ " in network instances.\n"

def ulBadUuidErr (cfgApp : ZAppInstanceConfig) (intfEnt : ZNetworkAdapter) : String :=
  "App " ++ cfgApp.displayname ++ "-" ++ cfgApp.uuidandversion.uuid ++
    ": Malformed Network UUID " ++ intfEnt.networkId ++ "\n"

def ulBadMacErr (cfgApp : ZAppInstanceConfig) (intfEnt : ZNetworkAdapter) : String :=
  "App " ++ cfgApp.displayname ++ "-" ++ cfgApp.uuidandversion.uuid ++
    ": bad MAC:" ++ intfEnt.macAddress ++ "\n"

def ulBadIpErr (cfgApp : ZAppInstanceConfig) (intfEnt : ZNetworkAdapter) : String :=
  "App " ++ cfgApp.displayname ++ "-" ++ cfgApp.uuidandversion.uuid ++
    ": bad AppIPAddr:" ++ intfEnt.addr ++ "\n"

def ulIpv6Err (intfEnt : ZNetworkAdapter) : String :=
  "Static IPv6 addressing (" ++ intfEnt.addr ++ ") not yet supported.\n"

/-- The tail of parseUnderlayNetworkConfigEntry after all early returns: ACL
translation and the ordering key. -/
def underlayFinish (intfEnt : ZNetworkAdapter) (ulCfg : UnderlayNetworkConfig) :
    UnderlayNetworkConfig :=
  { ulCfg with acls := intfEnt.acls.map parseACE, intfOrder := seedIntfOrder intfEnt.acls }

/-- The static-address step of parseUnderlayNetworkConfigEntry. -/
def underlayAddrStep (cfgApp : ZAppInstanceConfig) (intfEnt : ZNetworkAdapter)
    (ulCfg : UnderlayNetworkConfig) : Option UnderlayNetworkConfig :=
  if intfEnt.addr ≠ "" then
    match parseIP? intfEnt.addr with
    | none => some { ulCfg with error := ulBadIpErr cfgApp intfEnt }
    | some ip =>
        let ulCfg2 := { ulCfg with appIPAddr := some ip }
        if ipIsV4 ip then some (underlayFinish intfEnt ulCfg2)
        else some { ulCfg2 with error := ulIpv6Err intfEnt }
  else some (underlayFinish intfEnt ulCfg)

/-- parseUnderlayNetworkConfigEntry: nil when the referenced instance is of
mesh type; an error-carrying underlay entity when the instance cannot be found
or a field fails to parse. -/
def parseUnderlayNetworkConfigEntry (cfgApp : ZAppInstanceConfig)
    (cfgNetworks : List ZNetworkConfig) (cfgNetworkInstances : List ZNetworkInstanceConfig)
    (intfEnt : ZNetworkAdapter) : Option UnderlayNetworkConfig :=
  let ulCfg := { zeroUnderlay with name := intfEnt.name }
  match lookupNetworkInstanceId intfEnt.networkId cfgNetworkInstances with
  | none => some { ulCfg with error := ulCantFindErr cfgApp intfEnt }
  | some networkInstanceEntry =>
      if isOverlayNetworkInstance networkInstanceEntry then none
      else
        match uuidFromStr? intfEnt.networkId with
        | none => some { ulCfg with error := ulBadUuidErr cfgApp intfEnt }
        | some u =>
            let ulCfg2 := { ulCfg with network := u }
            if intfEnt.macAddress ≠ "" then
              match parseMAC? intfEnt.macAddress with
              | none => some { ulCfg2 with error := ulBadMacErr cfgApp intfEnt }
              | some mac => underlayAddrStep cfgApp intfEnt { ulCfg2 with appMacAddr := some mac }
            else underlayAddrStep cfgApp intfEnt ulCfg2

def olBadEidErr (intfEnt : ZNetworkAdapter) : String :=
  "parseOverlayNetworkConfigEntry: bad CryptoEid " ++ intfEnt.cryptoEid ++ "\n"

def olBadAddrErr (intfEnt : ZNetworkAdapter) : String :=
  "parseOverlayNetworkConfigEntry: bad Addr " ++ intfEnt.addr ++ "\n"

def olBadMacErr (intfEnt : ZNetworkAdapter) : String :=
  "parseOverlayNetworkConfigEntry: bad MAC " ++ intfEnt.macAddress ++ "\n"

def olBadUuidErr (intfEnt : ZNetworkAdapter) : String :=
  "parseOverlayNetworkConfigEntry: Malformed UUID ignored: " ++ intfEnt.networkId

/-- The tail of parseOverlayNetworkConfigEntry after the EID block: the
AppIPAddr fallback to the EID, ACLs, signature fields and the ordering key. -/
def overlayFinish (intfEnt : ZNetworkAdapter) (olCfg : EIDOverlayConfig) : EIDOverlayConfig :=
  let olCfg2 := if olCfg.appIPAddr = none then { olCfg with appIPAddr := olCfg.eid } else olCfg
  { olCfg2 with
    acls := intfEnt.acls.map parseACE,
    lispSignature := intfEnt.lispsignature,
    pemCert := intfEnt.pemcert,
    pemPrivateKey := intfEnt.pemprivatekey,
    intfOrder := seedIntfOrder intfEnt.acls }

/-- The old/new EID location handling of parseOverlayNetworkConfigEntry. -/
def overlayEidStep (intfEnt : ZNetworkAdapter) (olCfg : EIDOverlayConfig) :
    Option EIDOverlayConfig :=
  if intfEnt.cryptoEid ≠ "" then
    match parseIP? intfEnt.cryptoEid with
    | none => some { olCfg with error := olBadEidErr intfEnt }
    | some eid =>
        let olCfg2 := { olCfg with eid := some eid }
        if intfEnt.addr ≠ "" then
          match parseIP? intfEnt.addr with
          | none => some { olCfg2 with error := olBadAddrErr intfEnt }
          | some ip => some (overlayFinish intfEnt { olCfg2 with appIPAddr := some ip })
        else some (overlayFinish intfEnt olCfg2)
  else
    if intfEnt.addr ≠ "" then
      match parseIP? intfEnt.addr with
      | none => some { olCfg with error := olBadAddrErr intfEnt }
      | some eid => some (overlayFinish intfEnt { olCfg with eid := some eid })
    else some (overlayFinish intfEnt olCfg)

/-- parseOverlayNetworkConfigEntry: nil when the referenced instance is not of
mesh type; an error-carrying overlay entity when the instance cannot be found
or a field fails to parse. -/
def parseOverlayNetworkConfigEntry (cfgApp : ZAppInstanceConfig)
    (cfgNetworks : List ZNetworkConfig) (cfgNetworkInstances : List ZNetworkInstanceConfig)
    (intfEnt : ZNetworkAdapter) : Option EIDOverlayConfig :=
  let olCfg := { zeroOverlay with name := intfEnt.name }
  match lookupNetworkInstanceId intfEnt.networkId cfgNetworkInstances with
  | none => some { olCfg with error := ulCantFindErr cfgApp intfEnt }
  | some networkInstanceEntry =>
      if !(isOverlayNetworkInstance networkInstanceEntry) then none
      else
        match uuidFromStr? intfEnt.networkId with
        | none => some { olCfg with error := olBadUuidErr intfEnt }
        | some u =>
            let olCfg2 := { olCfg with network := u }
            if intfEnt.macAddress ≠ "" then
              match parseMAC? intfEnt.macAddress with
              | none => some { olCfg2 with error := olBadMacErr intfEnt }
              | some mac => overlayEidStep intfEnt { olCfg2 with appMacAddr := some mac }
            else overlayEidStep intfEnt olCfg2

/-- Modelled insertion step for Go's sort.Slice (whose exact permutation is
unspecified); elements are placed in nondecreasing order of the key. -/
def insertByKey {α : Type} (key : α → Int) (x : α) : List α → List α
  | [] => [x]
  | y :: ys => if key x ≤ key y then x :: y :: ys else y :: insertByKey key x ys

/-- Modelled sort for Go's sort.Slice with less = key i < key j. -/
def sortByKey {α : Type} (key : α → Int) : List α → List α
  | [] => []
  | x :: xs => insertByKey key x (sortByKey key xs)

/-- parseUnderlayNetworkConfig: per-interface translation in snapshot order,
error aggregation, then the explicit re-sort by intfOrder. -/
def parseUnderlayNetworkConfig (appInstance : AppInstanceConfig) (cfgApp : ZAppInstanceConfig)
    (cfgNetworks : List ZNetworkConfig) (cfgNetworkInstances : List ZNetworkInstanceConfig) :
    AppInstanceConfig :=
  let appInstance2 := cfgApp.interfaces.foldl
    (fun app intfEnt =>
      match parseUnderlayNetworkConfigEntry cfgApp cfgNetworks cfgNetworkInstances intfEnt with
      | none => app
      | some ulCfg =>
          let app2 := { app with underlayNetworkList := app.underlayNetworkList ++ [ulCfg] }
          if ulCfg.error ≠ "" then { app2 with errors := app2.errors ++ [ulCfg.error] }
          else app2)
    appInstance
  { appInstance2 with
    underlayNetworkList := sortByKey (fun u => u.intfOrder) appInstance2.underlayNetworkList }

/-- parseOverlayNetworkConfig: per-interface translation in snapshot order,
error aggregation, then the explicit re-sort by intfOrder. -/
def parseOverlayNetworkConfig (appInstance : AppInstanceConfig) (cfgApp : ZAppInstanceConfig)
    (cfgNetworks : List ZNetworkConfig) (cfgNetworkInstances : List ZNetworkInstanceConfig) :
    AppInstanceConfig :=
  let appInstance2 := cfgApp.interfaces.foldl
    (fun app intfEnt =>
      match parseOverlayNetworkConfigEntry cfgApp cfgNetworks cfgNetworkInstances intfEnt with
      | none => app
      | some olCfg =>
          let app2 := { app with overlayNetworkList := app.overlayNetworkList ++ [olCfg] }
          if olCfg.error ≠ "" then { app2 with errors := app2.errors ++ [olCfg.error] }
          else app2)
    appInstance
  { appInstance2 with
    overlayNetworkList := sortByKey (fun o => o.intfOrder) appInstance2.overlayNetworkList }

def parseAppNetworkConfig (appInstance : AppInstanceConfig) (cfgApp : ZAppInstanceConfig)
    (cfgNetworks : List ZNetworkConfig) (cfgNetworkInstances : List ZNetworkInstanceConfig) :
    AppInstanceConfig :=
  let appInstance2 := parseUnderlayNetworkConfig appInstance cfgApp cfgNetworks cfgNetworkInstances
  parseOverlayNetworkConfig appInstance2 cfgApp cfgNetworks cfgNetworkInstances

/-! ## Base OS -/

def translateBaseOs (cfgOs : ZBaseOSConfig) : BaseOsConfig :=
  { uuidandversion :=
      { uuid := uuidFromStrOrNil cfgOs.uuidandversion.uuid,
        version := cfgOs.uuidandversion.version },
    activate := cfgOs.activate,
    baseOsVersion := cfgOs.baseOSVersion,
    osParams := cfgOs.baseOSParams.map
      (fun cfgOsDetail => { osVerKey := cfgOsDetail.oSVerKey, osVerValue := cfgOsDetail.oSVerValue }),
    storageConfigList := parseStorageConfigList BaseOsObj cfgOs.drives,
    configSha256 := "" }

/-- The delete-first pass of parseBaseOsConfig: every published UUID absent
from the incoming list is unpublished, cascading to its certificate bundle. -/
def baseOsDeleteLoop (items : List String) (cfgOsList : List ZBaseOSConfig)
    (bs : PubStore BaseOsConfig) (cs : PubStore CertObjConfig) :
    PubStore BaseOsConfig × PubStore CertObjConfig × List AgentEvent :=
  match items with
  | [] => (bs, cs, [])
  | uuidStr :: rest =>
      if cfgOsList.any (fun baseOs => baseOs.uuidandversion.uuid == uuidStr) then
        baseOsDeleteLoop rest cfgOsList bs cs
      else
        let bs2 := pubUnpublish bs uuidStr
        let certRes := unpublishCertObjConfig cs uuidStr
        let res := baseOsDeleteLoop rest cfgOsList bs2 certRes.1
        (res.1, res.2.1, AgentEvent.unpubBaseOs uuidStr :: (certRes.2 ++ res.2.2))

/-- The publish pass of parseBaseOsConfig: empty-version slots are silently
skipped; each remaining entry is translated and published together with its
derived certificate bundle when one exists. -/
def baseOsPublishLoop (cfgOsList : List ZBaseOSConfig)
    (bs : PubStore BaseOsConfig) (cs : PubStore CertObjConfig) :
    PubStore BaseOsConfig × PubStore CertObjConfig × List AgentEvent :=
  match cfgOsList with
  | [] => (bs, cs, [])
  | cfgOs :: rest =>
      if cfgOs.baseOSVersion == "" then baseOsPublishLoop rest bs cs
      else
        let baseOs := translateBaseOs cfgOs
        let certInstance := getCertObjects baseOs.uuidandversion baseOs.configSha256
          baseOs.storageConfigList
        let bs2 := pubPublish bs baseOs.uuidandversion.uuid baseOs
        let certRes :=
          match certInstance with
          | some ci => publishCertObjConfig cs ci baseOs.uuidandversion.uuid
          | none => (cs, [])
        let res := baseOsPublishLoop rest bs2 certRes.1
        (res.1, res.2.1, AgentEvent.pubBaseOs baseOs.uuidandversion.uuid :: (certRes.2 ++ res.2.2))

/-- parseBaseOsConfig: change-detection gate, delete pass, publish pass. -/
def parseBaseOsConfig (st : AgentState) (cfgOsList : List ZBaseOSConfig) :
    AgentState × List AgentEvent :=
  let configHash : Option (List ZBaseOSConfig) := some cfgOsList
  if configHash = st.baseosPrevConfigHash then (st, [])
  else
    let st2 := { st with baseosPrevConfigHash := configHash }
    let del := baseOsDeleteLoop (pubKeys st2.pubBaseOsConfig) cfgOsList
      st2.pubBaseOsConfig st2.pubCertObjConfig
    let pubres := baseOsPublishLoop cfgOsList del.1 del.2.1
    ({ st2 with pubBaseOsConfig := pubres.1, pubCertObjConfig := pubres.2.1 },
      del.2.2 ++ pubres.2.2)

/-! ## App instances -/

/-- The Go zero value of types.AppInstanceConfig. -/
def zeroAppInstance : AppInstanceConfig :=
  { uuidandversion := { uuid := "", version := "" },
    displayName := "", activate := false,
    fixedResources :=
      { kernel := "", bootLoader := "", ramdisk := "", maxMem := 0, memory := 0,
        rootDev := "", vCpus := 0, virtualizationMode := 0, enableVnc := false,
        vncDisplay := 0, vncPasswd := "" },
    storageConfigList := [], overlayNetworkList := [], underlayNetworkList := [],
    ioAdapterList := [],
    restartCmd := { counter := 0, applyTime := "" },
    purgeCmd := { counter := 0, applyTime := "" },
    cloudInitUserData := none, remoteConsole := false,
    cipherBlockStatus := { key := "", hasCipher := false },
    configSha256 := "", errors := [] }

/-- The per-entry translation of the parseAppInstanceConfig publish loop. -/
def translateAppInstance (cfgApp : ZAppInstanceConfig) (cfgNetworks : List ZNetworkConfig)
    (cfgNetworkInstances : List ZNetworkInstanceConfig) : AppInstanceConfig :=
  let appInstance := { zeroAppInstance with
    uuidandversion :=
      { uuid := uuidFromStrOrNil cfgApp.uuidandversion.uuid,
        version := cfgApp.uuidandversion.version },
    displayName := cfgApp.displayname,
    activate := cfgApp.activate,
    fixedResources :=
      { kernel := cfgApp.fixedresources.kernel,
        bootLoader := cfgApp.fixedresources.bootloader,
        ramdisk := cfgApp.fixedresources.ramdisk,
        maxMem := cfgApp.fixedresources.maxmem,
        memory := cfgApp.fixedresources.memory,
        rootDev := cfgApp.fixedresources.rootdev,
        vCpus := cfgApp.fixedresources.vcpus,
        virtualizationMode := cfgApp.fixedresources.virtualizationMode,
        enableVnc := cfgApp.fixedresources.enableVnc,
        vncDisplay := cfgApp.fixedresources.vncDisplay,
        vncPasswd := cfgApp.fixedresources.vncPasswd },
    storageConfigList := parseStorageConfigList AppImgObj cfgApp.drives }
  let appInstance2 := parseAppNetworkConfig appInstance cfgApp cfgNetworks cfgNetworkInstances
  let appInstance3 := { appInstance2 with
    ioAdapterList := cfgApp.adapters.map
      (fun (adapter : ZAdapter) => { atype := adapter.atype, name := adapter.name }) }
  let appInstance4 :=
    match cfgApp.restart with
    | some cmd => { appInstance3 with restartCmd := { counter := cmd.counter, applyTime := cmd.opsTime } }
    | none => appInstance3
  let appInstance5 :=
    match cfgApp.purge with
    | some cmd => { appInstance4 with purgeCmd := { counter := cmd.counter, applyTime := cmd.opsTime } }
    | none => appInstance4
  let appInstance6 :=
    if cfgApp.userData ≠ "" then { appInstance5 with cloudInitUserData := some cfgApp.userData }
    else appInstance5
  { appInstance6 with
    remoteConsole := cfgApp.remoteConsole,
    cipherBlockStatus := parseCipherBlock appInstance6.uuidandversion.uuid cfgApp.cipherData }

/-- The delete-first pass of parseAppInstanceConfig. -/
def appDeleteLoop (items : List String) (apps : List ZAppInstanceConfig)
    (ap : PubStore AppInstanceConfig) (cs : PubStore CertObjConfig) :
    PubStore AppInstanceConfig × PubStore CertObjConfig × List AgentEvent :=
  match items with
  | [] => (ap, cs, [])
  | uuidStr :: rest =>
      if apps.any (fun app => app.uuidandversion.uuid == uuidStr) then
        appDeleteLoop rest apps ap cs
      else
        let ap2 := pubUnpublish ap uuidStr
        let certRes := unpublishCertObjConfig cs uuidStr
        let res := appDeleteLoop rest apps ap2 certRes.1
        (res.1, res.2.1, AgentEvent.unpubAppInst uuidStr :: (certRes.2 ++ res.2.2))

/-- The publish pass of parseAppInstanceConfig.  The app itself is published
under its parsed key; the certificate bundle under the raw wire UUID string. -/
def appPublishLoop (apps : List ZAppInstanceConfig) (cfgNetworks : List ZNetworkConfig)
    (cfgNetworkInstances : List ZNetworkInstanceConfig)
    (ap : PubStore AppInstanceConfig) (cs : PubStore CertObjConfig) :
    PubStore AppInstanceConfig × PubStore CertObjConfig × List AgentEvent :=
  match apps with
  | [] => (ap, cs, [])
  | cfgApp :: rest =>
      let appInstance := translateAppInstance cfgApp cfgNetworks cfgNetworkInstances
      let certInstance := getCertObjects appInstance.uuidandversion appInstance.configSha256
        appInstance.storageConfigList
      let ap2 := pubPublish ap appInstance.uuidandversion.uuid appInstance
      let certRes :=
        match certInstance with
        | some ci => publishCertObjConfig cs ci cfgApp.uuidandversion.uuid
        | none => (cs, [])
      let res := appPublishLoop rest cfgNetworks cfgNetworkInstances ap2 certRes.1
      (res.1, res.2.1, AgentEvent.pubAppInst appInstance.uuidandversion.uuid :: (certRes.2 ++ res.2.2))

/-- parseAppInstanceConfig: change-detection gate, delete pass, publish pass. -/
def parseAppInstanceConfig (st : AgentState) (apps : List ZAppInstanceConfig)
    (cfgNetworks : List ZNetworkConfig) (cfgNetworkInstances : List ZNetworkInstanceConfig) :
    AgentState × List AgentEvent :=
  let configHash : Option (List ZAppInstanceConfig) := some apps
  if configHash = st.appinstancePrevConfigHash then (st, [])
  else
    let st2 := { st with appinstancePrevConfigHash := configHash }
    let del := appDeleteLoop (pubKeys st2.pubAppInstanceConfig) apps
      st2.pubAppInstanceConfig st2.pubCertObjConfig
    let pubres := appPublishLoop apps cfgNetworks cfgNetworkInstances del.1 del.2.1
    ({ st2 with pubAppInstanceConfig := pubres.1, pubCertObjConfig := pubres.2.1 },
      del.2.2 ++ pubres.2.2)

/-! ## Network instances -/

def zIpspecDhcp : Option ZIpspec → DhcpType
  | some i => i.dhcp
  | none => DhcpType.dtNone

def zIpspecDomain : Option ZIpspec → String
  | some i => i.domain
  | none => ""

def zIpspecSubnet : Option ZIpspec → String
  | some i => i.subnet
  | none => ""

def zIpspecGateway : Option ZIpspec → String
  | some i => i.gateway
  | none => ""

def zIpspecNtp : Option ZIpspec → String
  | some i => i.ntp
  | none => ""

def zIpspecDns : Option ZIpspec → List String
  | some i => i.dns
  | none => []

def zIpspecDhcpRange : Option ZIpspec → Option ZIpRange
  | some i => i.dhcpRange
  | none => none

/-- The DNS-server loop of parseIpspec: servers parsed so far are kept even
when a later entry fails (the source appends into the config in place). -/
def parseIpspecDnsLoop (c : NetworkInstanceConfig) :
    List String → NetworkInstanceConfig × Option String
  | [] => (c, none)
  | dsStr :: rest =>
      match parseIP? dsStr with
      | none => (c, some ("parseIpspec: bad dns IP " ++ dsStr))
      | some ds => parseIpspecDnsLoop { c with dnsServers := c.dnsServers ++ [ds] } rest

/-- The DHCP-range step of parseIpspec. -/
def parseIpspecRangeStep (ipspec : Option ZIpspec) (c : NetworkInstanceConfig) :
    NetworkInstanceConfig × Option String :=
  match zIpspecDhcpRange ipspec with
  | none => (c, none)
  | some dr =>
      if dr.start ≠ "" then
        match parseIP? dr.start with
        | none => (c, some ("parseIpspec: bad start IP " ++ dr.start))
        | some startIP =>
            match parseIP? dr.rangeEnd with
            | none =>
                if dr.rangeEnd ≠ "" then
                  (c, some ("parseIpspec: bad end IP " ++ dr.rangeEnd))
                else ({ c with dhcpRange := { start := some startIP, rangeEnd := none } }, none)
            | some endIP =>
                ({ c with dhcpRange := { start := some startIP, rangeEnd := some endIP } }, none)
      else (c, none)

/-- parseIpspec (network-instance flavour).  The error return is threaded so
that fields assigned before a failure stay assigned, as with the in-place
updates in the source; the one caller ignores the error value. -/
def parseIpspec (ipspec : Option ZIpspec) (c0 : NetworkInstanceConfig) :
    NetworkInstanceConfig × Option String :=
  let c := { c0 with domainName := zIpspecDomain ipspec }
  let s := zIpspecSubnet ipspec
  let subnetRes : NetworkInstanceConfig × Option String :=
    if s ≠ "" then
      match parseCIDR? s with
      | none => (c, some ("parseIpspec: bad subnet " ++ s))
      | some sub => ({ c with subnet := some sub }, none)
    else (c, none)
  match subnetRes with
  | (c1, some e) => (c1, some e)
  | (c1, none) =>
      let g := zIpspecGateway ipspec
      let gwRes : NetworkInstanceConfig × Option String :=
        if g ≠ "" then
          match parseIP? g with
          | none => (c1, some ("parseIpspec: bad gateway IP " ++ g))
          | some gw => ({ c1 with gateway := some gw }, none)
        else (c1, none)
      match gwRes with
      | (c2, some e) => (c2, some e)
      | (c2, none) =>
          let n := zIpspecNtp ipspec
          let ntpRes : NetworkInstanceConfig × Option String :=
            if n ≠ "" then
              match parseIP? n with
              | none => (c2, some ("parseIpspec: bad ntp IP " ++ n))
              | some ntp => ({ c2 with ntpServer := some ntp }, none)
            else (c2, none)
          match ntpRes with
          | (c3, some e) => (c3, some e)
          | (c3, none) =>
              match parseIpspecDnsLoop c3 (zIpspecDns ipspec) with
              | (c4, some e) => (c4, some e)
              | (c4, none) => parseIpspecRangeStep ipspec c4

/-- parseDnsNameToIpList (network-instance flavour): malformed addresses are
dropped with a log, good ones kept. -/
def parseDnsNameToIpList (apiConfigEntry : ZNetworkInstanceConfig) : List DnsNameToIP :=
  apiConfigEntry.dns.map
    (fun dnsEntry =>
      { hostName := dnsEntry.hostName, ips := dnsEntry.address.filterMap parseIP? })

/-- populateLispConfig (reads the opaque config's LispConfig; a nil opaque
config would fault in the source and is modelled as a no-op). -/
def populateLispConfig (apiConfigEntry : ZNetworkInstanceConfig)
    (networkInstanceConfig : NetworkInstanceConfig) : NetworkInstanceConfig :=
  match apiConfigEntry.cfg with
  | none => networkInstanceConfig
  | some oCfg =>
      match oCfg.lispConfig with
      | none => networkInstanceConfig
      | some lispConfig =>
          { networkInstanceConfig with
            lispConfig := some
              { mapServers := lispConfig.lispMSs.map
                  (fun ms => { serviceType := ms.zsType, nameOrIp := ms.nameOrIp,
                               credential := ms.credential }),
                iid := lispConfig.lispInstanceId,
                allocate := lispConfig.allocate,
                exportPrivate := lispConfig.exportprivate,
                eidPrefix := lispConfig.allocationprefix,
                eidPrefixLen := lispConfig.allocationprefixlen,
                experimental := lispConfig.experimental } }

/-- The delete-first pass of publishNetworkInstanceConfig
(unpublishDeletedNetworkInstanceConfig). -/
def niDeleteLoop (currentEntries : List (String × NetworkInstanceConfig))
    (networkInstances : List ZNetworkInstanceConfig)
    (pub : PubStore NetworkInstanceConfig) :
    PubStore NetworkInstanceConfig × List AgentEvent :=
  match currentEntries with
  | [] => (pub, [])
  | (key, _) :: rest =>
      match lookupNetworkInstanceById key networkInstances with
      | some _ => niDeleteLoop rest networkInstances pub
      | none =>
          let pub2 := pubUnpublish pub key
          let res := niDeleteLoop rest networkInstances pub2
          (res.1, AgentEvent.unpubNetInst key :: res.2)

/-- The mesh/VPN-opaque instance count checked by publishNetworkInstanceConfig. -/
def vpnCountOf (networkInstances : List ZNetworkInstanceConfig) : Nat :=
  networkInstances.foldl
    (fun vpnCount netInstApiCfg =>
      match netInstApiCfg.cfg with
      | none => vpnCount
      | some oCfg =>
          if oCfg.oconfig ≠ "" ∧ oCfg.otype = ZOpaqueType.oVPN then vpnCount + 1
          else vpnCount)
    0

/-- One iteration of the publish loop of publishNetworkInstanceConfig.
Malformed UUIDs skip the entry entirely; switch-type instances are published
once inside the type switch and once more at the end of the iteration. -/
def publishOneNetworkInstance (apiConfigEntry : ZNetworkInstanceConfig)
    (pub : PubStore NetworkInstanceConfig) :
    PubStore NetworkInstanceConfig × List AgentEvent :=
  match uuidFromStr? apiConfigEntry.uuidandversion.uuid with
  | none => (pub, [])
  | some id =>
      let networkInstanceConfig := { zeroNetworkInstanceConfig with
        uuidandversion := { uuid := id, version := apiConfigEntry.uuidandversion.version },
        displayName := apiConfigEntry.displayname,
        ntype := apiConfigEntry.instType,
        activate := apiConfigEntry.activate }
      let networkInstanceConfig :=
        match apiConfigEntry.port with
        | some port => { networkInstanceConfig with logicallabel := port.name }
        | none => networkInstanceConfig
      let networkInstanceConfig := { networkInstanceConfig with ipType := apiConfigEntry.ipType }
      let switchRes :
          NetworkInstanceConfig × PubStore NetworkInstanceConfig × List AgentEvent :=
        match apiConfigEntry.instType with
        | NetworkInstanceType.znetInstSwitch =>
            let c :=
              if networkInstanceConfig.ipType ≠ AddressType.atNone then
                { networkInstanceConfig with ipType := AddressType.atNone }
              else networkInstanceConfig
            (c, pubPublish pub c.uuidandversion.uuid c,
              [AgentEvent.pubNetInst c.uuidandversion.uuid])
        | NetworkInstanceType.znetInstMesh =>
            let c := { networkInstanceConfig with hasEncap := true }
            (populateLispConfig apiConfigEntry c, pub, [])
        | NetworkInstanceType.znetInstCloud =>
            let c :=
              match apiConfigEntry.cfg with
              | none => networkInstanceConfig
              | some ocfg => { networkInstanceConfig with opaqueConfig := ocfg.oconfig }
            (c, pub, [])
        | _ => (networkInstanceConfig, pub, [])
      let c := switchRes.1
      let c :=
        if c.ipType ≠ AddressType.atNone then
          let ipRes := parseIpspec apiConfigEntry.ip c
          { ipRes.1 with dnsNameToIPList := parseDnsNameToIpList apiConfigEntry }
        else c
      (pubPublish switchRes.2.1 c.uuidandversion.uuid c,
        switchRes.2.2 ++ [AgentEvent.pubNetInst c.uuidandversion.uuid])

/-- The publish loop of publishNetworkInstanceConfig. -/
def niPublishLoop (networkInstances : List ZNetworkInstanceConfig)
    (pub : PubStore NetworkInstanceConfig) :
    PubStore NetworkInstanceConfig × List AgentEvent :=
  match networkInstances with
  | [] => (pub, [])
  | apiConfigEntry :: rest =>
      let one := publishOneNetworkInstance apiConfigEntry pub
      let res := niPublishLoop rest one.1
      (res.1, one.2 ++ res.2)

/-- publishNetworkInstanceConfig: delete pass first, then the at-most-one-VPN
check (abort publishing when violated), then the publish loop. -/
def publishNetworkInstanceConfig (st : AgentState)
    (networkInstances : List ZNetworkInstanceConfig) : AgentState × List AgentEvent :=
  let del := niDeleteLoop st.pubNetworkInstanceConfig networkInstances
    st.pubNetworkInstanceConfig
  if vpnCountOf networkInstances > 1 then
    ({ st with pubNetworkInstanceConfig := del.1 }, del.2)
  else
    let pubres := niPublishLoop networkInstances del.1
    ({ st with pubNetworkInstanceConfig := pubres.1 }, del.2 ++ pubres.2)

/-- parseNetworkInstanceConfig: change-detection gate, then the delete-first
publish pipeline. -/
def parseNetworkInstanceConfig (st : AgentState)
    (networkInstances : List ZNetworkInstanceConfig) : AgentState × List AgentEvent :=
  if some networkInstances = st.networkInstancePrevConfigHash then (st, [])
  else
    let st2 := { st with networkInstancePrevConfigHash := some networkInstances }
    publishNetworkInstanceConfig st2 networkInstances

/-! ## Networks (NetworkXObjectConfig) -/

def lookupNetworkId (id : String) (cfgNetworks : List ZNetworkConfig) :
    Option ZNetworkConfig :=
  cfgNetworks.find? (fun netEnt => id == netEnt.id)

def netXBadUuidErr (netEnt : ZNetworkConfig) : String :=
  "parseOneNetworkXObjectConfig: Malformed UUID ignored: " ++ netEnt.id

def netXMissingIpspecErr (key : String) : String :=
  "parseOneNetworkXObjectConfig: Missing ipspec for " ++ key

def netXIpspecFailErr (key e : String) : String :=
  "parseOneNetworkXObjectConfig: parseIpspec failed for " ++ key ++ ": " ++ e

def netXIpspecNoopErr (key e : String) : String :=
  "parseOneNetworkXObjectConfig: parseIpspec ignored for " ++ key ++ ": " ++ e

def netXUnknownTypeErr (code : Nat) (idStr : String) : String :=
  "parseOneNetworkXObjectConfig: Unknown NetworkConfig type " ++ toString code ++
    " for " ++ idStr ++ "; ignored"

def netXBadDnsErr (strAddr key : String) : String :=
  "parseOneNetworkXObjectConfig: bad dnsEntry " ++ strAddr ++ " for " ++ key

/-- The static-proxy-entry translation of parseOneNetworkXObjectConfig; an
unrecognised protocol leaves the zero proxy type, as the switch default does. -/
def translateProxyEntry (proxy : ZProxyServer) : ProxyEntry :=
  { ptype :=
      match proxy.proto with
      | ZProxyProto.pHTTP => nptHTTP
      | ZProxyProto.pHTTPS => nptHTTPS
      | ZProxyProto.pSOCKS => nptSOCKS
      | ZProxyProto.pFTP => nptFTP
      | ZProxyProto.pOther _ => 0,
    server := proxy.server,
    port := proxy.port }

def translateProxyConfig (netProxyConfig : ZProxyConfig) : ProxyConfig :=
  { networkProxyEnable := netProxyConfig.networkProxyEnable,
    networkProxyURL := netProxyConfig.networkProxyURL,
    pacfile := netProxyConfig.pacfile,
    proxyCertPEM := netProxyConfig.proxyCertPEM,
    exceptions := netProxyConfig.exceptions,
    proxies := netProxyConfig.proxies.map translateProxyEntry }

/-- The wifi loop of parseNetworkWirelessConfig.  The source reassigns its key
variable with each SSID, so the cipher-block key of every entry compounds all
the SSIDs seen so far; an unknown key scheme leaves the zero value. -/
def wifiCfgLoop (key : String) : List ZWifiCfg → List WifiConfig
  | [] => []
  | wificfg :: rest =>
      let key2 := key ++ "-" ++ wificfg.wifiSSID
      { ssid := wificfg.wifiSSID,
        keyScheme :=
          match wificfg.keyScheme with
          | ZWiFiKeyScheme.wpaPsk => keySchemeWpaPsk
          | ZWiFiKeyScheme.wpaEap => keySchemeWpaEap
          | ZWiFiKeyScheme.other _ => 0,
        identity := wificfg.identity,
        password := wificfg.password,
        priority := wificfg.priority,
        cipherBlockStatus := parseCipherBlock key2 wificfg.cipherData } ::
        wifiCfgLoop key2 rest

/-- parseNetworkWirelessConfig: an absent wireless block or an unsupported
wireless type yields the zero configuration. -/
def parseNetworkWirelessConfig (key : String) (netEnt : ZNetworkConfig) : WirelessConfig :=
  match netEnt.wireless with
  | none => zeroWirelessConfig
  | some netWireless =>
      match netWireless.wtype with
      | ZWirelessType.cellular =>
          { zeroWirelessConfig with
            wType := wirelessTypeCellular,
            cellular := netWireless.cellularCfg.map (fun cellular => { apn := cellular.apn }) }
      | ZWirelessType.wifi =>
          { zeroWirelessConfig with
            wType := wirelessTypeWifi,
            wifi := wifiCfgLoop key netWireless.wifiCfg }
      | ZWirelessType.other _ => zeroWirelessConfig

/-- The DNS-server loop of parseIpspecNetworkXObject (same shape as the
network-instance flavour, over the network-object record). -/
def netXIpspecDnsLoop (c : NetworkXObjectConfig) :
    List String → NetworkXObjectConfig × Option String
  | [] => (c, none)
  | dsStr :: rest =>
      match parseIP? dsStr with
      | none => (c, some ("parseIpspec: bad dns IP " ++ dsStr))
      | some ds => netXIpspecDnsLoop { c with dnsServers := c.dnsServers ++ [ds] } rest

/-- The DHCP-range step of parseIpspecNetworkXObject. -/
def netXIpspecRangeStep (ipspec : Option ZIpspec) (c : NetworkXObjectConfig) :
    NetworkXObjectConfig × Option String :=
  match zIpspecDhcpRange ipspec with
  | none => (c, none)
  | some dr =>
      if dr.start ≠ "" then
        match parseIP? dr.start with
        | none => (c, some ("parseIpspec: bad start IP " ++ dr.start))
        | some startIP =>
            match parseIP? dr.rangeEnd with
            | none =>
                if dr.rangeEnd ≠ "" then
                  (c, some ("parseIpspec: bad end IP " ++ dr.rangeEnd))
                else ({ c with dhcpRange := { start := some startIP, rangeEnd := none } }, none)
            | some endIP =>
                ({ c with dhcpRange := { start := some startIP, rangeEnd := some endIP } }, none)
      else (c, none)

/-- parseIpspecNetworkXObject: like the network-instance flavour but it also
casts and stores the wire DHCP mode; fields assigned before a failure stay
assigned. -/
def parseIpspecNetworkXObject (ipspec : Option ZIpspec) (c0 : NetworkXObjectConfig) :
    NetworkXObjectConfig × Option String :=
  let c := { c0 with dhcp := zIpspecDhcp ipspec, domainName := zIpspecDomain ipspec }
  let s := zIpspecSubnet ipspec
  let subnetRes : NetworkXObjectConfig × Option String :=
    if s ≠ "" then
      match parseCIDR? s with
      | none => (c, some ("parseIpspec: bad subnet " ++ s))
      | some sub => ({ c with subnet := some sub }, none)
    else (c, none)
  match subnetRes with
  | (c1, some e) => (c1, some e)
  | (c1, none) =>
      let g := zIpspecGateway ipspec
      let gwRes : NetworkXObjectConfig × Option String :=
        if g ≠ "" then
          match parseIP? g with
          | none => (c1, some ("parseIpspec: bad gateway IP " ++ g))
          | some gw => ({ c1 with gateway := some gw }, none)
        else (c1, none)
      match gwRes with
      | (c2, some e) => (c2, some e)
      | (c2, none) =>
          let n := zIpspecNtp ipspec
          let ntpRes : NetworkXObjectConfig × Option String :=
            if n ≠ "" then
              match parseIP? n with
              | none => (c2, some ("parseIpspec: bad ntp IP " ++ n))
              | some ntp => ({ c2 with ntpServer := some ntp }, none)
            else (c2, none)
          match ntpRes with
          | (c3, some e) => (c3, some e)
          | (c3, none) =>
              match netXIpspecDnsLoop c3 (zIpspecDns ipspec) with
              | (c4, some e) => (c4, some e)
              | (c4, none) => netXIpspecRangeStep ipspec c4

/-- The address list of one DNS entry of the network-object parser: unlike the
network-instance flavour, the first malformed address aborts with an error. -/
def netXDnsEntryIPs : List String → Except String (List String)
  | [] => Except.ok []
  | strAddr :: rest =>
      match parseIP? strAddr with
      | none => Except.error strAddr
      | some ip =>
          match netXDnsEntryIPs rest with
          | Except.error e => Except.error e
          | Except.ok ips => Except.ok (ip :: ips)

/-- The DNS-name loop of parseOneNetworkXObjectConfig. -/
def netXDnsLoop : List ZDNSEntry → Except String (List DnsNameToIP)
  | [] => Except.ok []
  | dnsEntry :: rest =>
      match netXDnsEntryIPs dnsEntry.address with
      | Except.error bad => Except.error bad
      | Except.ok ips =>
          match netXDnsLoop rest with
          | Except.error e => Except.error e
          | Except.ok nameToIPs =>
              Except.ok ({ hostName := dnsEntry.hostName, ips := ips } :: nameToIPs)

/-- parseOneNetworkXObjectConfig.  Every path of the source returns a non-nil
config (failures are recorded in the sticky error field), so the result is a
plain record and the caller publishes it unconditionally. -/
def parseOneNetworkXObjectConfig (netEnt : ZNetworkConfig) : NetworkXObjectConfig :=
  let config := { zeroNetworkXObjectConfig with ntype := netEnt.ntype }
  match uuidFromStr? netEnt.id with
  | none => { config with error := netXBadUuidErr netEnt }
  | some id =>
      let config := { config with uuid := id }
      let config :=
        match netEnt.entProxy with
        | none => config
        | some netProxyConfig =>
            { config with proxy := some (translateProxyConfig netProxyConfig) }
      let config := { config with wirelessCfg := parseNetworkWirelessConfig config.uuid netEnt }
      let ipspec := netEnt.ip
      let typeRes : NetworkXObjectConfig × Bool :=
        match config.ntype with
        | NetworkType.ntCryptoEID | NetworkType.ntIPV4 | NetworkType.ntIPV6 =>
            match ipspec with
            | none => ({ config with error := netXMissingIpspecErr config.uuid }, true)
            | some _ =>
                match parseIpspecNetworkXObject ipspec config with
                | (c, some e) => ({ c with error := netXIpspecFailErr config.uuid e }, true)
                | (c, none) => (c, false)
        | NetworkType.ntNOOP =>
            match ipspec with
            | none => (config, false)
            | some _ =>
                match parseIpspecNetworkXObject ipspec config with
                | (c, some e) => ({ c with error := netXIpspecNoopErr config.uuid e }, true)
                | (c, none) => (c, false)
        | NetworkType.ntOther code =>
            ({ config with error := netXUnknownTypeErr code config.uuid }, true)
      if typeRes.2 then typeRes.1
      else
        let config := typeRes.1
        match netXDnsLoop netEnt.dns with
        | Except.error bad => { config with error := netXBadDnsErr bad config.uuid }
        | Except.ok nameToIPs => { config with dnsNameToIPList := nameToIPs }

/-- The delete-first pass of publishNetworkXObjectConfig: stored keys absent
from the incoming network list are unpublished. -/
def netXDeleteLoop (items : List String) (cfgNetworks : List ZNetworkConfig)
    (pub : PubStore NetworkXObjectConfig) :
    PubStore NetworkXObjectConfig × List AgentEvent :=
  match items with
  | [] => (pub, [])
  | k :: rest =>
      match lookupNetworkId k cfgNetworks with
      | some _ => netXDeleteLoop rest cfgNetworks pub
      | none =>
          let pub2 := pubUnpublish pub k
          let res := netXDeleteLoop rest cfgNetworks pub2
          (res.1, AgentEvent.unpubNetX k :: res.2)

/-- The publish pass of publishNetworkXObjectConfig: every entry is translated
and published under its parsed key (the source nil-check never fires). -/
def netXPublishLoop (cfgNetworks : List ZNetworkConfig)
    (pub : PubStore NetworkXObjectConfig) :
    PubStore NetworkXObjectConfig × List AgentEvent :=
  match cfgNetworks with
  | [] => (pub, [])
  | netEnt :: rest =>
      let config := parseOneNetworkXObjectConfig netEnt
      let res := netXPublishLoop rest (pubPublish pub config.uuid config)
      (res.1, AgentEvent.pubNetX config.uuid :: res.2)

/-- publishNetworkXObjectConfig: delete pass first, then the publish loop. -/
def publishNetworkXObjectConfig (pub : PubStore NetworkXObjectConfig)
    (cfgNetworks : List ZNetworkConfig) :
    PubStore NetworkXObjectConfig × List AgentEvent :=
  let del := netXDeleteLoop (pubKeys pub) cfgNetworks pub
  let pubres := netXPublishLoop cfgNetworks del.1
  (pubres.1, del.2 ++ pubres.2)

/-- parseNetworkXObjectConfig: change-detection gate, then the delete-first
publish pipeline; the Bool mirrors the config-applied return of the source. -/
def parseNetworkXObjectConfig (st : AgentState) (nets : List ZNetworkConfig) :
    Bool × AgentState × List AgentEvent :=
  if some nets = st.networkConfigPrevConfigHash then (false, st, [])
  else
    let st2 := { st with networkConfigPrevConfigHash := some nets }
    let res := publishNetworkXObjectConfig st2.pubNetworkXObjectConfig nets
    (true, { st2 with pubNetworkXObjectConfig := res.1 }, res.2)

/-! ## Datastores -/

def lookupDatastore (datastores : List ZDatastoreConfig) (dsid : String) :
    Option ZDatastoreConfig :=
  datastores.find? (fun ds => dsid == ds.id)

/-- One entry of the publish pass of publishDatastoreConfig; an empty region
defaults to us-west-2 for compatibility with unmodified zedcloud datastores. -/
def translateDatastore (ds : ZDatastoreConfig) : DatastoreConfig :=
  { uuid := uuidFromStrOrNil ds.id,
    fqdn := ds.fqdn,
    dpath := ds.dpath,
    dsType := ds.dtypeName,
    apiKey := ds.apiKey,
    password := ds.password,
    region := if ds.region == "" then "us-west-2" else ds.region,
    cipherBlockStatus := parseCipherBlock (uuidFromStrOrNil ds.id) ds.cipherData }

/-- The delete-first pass of publishDatastoreConfig. -/
def dsDeleteLoop (items : List String) (cfgDatastores : List ZDatastoreConfig)
    (pub : PubStore DatastoreConfig) : PubStore DatastoreConfig × List AgentEvent :=
  match items with
  | [] => (pub, [])
  | k :: rest =>
      match lookupDatastore cfgDatastores k with
      | some _ => dsDeleteLoop rest cfgDatastores pub
      | none =>
          let pub2 := pubUnpublish pub k
          let res := dsDeleteLoop rest cfgDatastores pub2
          (res.1, AgentEvent.unpubDatastore k :: res.2)

/-- The publish pass of publishDatastoreConfig. -/
def dsPublishLoop (cfgDatastores : List ZDatastoreConfig)
    (pub : PubStore DatastoreConfig) : PubStore DatastoreConfig × List AgentEvent :=
  match cfgDatastores with
  | [] => (pub, [])
  | ds :: rest =>
      let datastore := translateDatastore ds
      let res := dsPublishLoop rest (pubPublish pub datastore.uuid datastore)
      (res.1, AgentEvent.pubDatastore datastore.uuid :: res.2)

/-- publishDatastoreConfig: delete pass first, then the publish loop. -/
def publishDatastoreConfig (pub : PubStore DatastoreConfig)
    (cfgDatastores : List ZDatastoreConfig) :
    PubStore DatastoreConfig × List AgentEvent :=
  let del := dsDeleteLoop (pubKeys pub) cfgDatastores pub
  let pubres := dsPublishLoop cfgDatastores del.1
  (pubres.1, del.2 ++ pubres.2)

/-- parseDatastoreConfig: change-detection gate, then the delete-first publish
pipeline. -/
def parseDatastoreConfig (st : AgentState) (stores : List ZDatastoreConfig) :
    AgentState × List AgentEvent :=
  if some stores = st.datastoreConfigPrevConfigHash then (st, [])
  else
    let st2 := { st with datastoreConfigPrevConfigHash := some stores }
    let res := publishDatastoreConfig st2.pubDatastoreConfig stores
    ({ st2 with pubDatastoreConfig := res.1 }, res.2)

/-! ## Device I/O list -/

/-- One physical-address assignment of parseDeviceIoListConfig: the key is
lowered and switched; an unrecognised key overwrites the unknown slot. -/
def applyPhyaddr (pa : PhysicalAddress) (kv : String × String) : PhysicalAddress :=
  let key := lowerStr kv.1
  if key == "pcilong" then { pa with pciLong := kv.2 }
  else if key == "ifname" then { pa with ifname := kv.2 }
  else if key == "serial" then { pa with serial := kv.2 }
  else if key == "irq" then { pa with irq := kv.2 }
  else if key == "ioports" then { pa with ioports := kv.2 }
  else { pa with unknownType := kv.2 }

/-- The per-entry translation of parseDeviceIoListConfig. -/
def translatePhysicalIO (ioDevice : ZPhysicalIO) : PhysicalIOAdapter :=
  { ptype := ioDevice.ptype,
    phylabel := ioDevice.phylabel,
    logicallabel := ioDevice.logicallabel,
    assigngrp := ioDevice.assigngrp,
    usage := ioDevice.usage,
    usagePolicy :=
      { freeUplink :=
          match ioDevice.usagePolicy with
          | some up => up.freeUplink
          | none => false },
    phyaddr := ioDevice.phyaddrs.foldl applyPhyaddr zeroPhysicalAddress }

/-- The adapter loop of parseDeviceIoListConfig: nil entries are skipped with
an error log; each translated port is appended to the adapter list and upserted
into the physical-I/O map under its physical label. -/
def deviceIoLoop (l : List (Option ZPhysicalIO))
    (m : List (String × PhysicalIOAdapter)) :
    List PhysicalIOAdapter × List (String × PhysicalIOAdapter) :=
  match l with
  | [] => ([], m)
  | none :: rest => deviceIoLoop rest m
  | some ioDevice :: rest =>
      let port := translatePhysicalIO ioDevice
      let res := deviceIoLoop rest (pubPublish m port.phylabel port)
      (port :: res.1, res.2)

/-- parseDeviceIoListConfig: change-detection gate, the adapter loop, and one
publish of the whole initialized adapter list; the Bool mirrors the
config-applied return of the source. -/
def parseDeviceIoListConfig (st : AgentState)
    (deviceIoList : List (Option ZPhysicalIO)) : Bool × AgentState × List AgentEvent :=
  if some deviceIoList = st.deviceIoListPrevConfigHash then (false, st, [])
  else
    let st2 := { st with deviceIoListPrevConfigHash := some deviceIoList }
    let res := deviceIoLoop deviceIoList st2.physicalIoAdapterMap
    (true, { st2 with physicalIoAdapterMap := res.2 }, [AgentEvent.pubPhyAdapters res.1])

/-! ## System adapters -/

def lookupDeviceIoLogicallabel (st : AgentState) (label : String) :
    Option PhysicalIOAdapter :=
  match st.physicalIoAdapterMap.find? (fun p => p.2.logicallabel == label) with
  | some p => some p.2
  | none => none

def lookupDeviceIoPhylabel (st : AgentState) (label : String) :
    Option PhysicalIOAdapter :=
  match st.physicalIoAdapterMap.find? (fun p => p.2.phylabel == label) with
  | some p => some p.2
  | none => none

/-- The physical-I/O resolution order of parseOneSystemAdapterConfig: first by
logical label (the adapter's name), then by physical label (LowerLayerName,
falling back to the name). -/
def resolvePhyio (st : AgentState) (sysAdapter : ZSystemAdapter) :
    Option PhysicalIOAdapter :=
  match lookupDeviceIoLogicallabel st sysAdapter.name with
  | some phyio => some phyio
  | none =>
      lookupDeviceIoPhylabel st
        (if sysAdapter.lowerLayerName == "" then sysAdapter.name else sysAdapter.lowerLayerName)

def missingPhyioErr (sysAdapter : ZSystemAdapter) : String :=
  "Missing phyio for " ++ sysAdapter.name ++ " lower " ++ sysAdapter.lowerLayerName ++ "; ignored"

def badAddrErr (sysAdapter : ZSystemAdapter) : String :=
  "Device Config Error. Port " ++ sysAdapter.name ++ " has Bad SysAdapter.Addr " ++
    sysAdapter.addr ++ ". The IP address is ignored. Please fix the device configuration."

def unknownNetworkErr (ifName networkUUID : String) : String :=
  "Device Config Error. Port " ++ ifName ++ " configured with UNKNOWN Network UUID (" ++
    networkUUID ++ "). Please fix the device configuration."

def networkHasErrorErr (ifName networkUUID netErr : String) : String :=
  "Port " ++ ifName ++ " configured with a network (UUID: " ++ networkUUID ++
    ") which has an error (" ++ netErr ++ ")."

def staticNoSubnetErr (ifName saName saAddr : String) : String :=
  "Port " ++ ifName ++ " Configured as DT_STATIC but missing subnet address. SysAdapter - Name: " ++
    saName ++ ", Addr:" ++ saAddr

def dtNoneMgmtErr (ifName : String) : String :=
  "Port " ++ ifName ++ " configured as Management port with an unsupported DHCP type DT_NONE. " ++
    "Client and static are the only allowed DHCP modes for management ports."

def unknownDhcpErr (ifName : String) (d : DhcpType) : String :=
  "Port " ++ ifName ++ " configured with unknown DHCP type " ++ dhcpTypeStr d

def mgmtWithoutNetworkErr (ifName : String) : String :=
  "Port " ++ ifName ++ " Configured as Management port without configuring a Network. " ++
    "Network is required for Management ports"

/-- The DHCP-mode switch of parseOneSystemAdapterConfig, evaluated after
network dependency resolution.  The default branch formats the referenced
network's DHCP value (a nil network cannot reach it from the caller since the
port's mode then stays DT_NONE). -/
def dhcpModeValidate (sysAdapter : ZSystemAdapter) (port : NetworkPortConfig)
    (isMgmt : Bool) (network : Option NetworkXObjectConfig) : NetworkPortConfig :=
  match port.dhcp with
  | DhcpType.dtStatic =>
      if port.addrSubnet = "" then
        recordFailure port (staticNoSubnetErr port.ifName sysAdapter.name sysAdapter.addr)
      else port
  | DhcpType.dtClient => port
  | DhcpType.dtNone =>
      if isMgmt then recordFailure port (dtNoneMgmtErr port.ifName) else port
  | DhcpType.dtOther code =>
      let networkDhcp :=
        match network with
        | some net => net.dhcp
        | none => DhcpType.dtOther code
      recordFailure port (unknownDhcpErr port.ifName networkDhcp)

/-- The legacy version-compat flag step of parseOneSystemAdapterConfig: below
DPCIsMgmt every adapter is forced management+free; otherwise the adapter's own
flags are honoured, with either side able to set free.  The DHCP mode starts
at DT_NONE. -/
def portFlagsStep (sysAdapter : ZSystemAdapter) (version : Nat)
    (port0 : NetworkPortConfig) (isFree0 : Bool) : NetworkPortConfig :=
  let isMgmt := if version < DPCIsMgmt then true else sysAdapter.uplink
  let isFree :=
    if version < DPCIsMgmt then true
    else if sysAdapter.freeUplink && !isFree0 then true else isFree0
  { port0 with isMgmt := isMgmt, free := isFree, dhcp := DhcpType.dtNone }

/-- The static-address parse step of parseOneSystemAdapterConfig: a malformed
SysAdapter.Addr records a failure and the address is ignored. -/
def portAddrStep (sysAdapter : ZSystemAdapter) (port : NetworkPortConfig) :
    NetworkPortConfig :=
  if sysAdapter.addr ≠ "" ∧ parseIP? sysAdapter.addr = none then
    recordFailure port (badAddrErr sysAdapter)
  else port

/-- The network cross-reference step of parseOneSystemAdapterConfig: network
lookup, field copy, DHCP-mode validation, proxy copy, and the
management-without-network check. -/
def portNetworkStep (st : AgentState) (sysAdapter : ZSystemAdapter)
    (port : NetworkPortConfig) : NetworkPortConfig :=
  let isMgmt := port.isMgmt
  let ip : Option String := if sysAdapter.addr ≠ "" then parseIP? sysAdapter.addr else none
  if sysAdapter.networkUUID ≠ "" ∧ sysAdapter.networkUUID ≠ nilUUIDStr then
    let network := pubGet st.pubNetworkXObjectConfig sysAdapter.networkUUID
    let port :=
      match network with
      | none => recordFailure port (unknownNetworkErr port.ifName sysAdapter.networkUUID)
      | some net =>
          let port2 := { port with networkUUID := net.uuid }
          if net.hasError then
            recordFailure port2 (networkHasErrorErr port2.ifName net.uuid net.error)
          else port2
    let port :=
      match network with
      | some net =>
          let port2 :=
            match ip with
            | some i => { port with addrSubnet := subnetWithIP net.subnet i }
            | none => port
          { port2 with
            wirelessCfg := net.wirelessCfg,
            gateway := net.gateway,
            domainName := net.domainName,
            ntpServer := net.ntpServer,
            dnsServers := net.dnsServers,
            dhcp := net.dhcp }
      | none => port
    let port := dhcpModeValidate sysAdapter port isMgmt network
    match network with
    | some net =>
        (match net.proxy with
         | some proxy => { port with proxyConfig := proxy }
         | none => port)
    | none => port
  else
    if isMgmt then recordFailure port (mgmtWithoutNetworkErr port.ifName) else port

/-- The tail of parseOneSystemAdapterConfig shared by the missing-phyio and
resolved-phyio paths. -/
def finishSystemAdapterPort (st : AgentState) (sysAdapter : ZSystemAdapter)
    (version : Nat) (port0 : NetworkPortConfig) (isFree0 : Bool) : NetworkPortConfig :=
  portNetworkStep st sysAdapter (portAddrStep sysAdapter (portFlagsStep sysAdapter version port0 isFree0))

/-- parseOneSystemAdapterConfig.  A missing physical I/O synthesizes a
free-uplink port named after the adapter with a recorded failure; a resolved
physical I/O of a non-network type drops the adapter entirely. -/
def parseOneSystemAdapterConfig (st : AgentState) (sysAdapter : ZSystemAdapter)
    (version : Nat) : Option NetworkPortConfig :=
  let port := { zeroPort with
    logicallabel := sysAdapter.name,
    aliasName := sysAdapter.aliasName,
    phylabel := if sysAdapter.lowerLayerName == "" then sysAdapter.name
                else sysAdapter.lowerLayerName }
  match resolvePhyio st sysAdapter with
  | none =>
      let port2 := recordFailure port (missingPhyioErr sysAdapter)
      let port3 := { port2 with ifName := sysAdapter.name }
      some (finishSystemAdapterPort st sysAdapter version port3 true)
  | some phyio =>
      if !(phyio.ptype.isNet) then none
      else
        let port2 := { port with
          phylabel := phyio.phylabel,
          ifName :=
            if phyio.phyaddr.ifname ≠ "" then phyio.phyaddr.ifname
            else if phyio.logicallabel ≠ "" then phyio.logicallabel
            else phyio.phylabel }
        some (finishSystemAdapterPort st sysAdapter version port2 phyio.usagePolicy.freeUplink)

/-- The device-port-config version inferred from any adapter declaring itself
an uplink. -/
def inferDPCVersion (sysAdapters : List ZSystemAdapter) : Nat :=
  sysAdapters.foldl (fun version sysAdapter => if sysAdapter.uplink then DPCIsMgmt else version)
    DPCInitial

/-- The port-building loop of parseSystemAdapterConfig (nil results from
parseOneSystemAdapterConfig are not appended). -/
def buildNewPorts (st : AgentState) (sysAdapters : List ZSystemAdapter) (version : Nat) :
    List NetworkPortConfig :=
  sysAdapters.filterMap (fun sysAdapter => parseOneSystemAdapterConfig st sysAdapter version)

/-- parseSystemAdapterConfig: change-detection gate with the forceParse
override, then the empty-port and deep-equality publish guards; now is the
clock value used for the fresh TimePriority. -/
def parseSystemAdapterConfig (st : AgentState) (sysAdapters : List ZSystemAdapter)
    (forceParse : Bool) (now : Nat) : AgentState × List AgentEvent :=
  let configHash : Option (List ZSystemAdapter) := some sysAdapters
  if configHash = st.systemAdaptersPrevConfigHash ∧ forceParse = false then (st, [])
  else
    let st2 := { st with systemAdaptersPrevConfigHash := configHash }
    let version := inferDPCVersion sysAdapters
    let newPorts := buildNewPorts st2 sysAdapters version
    if newPorts.length = 0 then (st2, [])
    else
      if newPorts = st2.devicePortConfig.ports ∧ version = st2.devicePortConfig.version then
        (st2, [])
      else
        let portConfig : DevicePortConfig :=
          { version := version, timePriority := now, ports := newPorts }
        ({ st2 with devicePortConfig := portConfig },
          [AgentEvent.pubDevicePort portConfig])

/-! ## Global config items -/

/-- parseConfigItems: change-detection gate (hash stored before the gate),
re-validation from the default baseline with the UsbAccess override, status
rebuild, and side effects fired only for the well-known keys that changed. -/
def parseConfigItems (st : AgentState) (items : List ZConfigItem) :
    AgentState × List AgentEvent :=
  let configHash : Option (List ZConfigItem) := some items
  let same := configHash = st.itemsPrevConfigHash
  let st2 := { st with itemsPrevConfigHash := configHash }
  if same then (st2, [])
  else
    let newGlobalConfig0 := gcSet DefaultConfigItemValueMap UsbAccessKey (CfgVal.boolVal false)
    let parsed := items.foldl
      (fun (acc : GlobalConfig × GlobalStatus) item =>
        let res := parseItemModel st2.specMap acc.1 st2.globalConfig item.key item.value
        (res.1, gsSet acc.2 item.key { err := res.2.2, value := cfgStringValue res.2.1 }))
      (newGlobalConfig0, emptyGlobalStatus)
    let newGlobalConfig := parsed.1
    let st3 := { st2 with globalStatus := parsed.2 }
    if st3.globalConfig = newGlobalConfig then (st3, [])
    else
      let oldGlobalConfig := st3.globalConfig
      let st4 := { st3 with globalConfig := newGlobalConfig }
      let oldConfigInterval := gcGetInt oldGlobalConfig ConfigIntervalKey
      let newConfigInterval := gcGetInt newGlobalConfig ConfigIntervalKey
      let oldMetricInterval := gcGetInt oldGlobalConfig MetricIntervalKey
      let newMetricInterval := gcGetInt newGlobalConfig MetricIntervalKey
      let oldSSHAuthorizedKeys := gcGetStr oldGlobalConfig SSHAuthorizedKeysKey
      let newSSHAuthorizedKeys := gcGetStr newGlobalConfig SSHAuthorizedKeysKey
      let evs :=
        (if newConfigInterval ≠ oldConfigInterval then
          [AgentEvent.cfgTimerUpdate newConfigInterval] else []) ++
        (if newMetricInterval ≠ oldMetricInterval then
          [AgentEvent.metricsTimerUpdate newMetricInterval] else []) ++
        (if newSSHAuthorizedKeys ≠ oldSSHAuthorizedKeys then
          [AgentEvent.sshKeysUpdate newSSHAuthorizedKeys] else []) ++
        [AgentEvent.pubGlobal newGlobalConfig, AgentEvent.pubDevInfo]
      (st4, evs)

/-! ## Operation-command controller (reboot) -/

/-- shutdownApps: walk the published app instances and clear Activate on every
active one, republishing it under its own key. -/
def shutdownAppsLoop (items : List (String × AppInstanceConfig))
    (pub : PubStore AppInstanceConfig) :
    PubStore AppInstanceConfig × List AgentEvent :=
  match items with
  | [] => (pub, [])
  | (_, config) :: rest =>
      if config.activate then
        let config2 := { config with activate := false }
        let pub2 := pubPublish pub config2.uuidandversion.uuid config2
        let res := shutdownAppsLoop rest pub2
        (res.1, AgentEvent.pubAppInst config2.uuidandversion.uuid :: res.2)
      else shutdownAppsLoop rest pub

def shutdownApps (st : AgentState) : AgentState × List AgentEvent :=
  let res := shutdownAppsLoop st.pubAppInstanceConfig st.pubAppInstanceConfig
  ({ st with pubAppInstanceConfig := res.1 }, res.2)

/-- handleRebootCmd: the user-driven reboot path; a no-op when a reboot
command or device reboot is already in progress, otherwise it latches
rebootCmd, runs the application-shutdown sweep (recorded as sweepStart) and
publishes the agent status. -/
def handleRebootCmd (st : AgentState) (infoStr : String) : AgentState × List AgentEvent :=
  if st.rebootCmd || st.deviceReboot then (st, [])
  else
    let st2 := { st with rebootCmd := true }
    let sweep := shutdownApps st2
    let st3 := { sweep.1 with currentRebootReason := infoStr }
    (st3, AgentEvent.sweepStart :: (sweep.2 ++ [AgentEvent.pubZedAgentStatus]))

/-- saveRebootConfig: atomic write-to-temp-and-rename of the persisted record,
modelled as replacing the file contents plus a fileWrite event. -/
def saveRebootConfig (st : AgentState) (reboot : DeviceOpsCmd) :
    AgentState × List AgentEvent :=
  ({ st with rebootConfigFile := some reboot }, [AgentEvent.fileWrite reboot])

/-- readRebootConfig: reads the persisted record back, creating a zero-counter
record (with a file write) when the file is missing. -/
def readRebootConfig (st : AgentState) :
    DeviceOpsCmd × AgentState × List AgentEvent :=
  match st.rebootConfigFile with
  | some rebootConfig => (rebootConfig, st, [])
  | none =>
      let rebootConfig : DeviceOpsCmd := { counter := 0, desiredState := "", opsTime := "" }
      let res := saveRebootConfig st rebootConfig
      (rebootConfig, res.1, res.2)

/-- scheduleReboot.  A nil command removes the persisted file and returns
false without touching the dedup memo.  Otherwise the command is content-hash
deduplicated against the in-memory previous command; a changed counter
persists the new record and then either suppresses (device reboot in
progress), defers (update test in progress) or executes the reboot. -/
def scheduleReboot (reboot : Option ZDeviceOpsCmd) (st : AgentState) :
    Bool × AgentState × List AgentEvent :=
  match reboot with
  | none => (false, { st with rebootConfigFile := none }, [AgentEvent.fileRemove])
  | some rb =>
      let configHash : Option ZDeviceOpsCmd := some rb
      let same := configHash = st.rebootPrevConfigHash
      let st2 := { st with rebootPrevConfigHash := configHash }
      if same then (st2.rebootPrevReturn, st2, [])
      else
        let readRes := readRebootConfig st2
        let rebootConfig := readRes.1
        let st3 := readRes.2.1
        let ev1 := readRes.2.2
        if rebootConfig.counter ≠ rb.counter then
          let rebootCmd : DeviceOpsCmd :=
            { counter := rb.counter, desiredState := rb.desiredState, opsTime := rb.opsTime }
          let saveRes := saveRebootConfig st3 rebootCmd
          let st4 := { saveRes.1 with rebootConfigCounter := rb.counter }
          let ev2 := saveRes.2
          if st4.deviceReboot then (false, st4, ev1 ++ ev2)
          else
            if st4.updateInprogress then
              (false, { st4 with rebootCmdDeferred := true }, ev1 ++ ev2)
            else
              let cmdRes := handleRebootCmd st4 "NORMAL: handleReboot rebooting"
              (true, { cmdRes.1 with rebootPrevReturn := true }, ev1 ++ ev2 ++ cmdRes.2)
        else (false, { st3 with rebootPrevReturn := false }, ev1)

/-! ## Event counting -/

def evIsUnpubBaseOs (u : String) : AgentEvent → Bool
  | AgentEvent.unpubBaseOs k => k == u
  | _ => false

def evIsUnpubCertObj (u : String) : AgentEvent → Bool
  | AgentEvent.unpubCertObj k => k == u
  | _ => false

def evIsUnpubAppInst (u : String) : AgentEvent → Bool
  | AgentEvent.unpubAppInst k => k == u
  | _ => false

def evIsUnpubNetInst (u : String) : AgentEvent → Bool
  | AgentEvent.unpubNetInst k => k == u
  | _ => false

def evIsUnpubNetX (u : String) : AgentEvent → Bool
  | AgentEvent.unpubNetX k => k == u
  | _ => false

def evIsUnpubDatastore (u : String) : AgentEvent → Bool
  | AgentEvent.unpubDatastore k => k == u
  | _ => false

def evIsPubNetInst : AgentEvent → Bool
  | AgentEvent.pubNetInst _ => true
  | _ => false

def evIsSweep : AgentEvent → Bool
  | AgentEvent.sweepStart => true
  | _ => false

def evIsFileWrite : AgentEvent → Bool
  | AgentEvent.fileWrite _ => true
  | _ => false

def evIsPubDevicePort : AgentEvent → Bool
  | AgentEvent.pubDevicePort _ => true
  | _ => false

def countEv (p : AgentEvent → Bool) (evs : List AgentEvent) : Nat :=
  (evs.filter p).length

/-- A convenient all-empty process state (fresh boot, empty stores). -/
def emptyAgentState : AgentState :=
  { baseosPrevConfigHash := none,
    networkConfigPrevConfigHash := none,
    networkInstancePrevConfigHash := none,
    appinstancePrevConfigHash := none,
    systemAdaptersPrevConfigHash := none,
    deviceIoListPrevConfigHash := none,
    datastoreConfigPrevConfigHash := none,
    itemsPrevConfigHash := none,
    rebootPrevConfigHash := none,
    rebootPrevReturn := false,
    rebootConfigFile := none,
    rebootConfigCounter := 0,
    deviceReboot := false,
    rebootCmd := false,
    updateInprogress := false,
    rebootCmdDeferred := false,
    currentRebootReason := "",
    pubBaseOsConfig := [],
    pubCertObjConfig := [],
    pubAppInstanceConfig := [],
    pubNetworkInstanceConfig := [],
    pubNetworkXObjectConfig := [],
    pubDatastoreConfig := [],
    physicalIoAdapterMap := [],
    devicePortConfig := { version := 0, timePriority := 0, ports := [] },
    globalConfig := DefaultConfigItemValueMap,
    globalStatus := emptyGlobalStatus,
    specMap := defaultSpecMap }

/-! ## Concrete inputs used by counterexamples and witnesses -/

def sampleActiveApp : AppInstanceConfig :=
  { zeroAppInstance with
    uuidandversion := { uuid := "11111111-1111-1111-1111-111111111111", version := "1" },
    displayName := "app1",
    activate := true }

/-- A state in which the device has run before: the persisted reboot record
exists with counter 0 and one active app instance is published. -/
def rebootStartState : AgentState :=
  { emptyAgentState with
    rebootConfigFile := some { counter := 0, desiredState := "", opsTime := "" },
    pubAppInstanceConfig := [("11111111-1111-1111-1111-111111111111", sampleActiveApp)] }

def zcmd5 : ZDeviceOpsCmd := { counter := 5, desiredState := "reboot", opsTime := "t5" }

def zcmd6 : ZDeviceOpsCmd := { counter := 6, desiredState := "reboot", opsTime := "t6" }

def c1run1 : Bool × AgentState × List AgentEvent := scheduleReboot (some zcmd5) rebootStartState

def c1run2 : Bool × AgentState × List AgentEvent := scheduleReboot (some zcmd5) c1run1.2.1

def c1run3 : Bool × AgentState × List AgentEvent := scheduleReboot (some zcmd6) c1run2.2.1

def sampleVpnInstance (u : String) : ZNetworkInstanceConfig :=
  { uuidandversion := { uuid := u, version := "1" },
    displayname := "vpn",
    instType := NetworkInstanceType.znetInstCloud,
    activate := true,
    port := none,
    ipType := AddressType.atIPV4,
    cfg := some { oconfig := "vpncfg", otype := ZOpaqueType.oVPN, lispConfig := none },
    ip := none,
    dns := [] }

def sampleMeshInstance (u : String) : ZNetworkInstanceConfig :=
  { sampleVpnInstance u with instType := NetworkInstanceType.znetInstMesh, cfg := none }

def sampleLocalInstance (u : String) : ZNetworkInstanceConfig :=
  { sampleVpnInstance u with instType := NetworkInstanceType.znetInstLocal, cfg := none }

def sampleStoredNI : NetworkInstanceConfig :=
  { zeroNetworkInstanceConfig with
    uuidandversion := { uuid := "33333333-3333-3333-3333-333333333333", version := "1" } }

/-- A state with one previously published network instance. -/
def c2State : AgentState :=
  { emptyAgentState with
    pubNetworkInstanceConfig := [("33333333-3333-3333-3333-333333333333", sampleStoredNI)] }

/-- A snapshot carrying two VPN-opaque instances and not carrying the
previously published instance. -/
def c2Snapshot : List ZNetworkInstanceConfig :=
  [sampleVpnInstance "aaaaaaaa-aaaa-aaaa-aaaa-aaaaaaaaaaaa",
   sampleVpnInstance "bbbbbbbb-bbbb-bbbb-bbbb-bbbbbbbbbbbb"]

def sampleZVm : ZVmConfig :=
  { kernel := "", bootloader := "", ramdisk := "", rootdev := "",
    maxmem := 0, memory := 0, vcpus := 0, virtualizationMode := 0, enableVnc := false,
    vncDisplay := 0, vncPasswd := "" }

/-- An app interface whose referenced network instance does not exist in the
snapshot. -/
def c4Intf : ZNetworkAdapter :=
  { name := "eth0", networkId := "99999999-9999-9999-9999-999999999999", macAddress := "",
    addr := "", cryptoEid := "", acls := [], lispsignature := "", pemcert := "",
    pemprivatekey := "" }

def c4App : ZAppInstanceConfig :=
  { uuidandversion := { uuid := "22222222-2222-2222-2222-222222222222", version := "1" },
    displayname := "app", activate := true,
    fixedresources := sampleZVm,
    drives := [], interfaces := [c4Intf], adapters := [], restart := none, purge := none,
    userData := "", remoteConsole := false, cipherData := "" }

def sampleAclWithId (i : Int) : ZACL :=
  { id := i, name := "", dir := 0, aclMatches := [], actions := [] }

def c8IntfOne : ZNetworkAdapter :=
  { c4Intf with name := "i1", networkId := "aaaaaaaa-aaaa-aaaa-aaaa-aaaaaaaaaaaa",
                acls := [sampleAclWithId 1] }

def c8IntfTwo : ZNetworkAdapter :=
  { c4Intf with name := "i2", networkId := "aaaaaaaa-aaaa-aaaa-aaaa-aaaaaaaaaaaa",
                acls := [sampleAclWithId 2] }

def c8IntfOneMesh : ZNetworkAdapter :=
  { c8IntfOne with networkId := "cccccccc-cccc-cccc-cccc-cccccccccccc" }

def c8IntfTwoMesh : ZNetworkAdapter :=
  { c8IntfTwo with networkId := "cccccccc-cccc-cccc-cccc-cccccccccccc" }

def c8App : ZAppInstanceConfig := { c4App with interfaces := [c8IntfTwo, c8IntfOne] }

def c8AppMesh : ZAppInstanceConfig := { c4App with interfaces := [c8IntfTwoMesh, c8IntfOneMesh] }

def c8Instances : List ZNetworkInstanceConfig :=
  [sampleLocalInstance "aaaaaaaa-aaaa-aaaa-aaaa-aaaaaaaaaaaa",
   sampleMeshInstance "cccccccc-cccc-cccc-cccc-cccccccccccc"]

def samplePhyAddrEth : PhysicalAddress :=
  { pciLong := "", ifname := "eth0", serial := "", irq := "", ioports := "", unknownType := "" }

def samplePhyEth : PhysicalIOAdapter :=
  { ptype := IoType.ioNetEth, phylabel := "eth0p", logicallabel := "adapter1",
    assigngrp := "", usage := 0, usagePolicy := { freeUplink := false },
    phyaddr := samplePhyAddrEth }

def samplePhyUsb : PhysicalIOAdapter :=
  { samplePhyEth with ptype := IoType.ioUSB, logicallabel := "adapter2", phylabel := "usb0p" }

/-- A state with one network-capable and one non-network physical I/O. -/
def adapterState : AgentState :=
  { emptyAgentState with
    physicalIoAdapterMap := [("eth0p", samplePhyEth), ("usb0p", samplePhyUsb)] }

def sysAdapterEth : ZSystemAdapter :=
  { name := "adapter1", aliasName := "", lowerLayerName := "",
    uplink := false, freeUplink := false, addr := "", networkUUID := "" }

def sysAdapterUsb : ZSystemAdapter := { sysAdapterEth with name := "adapter2" }

def sysAdapterMissing : ZSystemAdapter := { sysAdapterEth with name := "nosuch" }

/-- A stored network object with static DHCP and no subnet, for the C6
witness. -/
def sampleStaticNet : NetworkXObjectConfig :=
  { zeroNetworkXObjectConfig with
    uuid := "44444444-4444-4444-4444-444444444444",
    dhcp := DhcpType.dtStatic }

def sampleBaseOsStored : BaseOsConfig :=
  { uuidandversion := { uuid := "55555555-5555-5555-5555-555555555555", version := "1" },
    activate := true, baseOsVersion := "1.0", osParams := [],
    storageConfigList := [], configSha256 := "" }

def sampleCertStored : CertObjConfig :=
  { uuidandversion := { uuid := "55555555-5555-5555-5555-555555555555", version := "1" },
    configSha256 := "", storageConfigList := [] }

def sampleCertStoredApp : CertObjConfig :=
  { sampleCertStored with
    uuidandversion := { uuid := "11111111-1111-1111-1111-111111111111", version := "1" } }

/-- A stored datastore entity for the deletion-completeness witness. -/
def sampleDsStored : DatastoreConfig :=
  { uuid := "66666666-6666-6666-6666-666666666666", dsType := "DsHttp",
    fqdn := "", apiKey := "", password := "", dpath := "", region := "us-west-2",
    cipherBlockStatus := { key := "66666666-6666-6666-6666-666666666666",
                           hasCipher := false } }

/-- A state where one entity of every UUID-keyed kind is published (base OS
and app instance each with a certificate bundle). -/
def c3State : AgentState :=
  { emptyAgentState with
    pubBaseOsConfig := [("55555555-5555-5555-5555-555555555555", sampleBaseOsStored)],
    pubAppInstanceConfig := [("11111111-1111-1111-1111-111111111111", sampleActiveApp)],
    pubCertObjConfig := [("55555555-5555-5555-5555-555555555555", sampleCertStored),
                         ("11111111-1111-1111-1111-111111111111", sampleCertStoredApp)],
    pubNetworkInstanceConfig := [("33333333-3333-3333-3333-333333333333", sampleStoredNI)],
    pubNetworkXObjectConfig := [("44444444-4444-4444-4444-444444444444", sampleStaticNet)],
    pubDatastoreConfig := [("66666666-6666-6666-6666-666666666666", sampleDsStored)] }

/-- A state whose stored digests all match the empty incoming element lists. -/
def c5State : AgentState :=
  { emptyAgentState with
    baseosPrevConfigHash := some [],
    networkConfigPrevConfigHash := some [],
    networkInstancePrevConfigHash := some [],
    appinstancePrevConfigHash := some [],
    systemAdaptersPrevConfigHash := some [],
    deviceIoListPrevConfigHash := some [],
    datastoreConfigPrevConfigHash := some [],
    itemsPrevConfigHash := some [] }

/-! ## Theorems -/

theorem countEv_nil (p : AgentEvent → Bool) : countEv p [] = 0 := rfl

theorem countEv_append (p : AgentEvent → Bool) (a b : List AgentEvent) :
    countEv p (a ++ b) = countEv p a + countEv p b := by
  simp [countEv, List.filter_append]

theorem countEv_cons (p : AgentEvent → Bool) (e : AgentEvent) (l : List AgentEvent) :
    countEv p (e :: l) = (if p e then 1 else 0) + countEv p l := by
  by_cases h : p e <;> simp [countEv, List.filter_cons, h, Nat.add_comm]

theorem shutdownAppsLoop_counts (items : List (String × AppInstanceConfig))
    (pub : PubStore AppInstanceConfig) :
    countEv evIsSweep (shutdownAppsLoop items pub).2 = 0 ∧
    countEv evIsFileWrite (shutdownAppsLoop items pub).2 = 0 := by
  induction items generalizing pub with
  | nil => simp [shutdownAppsLoop, countEv_nil]
  | cons hd tl ih =>
      obtain ⟨k, c⟩ := hd
      by_cases h : c.activate = true
      · simp [shutdownAppsLoop, h, countEv_cons, evIsSweep, evIsFileWrite, ih]
      · simp only [Bool.not_eq_true] at h
        simp [shutdownAppsLoop, h, ih]

/-- Claim C9: a nil reboot command removes the persisted reboot-config file,
returns false, and leaves the stored dedup hash and previous-return memo
unchanged, so a later re-delivered command is compared against the hash from
before the nil delivery. -/
theorem scheduleReboot_nil_command (st : AgentState) :
    (scheduleReboot none st).1 = false ∧
    (scheduleReboot none st).2.1.rebootConfigFile = none ∧
    (scheduleReboot none st).2.1.rebootPrevConfigHash = st.rebootPrevConfigHash ∧
    (scheduleReboot none st).2.1.rebootPrevReturn = st.rebootPrevReturn ∧
    (scheduleReboot none st).2.2 = [AgentEvent.fileRemove] := by
  refine ⟨rfl, rfl, ?_, ?_, rfl⟩ <;> cases st <;> rfl

theorem scheduleReboot_dedup (st : AgentState) (c : ZDeviceOpsCmd)
    (h : st.rebootPrevConfigHash = some c) :
    scheduleReboot (some c) st = (st.rebootPrevReturn, st, []) := by
  cases st
  subst h
  simp [scheduleReboot]

theorem scheduleReboot_fires (st : AgentState) (c : ZDeviceOpsCmd) (f : DeviceOpsCmd)
    (hh : st.rebootPrevConfigHash ≠ some c)
    (hf : st.rebootConfigFile = some f)
    (hc : f.counter ≠ c.counter)
    (hd : st.deviceReboot = false)
    (hu : st.updateInprogress = false)
    (hr : st.rebootCmd = false) :
    (scheduleReboot (some c) st).1 = true ∧
    countEv evIsSweep (scheduleReboot (some c) st).2.2 = 1 ∧
    countEv evIsFileWrite (scheduleReboot (some c) st).2.2 = 1 ∧
    (scheduleReboot (some c) st).2.1.rebootPrevConfigHash = some c ∧
    (scheduleReboot (some c) st).2.1.rebootPrevReturn = true ∧
    (scheduleReboot (some c) st).2.1.rebootCmd = true ∧
    (scheduleReboot (some c) st).2.1.rebootConfigFile =
      some { counter := c.counter, desiredState := c.desiredState, opsTime := c.opsTime } ∧
    (scheduleReboot (some c) st).2.1.deviceReboot = false ∧
    (scheduleReboot (some c) st).2.1.updateInprogress = false := by
  cases st
  subst hf hd hu hr
  have hcond : ¬((some c : Option ZDeviceOpsCmd) = some c → False) := fun h2 => h2 rfl
  simp only [scheduleReboot, readRebootConfig, saveRebootConfig, handleRebootCmd,
    shutdownApps]
  rw [if_neg (fun h2 => hh h2.symm)]
  rw [if_pos hc]
  refine ⟨rfl, ?_, ?_, rfl, rfl, rfl, rfl, rfl, rfl⟩
  · simp [countEv_append, countEv_cons, evIsSweep,
      (shutdownAppsLoop_counts _ _).1, countEv_nil]
  · simp [countEv_append, countEv_cons, evIsFileWrite,
      (shutdownAppsLoop_counts _ _).2, countEv_nil]

theorem scheduleReboot_latched (st : AgentState) (c : ZDeviceOpsCmd) (f : DeviceOpsCmd)
    (hh : st.rebootPrevConfigHash ≠ some c)
    (hf : st.rebootConfigFile = some f)
    (hc : f.counter ≠ c.counter)
    (hd : st.deviceReboot = false)
    (hu : st.updateInprogress = false)
    (hr : st.rebootCmd = true) :
    (scheduleReboot (some c) st).1 = true ∧
    countEv evIsSweep (scheduleReboot (some c) st).2.2 = 0 ∧
    countEv evIsFileWrite (scheduleReboot (some c) st).2.2 = 1 := by
  cases st
  subst hf hd hu hr
  simp only [scheduleReboot, readRebootConfig, saveRebootConfig, handleRebootCmd,
    shutdownApps]
  rw [if_neg (fun h2 => hh h2.symm)]
  rw [if_pos hc]
  refine ⟨rfl, ?_, ?_⟩
  · simp [countEv_append, countEv_cons, evIsSweep, countEv_nil]
  · simp [countEv_append, countEv_cons, evIsFileWrite, countEv_nil]

/-- Claim C1 (counterexample): starting from a device that has run before
(persisted counter 0, one active app), delivering {counter 5, reboot} twice
gives exactly one sweep and one file write, but delivering {counter 6, reboot}
afterwards performs no second application-shutdown sweep: handleRebootCmd
returns early because rebootCmd is already latched. -/
theorem reboot_counter6_counterexample :
    countEv evIsSweep (c1run1.2.2 ++ c1run2.2.2) = 1 ∧
    countEv evIsSweep c1run3.2.2 = 0 ∧
    countEv evIsSweep (c1run1.2.2 ++ c1run2.2.2 ++ c1run3.2.2) = 1 := by
  decide

/-- Claim C1 (amended): delivering the same reboot command twice in a row
triggers exactly one application-shutdown sweep and one persisted-file write
(the duplicate is a no-op repeating the previous return value); delivering a
command with a new counter afterwards triggers a second persisted-file write
but no second application-shutdown sweep, because the in-memory reboot-command
latch set by the first command makes handleRebootCmd return early. -/
theorem reboot_dedup_then_latch (st : AgentState) (c5 c6 : ZDeviceOpsCmd) (f : DeviceOpsCmd)
    (hh : st.rebootPrevConfigHash ≠ some c5)
    (hf : st.rebootConfigFile = some f)
    (hc5 : f.counter ≠ c5.counter)
    (hc56 : c5.counter ≠ c6.counter)
    (hd : st.deviceReboot = false)
    (hu : st.updateInprogress = false)
    (hr : st.rebootCmd = false) :
    countEv evIsSweep ((scheduleReboot (some c5) st).2.2 ++
        (scheduleReboot (some c5) (scheduleReboot (some c5) st).2.1).2.2) = 1 ∧
    countEv evIsFileWrite ((scheduleReboot (some c5) st).2.2 ++
        (scheduleReboot (some c5) (scheduleReboot (some c5) st).2.1).2.2) = 1 ∧
    (scheduleReboot (some c5) (scheduleReboot (some c5) st).2.1).2.2 = [] ∧
    (scheduleReboot (some c5) (scheduleReboot (some c5) st).2.1).1 = true ∧
    countEv evIsFileWrite
      (scheduleReboot (some c6)
        (scheduleReboot (some c5) (scheduleReboot (some c5) st).2.1).2.1).2.2 = 1 ∧
    countEv evIsSweep
      (scheduleReboot (some c6)
        (scheduleReboot (some c5) (scheduleReboot (some c5) st).2.1).2.1).2.2 = 0 := by
  obtain ⟨h1ret, h1sw, h1fw, h1hash, h1prev, h1cmd, h1file, h1dev, h1upd⟩ :=
    scheduleReboot_fires st c5 f hh hf hc5 hd hu hr
  have hded := scheduleReboot_dedup (scheduleReboot (some c5) st).2.1 c5 h1hash
  have h2state : (scheduleReboot (some c5) (scheduleReboot (some c5) st).2.1).2.1 =
      (scheduleReboot (some c5) st).2.1 := by rw [hded]
  have h2ev : (scheduleReboot (some c5) (scheduleReboot (some c5) st).2.1).2.2 = [] := by
    rw [hded]
  have h2ret : (scheduleReboot (some c5) (scheduleReboot (some c5) st).2.1).1 = true := by
    rw [hded]; exact h1prev
  have hne : (scheduleReboot (some c5) st).2.1.rebootPrevConfigHash ≠ some c6 := by
    rw [h1hash]
    intro hx
    injection hx with hx2
    exact hc56 (congrArg ZDeviceOpsCmd.counter hx2)
  have h3 := scheduleReboot_latched (scheduleReboot (some c5) st).2.1 c6
    { counter := c5.counter, desiredState := c5.desiredState, opsTime := c5.opsTime }
    hne h1file hc56 h1dev h1upd h1cmd
  refine ⟨?_, ?_, h2ev, h2ret, ?_, ?_⟩
  · rw [h2ev, countEv_append, h1sw]; simp [countEv_nil]
  · rw [h2ev, countEv_append, h1fw]; simp [countEv_nil]
  · rw [h2state]; exact h3.2.2
  · rw [h2state]; exact h3.2.1

/-- Witness for the amended claim C1 at a concrete device state. -/
theorem reboot_dedup_then_latch_witness :
    countEv evIsSweep (c1run1.2.2 ++ c1run2.2.2) = 1 ∧
    countEv evIsFileWrite (c1run1.2.2 ++ c1run2.2.2) = 1 ∧
    c1run2.2.2 = [] ∧
    c1run2.1 = true ∧
    countEv evIsFileWrite c1run3.2.2 = 1 ∧
    countEv evIsSweep c1run3.2.2 = 0 :=
  reboot_dedup_then_latch rebootStartState zcmd5 zcmd6
    { counter := 0, desiredState := "", opsTime := "" }
    (by decide) (by decide) (by decide) (by decide) (by decide) (by decide) (by decide)

theorem pubContains_unpublish_self {α : Type} (s : PubStore α) (k : String) :
    pubContains (pubUnpublish s k) k = false := by
  induction s with
  | nil => rfl
  | cons hd tl ih =>
      simp only [pubUnpublish, pubContains, List.any_filter] at *
      simp only [List.any_cons]
      rw [ih]
      by_cases h2 : hd.1 = k
      · simp [h2]
      · have h3 : (hd.1 == k) = false := beq_eq_false_iff_ne.mpr h2
        simp [h3]

theorem pubContains_unpublish_ne {α : Type} (s : PubStore α) (k u : String) (h : u ≠ k) :
    pubContains (pubUnpublish s k) u = pubContains s u := by
  induction s with
  | nil => rfl
  | cons hd tl ih =>
      simp only [pubUnpublish, pubContains, List.any_filter] at *
      simp only [List.any_cons]
      rw [ih]
      by_cases h2 : hd.1 = u
      · have h3 : (hd.1 == k) = false := beq_eq_false_iff_ne.mpr (by rw [h2]; exact h)
        rw [h3]
        simp
      · have h4 : (hd.1 == u) = false := beq_eq_false_iff_ne.mpr h2
        rw [h4]
        simp

theorem niDeleteLoop_no_publish (entries : List (String × NetworkInstanceConfig))
    (insts : List ZNetworkInstanceConfig) (pub : PubStore NetworkInstanceConfig) :
    countEv evIsPubNetInst (niDeleteLoop entries insts pub).2 = 0 := by
  induction entries generalizing pub with
  | nil => rfl
  | cons hd tl ih =>
      obtain ⟨k, v⟩ := hd
      simp only [niDeleteLoop]
      cases h : lookupNetworkInstanceById k insts with
      | some x => exact ih pub
      | none => simp [countEv_cons, evIsPubNetInst, ih]

theorem niDeleteLoop_not_contains (entries : List (String × NetworkInstanceConfig))
    (insts : List ZNetworkInstanceConfig) (pub : PubStore NetworkInstanceConfig)
    (k : String) (h : pubContains pub k = false) :
    pubContains (niDeleteLoop entries insts pub).1 k = false := by
  induction entries generalizing pub with
  | nil => exact h
  | cons hd tl ih =>
      obtain ⟨k2, v2⟩ := hd
      simp only [niDeleteLoop]
      cases h2 : lookupNetworkInstanceById k2 insts with
      | some x => exact ih pub h
      | none =>
          apply ih
          by_cases h3 : k = k2
          · subst h3; exact pubContains_unpublish_self pub k
          · rw [pubContains_unpublish_ne pub k2 k h3]; exact h

theorem niDeleteLoop_removes (entries : List (String × NetworkInstanceConfig))
    (insts : List ZNetworkInstanceConfig) (pub : PubStore NetworkInstanceConfig)
    (k : String) (hmem : ∃ v, (k, v) ∈ entries)
    (habs : lookupNetworkInstanceById k insts = none) :
    pubContains (niDeleteLoop entries insts pub).1 k = false := by
  induction entries generalizing pub with
  | nil => obtain ⟨v, hv⟩ := hmem; cases hv
  | cons hd tl ih =>
      obtain ⟨k2, v2⟩ := hd
      obtain ⟨v, hv⟩ := hmem
      simp only [niDeleteLoop]
      rcases List.mem_cons.mp hv with heq | hmem2
      · have hk : k2 = k := by
          have := congrArg Prod.fst heq
          exact this.symm
        subst hk
        rw [habs]
        exact niDeleteLoop_not_contains tl insts _ k2 (pubContains_unpublish_self pub k2)
      · cases h2 : lookupNetworkInstanceById k2 insts with
        | some x => exact ih pub ⟨v, hmem2⟩
        | none => exact ih _ ⟨v, hmem2⟩

/-- Claim C2 (counterexample): a snapshot with two VPN-opaque instances still
unpublishes a previously published instance that is absent from it, so the
previously published network-instance state is not retained unchanged. -/
theorem vpn_cardinality_counterexample :
    vpnCountOf c2Snapshot = 2 ∧
    countEv evIsPubNetInst (publishNetworkInstanceConfig c2State c2Snapshot).2 = 0 ∧
    (publishNetworkInstanceConfig c2State c2Snapshot).1.pubNetworkInstanceConfig ≠
      c2State.pubNetworkInstanceConfig := by
  decide

/-- Claim C2 (amended): for every snapshot containing two or more mesh/VPN-
opaque network instances, the publish phase performs zero network-instance
publishes for that cycle, but the delete-first pass has already run: the
resulting store is exactly the deletion pass's output, and every previously
published instance absent from the snapshot has been unpublished. -/
theorem vpn_cardinality_skips_publish (st : AgentState)
    (insts : List ZNetworkInstanceConfig) (hv : vpnCountOf insts > 1) :
    countEv evIsPubNetInst (publishNetworkInstanceConfig st insts).2 = 0 ∧
    (publishNetworkInstanceConfig st insts).1.pubNetworkInstanceConfig =
      (niDeleteLoop st.pubNetworkInstanceConfig insts st.pubNetworkInstanceConfig).1 ∧
    (∀ k v, (k, v) ∈ st.pubNetworkInstanceConfig →
      lookupNetworkInstanceById k insts = none →
      pubContains (publishNetworkInstanceConfig st insts).1.pubNetworkInstanceConfig k = false) := by
  simp only [publishNetworkInstanceConfig]
  rw [if_pos hv]
  refine ⟨niDeleteLoop_no_publish _ _ _, rfl, ?_⟩
  intro k v hkv habs
  exact niDeleteLoop_removes _ _ _ k ⟨v, hkv⟩ habs

/-- Witness for the amended claim C2 at a concrete store and snapshot. -/
theorem vpn_cardinality_witness :
    countEv evIsPubNetInst (publishNetworkInstanceConfig c2State c2Snapshot).2 = 0 ∧
    (publishNetworkInstanceConfig c2State c2Snapshot).1.pubNetworkInstanceConfig =
      (niDeleteLoop c2State.pubNetworkInstanceConfig c2Snapshot
        c2State.pubNetworkInstanceConfig).1 ∧
    (∀ k v, (k, v) ∈ c2State.pubNetworkInstanceConfig →
      lookupNetworkInstanceById k c2Snapshot = none →
      pubContains (publishNetworkInstanceConfig c2State c2Snapshot).1.pubNetworkInstanceConfig
        k = false) :=
  vpn_cardinality_skips_publish c2State c2Snapshot (by decide)

theorem underlayAddrStep_isSome (cfgApp : ZAppInstanceConfig) (e : ZNetworkAdapter)
    (u : UnderlayNetworkConfig) : (underlayAddrStep cfgApp e u).isSome = true := by
  by_cases h : e.addr ≠ ""
  · simp only [underlayAddrStep, if_pos h]
    cases hip : parseIP? e.addr with
    | none => rfl
    | some ip =>
        by_cases h2 : ipIsV4 ip = true
        · simp [h2]
        · simp only [Bool.not_eq_true] at h2
          simp [h2]
  · simp only [underlayAddrStep, if_neg h]
    rfl

theorem overlayEidStep_isSome (e : ZNetworkAdapter) (o : EIDOverlayConfig) :
    (overlayEidStep e o).isSome = true := by
  by_cases h : e.cryptoEid ≠ ""
  · simp only [overlayEidStep, if_pos h]
    cases hip : parseIP? e.cryptoEid with
    | none => rfl
    | some eid =>
        by_cases h2 : e.addr ≠ ""
        · simp only [if_pos h2]
          cases hip2 : parseIP? e.addr with
          | none => rfl
          | some ip => rfl
        · simp only [if_neg h2]
          rfl
  · simp only [overlayEidStep, if_neg h]
    by_cases h2 : e.addr ≠ ""
    · simp only [if_pos h2]
      cases hip : parseIP? e.addr with
      | none => rfl
      | some eid => rfl
    · simp only [if_neg h2]
      rfl

theorem parseUnderlayEntry_isSome_of_found (cfgApp : ZAppInstanceConfig)
    (cfgNetworks : List ZNetworkConfig) (insts : List ZNetworkInstanceConfig)
    (e : ZNetworkAdapter) (ni : ZNetworkInstanceConfig)
    (hl : lookupNetworkInstanceId e.networkId insts = some ni)
    (hm : isOverlayNetworkInstance ni = false) :
    (parseUnderlayNetworkConfigEntry cfgApp cfgNetworks insts e).isSome = true := by
  simp only [parseUnderlayNetworkConfigEntry, hl, hm]
  simp only [Bool.false_eq_true, if_false]
  cases hu : uuidFromStr? e.networkId with
  | none => rfl
  | some u =>
      by_cases h2 : e.macAddress ≠ ""
      · simp only [if_pos h2]
        cases hmac : parseMAC? e.macAddress with
        | none => rfl
        | some mac => exact underlayAddrStep_isSome _ _ _
      · simp only [if_neg h2]
        exact underlayAddrStep_isSome _ _ _

theorem parseOverlayEntry_isSome_of_mesh (cfgApp : ZAppInstanceConfig)
    (cfgNetworks : List ZNetworkConfig) (insts : List ZNetworkInstanceConfig)
    (e : ZNetworkAdapter) (ni : ZNetworkInstanceConfig)
    (hl : lookupNetworkInstanceId e.networkId insts = some ni)
    (hm : isOverlayNetworkInstance ni = true) :
    (parseOverlayNetworkConfigEntry cfgApp cfgNetworks insts e).isSome = true := by
  simp only [parseOverlayNetworkConfigEntry, hl, hm, Bool.not_true, Bool.false_eq_true,
    if_false]
  cases hu : uuidFromStr? e.networkId with
  | none => rfl
  | some u =>
      by_cases h2 : e.macAddress ≠ ""
      · simp only [if_pos h2]
        cases hmac : parseMAC? e.macAddress with
        | none => rfl
        | some mac => exact overlayEidStep_isSome _ _
      · simp only [if_neg h2]
        exact overlayEidStep_isSome _ _

/-- Claim C4 (counterexample): an interface whose referenced network instance
cannot be found produces an overlay-shaped entity carrying the lookup error in
addition to the underlay-shaped one, so "no overlay entity" is false. -/
theorem lookup_error_overlay_counterexample :
    parseOverlayNetworkConfigEntry c4App [] [] c4Intf =
      some { zeroOverlay with name := "eth0", error := ulCantFindErr c4App c4Intf } ∧
    (parseOverlayNetworkConfig zeroAppInstance c4App [] []).overlayNetworkList.length = 1 := by
  decide

/-- Claim C4 (amended): an app interface is translated as an underlay
interface unless its referenced network instance is of mesh type, in which
case it is translated as an overlay interface; an interface whose referenced
network instance cannot be found produces BOTH an underlay-shaped entity and
an overlay-shaped entity, each carrying only the lookup error. -/
theorem underlay_overlay_split (cfgApp : ZAppInstanceConfig)
    (cfgNetworks : List ZNetworkConfig) (insts : List ZNetworkInstanceConfig)
    (e : ZNetworkAdapter) :
    (∀ ni, lookupNetworkInstanceId e.networkId insts = some ni →
      isOverlayNetworkInstance ni = false →
      (parseUnderlayNetworkConfigEntry cfgApp cfgNetworks insts e).isSome = true ∧
      parseOverlayNetworkConfigEntry cfgApp cfgNetworks insts e = none) ∧
    (∀ ni, lookupNetworkInstanceId e.networkId insts = some ni →
      isOverlayNetworkInstance ni = true →
      parseUnderlayNetworkConfigEntry cfgApp cfgNetworks insts e = none ∧
      (parseOverlayNetworkConfigEntry cfgApp cfgNetworks insts e).isSome = true) ∧
    (lookupNetworkInstanceId e.networkId insts = none →
      parseUnderlayNetworkConfigEntry cfgApp cfgNetworks insts e =
        some { zeroUnderlay with name := e.name, error := ulCantFindErr cfgApp e } ∧
      parseOverlayNetworkConfigEntry cfgApp cfgNetworks insts e =
        some { zeroOverlay with name := e.name, error := ulCantFindErr cfgApp e }) := by
  refine ⟨?_, ?_, ?_⟩
  · intro ni hl hm
    refine ⟨parseUnderlayEntry_isSome_of_found cfgApp cfgNetworks insts e ni hl hm, ?_⟩
    simp [parseOverlayNetworkConfigEntry, hl, hm]
  · intro ni hl hm
    refine ⟨?_, parseOverlayEntry_isSome_of_mesh cfgApp cfgNetworks insts e ni hl hm⟩
    simp [parseUnderlayNetworkConfigEntry, hl, hm]
  · intro hl
    constructor
    · simp [parseUnderlayNetworkConfigEntry, hl]
    · simp [parseOverlayNetworkConfigEntry, hl]

/-- Witness for the amended claim C4 on the missing-instance branch. -/
theorem underlay_overlay_split_witness :
    parseUnderlayNetworkConfigEntry c4App [] [] c4Intf =
      some { zeroUnderlay with name := c4Intf.name, error := ulCantFindErr c4App c4Intf } ∧
    parseOverlayNetworkConfigEntry c4App [] [] c4Intf =
      some { zeroOverlay with name := c4Intf.name, error := ulCantFindErr c4App c4Intf } :=
  (underlay_overlay_split c4App [] [] c4Intf).2.2 (by decide)

theorem insertByKey_mem {α : Type} (key : α → Int) (x : α) (l : List α) (b : α)
    (h : b ∈ insertByKey key x l) : b = x ∨ b ∈ l := by
  induction l with
  | nil => simpa [insertByKey] using h
  | cons hd tl ih =>
      by_cases hle : key x ≤ key hd
      · simp only [insertByKey, if_pos hle] at h
        rcases List.mem_cons.mp h with rfl | h2
        · exact Or.inl rfl
        · exact Or.inr h2
      · simp only [insertByKey, if_neg hle] at h
        rcases List.mem_cons.mp h with rfl | h2
        · exact Or.inr (List.mem_cons_self _ _)
        · rcases ih h2 with h3 | h3
          · exact Or.inl h3
          · exact Or.inr (List.mem_cons_of_mem _ h3)

theorem insertByKey_pairwise {α : Type} (key : α → Int) (x : α) (l : List α)
    (h : List.Pairwise (fun a b => key a ≤ key b) l) :
    List.Pairwise (fun a b => key a ≤ key b) (insertByKey key x l) := by
  induction l with
  | nil => simp [insertByKey]
  | cons hd tl ih =>
      rcases List.pairwise_cons.mp h with ⟨h1, h2⟩
      by_cases hle : key x ≤ key hd
      · simp only [insertByKey, if_pos hle]
        refine List.pairwise_cons.mpr ⟨?_, h⟩
        intro b hb
        rcases List.mem_cons.mp hb with rfl | hb2
        · exact hle
        · exact le_trans hle (h1 b hb2)
      · simp only [insertByKey, if_neg hle]
        refine List.pairwise_cons.mpr ⟨?_, ih h2⟩
        intro b hb
        rcases insertByKey_mem key x tl b hb with rfl | hb2
        · exact le_of_lt (lt_of_not_le hle)
        · exact h1 b hb2

theorem sortByKey_pairwise {α : Type} (key : α → Int) (l : List α) :
    List.Pairwise (fun a b => key a ≤ key b) (sortByKey key l) := by
  induction l with
  | nil => simp [sortByKey]
  | cons hd tl ih => exact insertByKey_pairwise key hd (sortByKey key tl) ih

theorem sortByKey_pair {α : Type} (key : α → Int) (x y : α) (h : ¬(key x ≤ key y)) :
    sortByKey key [x, y] = [y, x] := by
  simp [sortByKey, insertByKey, h]

theorem seedIntfOrder_fold_stable (l : List ZACL) (o : Int) (h : o ≠ 0) :
    l.foldl (fun intfOrder acl => if intfOrder = 0 then acl.id else intfOrder) o = o := by
  induction l with
  | nil => rfl
  | cons hd tl ih => simp only [List.foldl_cons, if_neg h]; exact ih

theorem seedIntfOrder_first (a : ZACL) (r : List ZACL) (h : a.id ≠ 0) :
    seedIntfOrder (a :: r) = a.id := by
  simp only [seedIntfOrder, List.foldl_cons, if_pos rfl]
  exact seedIntfOrder_fold_stable r a.id h

theorem parseUnderlayEntry_success (cfgApp : ZAppInstanceConfig)
    (cfgNetworks : List ZNetworkConfig) (insts : List ZNetworkInstanceConfig)
    (e : ZNetworkAdapter) (ni : ZNetworkInstanceConfig)
    (hl : lookupNetworkInstanceId e.networkId insts = some ni)
    (hm : isOverlayNetworkInstance ni = false)
    (hu : isValidUUIDStr e.networkId = true)
    (hmac : e.macAddress = "") (haddr : e.addr = "") :
    parseUnderlayNetworkConfigEntry cfgApp cfgNetworks insts e =
      some (underlayFinish e
        { zeroUnderlay with name := e.name, network := lowerStr e.networkId }) := by
  simp only [parseUnderlayNetworkConfigEntry, hl, hm, Bool.false_eq_true, if_false]
  simp [uuidFromStr?, hu, hmac, underlayAddrStep, haddr]

theorem parseOverlayEntry_success (cfgApp : ZAppInstanceConfig)
    (cfgNetworks : List ZNetworkConfig) (insts : List ZNetworkInstanceConfig)
    (e : ZNetworkAdapter) (ni : ZNetworkInstanceConfig)
    (hl : lookupNetworkInstanceId e.networkId insts = some ni)
    (hm : isOverlayNetworkInstance ni = true)
    (hu : isValidUUIDStr e.networkId = true)
    (hmac : e.macAddress = "") (haddr : e.addr = "") (heid : e.cryptoEid = "") :
    parseOverlayNetworkConfigEntry cfgApp cfgNetworks insts e =
      some (overlayFinish e
        { zeroOverlay with name := e.name, network := lowerStr e.networkId }) := by
  simp only [parseOverlayNetworkConfigEntry, hl, hm, Bool.not_true, Bool.false_eq_true,
    if_false]
  simp [uuidFromStr?, hu, hmac, overlayEidStep, heid, haddr]

theorem sortByKey_pair_le {α : Type} (key : α → Int) (x y : α) (h : key x ≤ key y) :
    sortByKey key [x, y] = [x, y] := by
  simp [sortByKey, insertByKey, h]

theorem underlayFinish_error (e : ZNetworkAdapter) (u : UnderlayNetworkConfig) :
    (underlayFinish e u).error = u.error := rfl

theorem underlayFinish_intfOrder (e : ZNetworkAdapter) (u : UnderlayNetworkConfig) :
    (underlayFinish e u).intfOrder = seedIntfOrder e.acls := rfl

theorem map_intfOrder_sort_desc (x y : UnderlayNetworkConfig) (hx : x.intfOrder = 2)
    (hy : y.intfOrder = 1) :
    (sortByKey (fun u => u.intfOrder) [x, y]).map (fun u => u.intfOrder) = [1, 2] := by
  rw [sortByKey_pair _ x y (by rw [hx, hy]; decide)]
  simp [hx, hy]

theorem map_intfOrder_sort_asc (x y : UnderlayNetworkConfig) (hx : x.intfOrder = 1)
    (hy : y.intfOrder = 2) :
    (sortByKey (fun u => u.intfOrder) [x, y]).map (fun u => u.intfOrder) = [1, 2] := by
  rw [sortByKey_pair_le _ x y (by rw [hx, hy]; decide)]
  simp [hx, hy]

/-- Claim C8: two interfaces of one app instance whose first ACL rules carry
identifiers 1 and 2, submitted in either order, end up in ascending order of
the intfOrder key (seeded from the first ACL rule identifier) in the published
underlay list; moreover the published underlay and overlay lists are always
sorted in nondecreasing intfOrder order. -/
theorem interface_ordering
    (app0 : AppInstanceConfig) (cfgApp : ZAppInstanceConfig)
    (cfgNetworks : List ZNetworkConfig) (insts : List ZNetworkInstanceConfig)
    (e1 e2 : ZNetworkAdapter) (a1 a2 : ZACL) (r1 r2 : List ZACL)
    (n1 n2 : ZNetworkInstanceConfig)
    (happ : cfgApp.interfaces = [e2, e1])
    (hlist : app0.underlayNetworkList = [])
    (hl1 : lookupNetworkInstanceId e1.networkId insts = some n1)
    (hm1 : isOverlayNetworkInstance n1 = false)
    (hu1 : isValidUUIDStr e1.networkId = true)
    (hmac1 : e1.macAddress = "") (haddr1 : e1.addr = "")
    (hacl1 : e1.acls = a1 :: r1) (hid1 : a1.id = 1)
    (hl2 : lookupNetworkInstanceId e2.networkId insts = some n2)
    (hm2 : isOverlayNetworkInstance n2 = false)
    (hu2 : isValidUUIDStr e2.networkId = true)
    (hmac2 : e2.macAddress = "") (haddr2 : e2.addr = "")
    (hacl2 : e2.acls = a2 :: r2) (hid2 : a2.id = 2) :
    ((parseUnderlayNetworkConfig app0 cfgApp cfgNetworks insts).underlayNetworkList.map
        (fun u => u.intfOrder)) = [1, 2] ∧
    ((parseUnderlayNetworkConfig app0 { cfgApp with interfaces := [e1, e2] } cfgNetworks
        insts).underlayNetworkList.map (fun u => u.intfOrder)) = [1, 2] ∧
    (∀ (b0 : AppInstanceConfig) (bApp : ZAppInstanceConfig),
      List.Pairwise (fun x y => x.intfOrder ≤ y.intfOrder)
        (parseUnderlayNetworkConfig b0 bApp cfgNetworks insts).underlayNetworkList) ∧
    (∀ (b0 : AppInstanceConfig) (bApp : ZAppInstanceConfig),
      List.Pairwise (fun x y => x.intfOrder ≤ y.intfOrder)
        (parseOverlayNetworkConfig b0 bApp cfgNetworks insts).overlayNetworkList) := by
  have hne1 : a1.id ≠ 0 := by rw [hid1]; decide
  have hne2 : a2.id ≠ 0 := by rw [hid2]; decide
  have hp1 := parseUnderlayEntry_success cfgApp cfgNetworks insts e1 n1 hl1 hm1 hu1 hmac1 haddr1
  have hp2 := parseUnderlayEntry_success cfgApp cfgNetworks insts e2 n2 hl2 hm2 hu2 hmac2 haddr2
  have hp1b := parseUnderlayEntry_success { cfgApp with interfaces := [e1, e2] }
    cfgNetworks insts e1 n1 hl1 hm1 hu1 hmac1 haddr1
  have hp2b := parseUnderlayEntry_success { cfgApp with interfaces := [e1, e2] }
    cfgNetworks insts e2 n2 hl2 hm2 hu2 hmac2 haddr2
  have hord1 : (underlayFinish e1
      { zeroUnderlay with name := e1.name, network := lowerStr e1.networkId }).intfOrder = 1 := by
    rw [underlayFinish_intfOrder, hacl1, seedIntfOrder_first a1 r1 hne1, hid1]
  have hord2 : (underlayFinish e2
      { zeroUnderlay with name := e2.name, network := lowerStr e2.networkId }).intfOrder = 2 := by
    rw [underlayFinish_intfOrder, hacl2, seedIntfOrder_first a2 r2 hne2, hid2]
  refine ⟨?_, ?_, ?_, ?_⟩
  · simp only [parseUnderlayNetworkConfig, happ, List.foldl_cons, List.foldl_nil,
      hp1, hp2, underlayFinish_error, hlist]
    simp only [zeroUnderlay]
    simp
    exact map_intfOrder_sort_desc _ _ hord2 hord1
  · simp [parseUnderlayNetworkConfig, hp1b, hp2b, underlayFinish_error, hlist,
      zeroUnderlay]
    exact map_intfOrder_sort_asc _ _ hord1 hord2
  · intro b0 bApp
    exact sortByKey_pairwise (fun (u : UnderlayNetworkConfig) => u.intfOrder) _
  · intro b0 bApp
    exact sortByKey_pairwise (fun (o : EIDOverlayConfig) => o.intfOrder) _

/-- Witness for claim C8 at a concrete app with interfaces submitted in
reverse order carrying ACL identifiers 2 then 1. -/
theorem interface_ordering_witness :
    ((parseUnderlayNetworkConfig zeroAppInstance c8App [] c8Instances).underlayNetworkList.map
        (fun u => u.intfOrder)) = [1, 2] ∧
    ((parseUnderlayNetworkConfig zeroAppInstance
        { c8App with interfaces := [c8IntfOne, c8IntfTwo] } []
        c8Instances).underlayNetworkList.map (fun u => u.intfOrder)) = [1, 2] ∧
    (∀ (b0 : AppInstanceConfig) (bApp : ZAppInstanceConfig),
      List.Pairwise (fun x y => x.intfOrder ≤ y.intfOrder)
        (parseUnderlayNetworkConfig b0 bApp [] c8Instances).underlayNetworkList) ∧
    (∀ (b0 : AppInstanceConfig) (bApp : ZAppInstanceConfig),
      List.Pairwise (fun x y => x.intfOrder ≤ y.intfOrder)
        (parseOverlayNetworkConfig b0 bApp [] c8Instances).overlayNetworkList) :=
  interface_ordering zeroAppInstance c8App [] c8Instances c8IntfOne c8IntfTwo
    (sampleAclWithId 1) (sampleAclWithId 2) [] []
    (sampleLocalInstance "aaaaaaaa-aaaa-aaaa-aaaa-aaaaaaaaaaaa")
    (sampleLocalInstance "aaaaaaaa-aaaa-aaaa-aaaa-aaaaaaaaaaaa")
    (by decide) (by decide) (by decide) (by decide) (by decide) (by decide)
    (by decide) (by decide) (by decide) (by decide) (by decide) (by decide)
    (by decide) (by decide) (by decide) (by decide)


theorem portNetworkStep_fields (st : AgentState) (a : ZSystemAdapter)
    (port : NetworkPortConfig) :
    (portNetworkStep st a port).ifName = port.ifName ∧
    (portNetworkStep st a port).free = port.free ∧
    (∃ extra, (portNetworkStep st a port).failures = port.failures ++ extra) := by
  unfold portNetworkStep dhcpModeValidate
  by_cases hn : (a.networkUUID ≠ "" ∧ a.networkUUID ≠ nilUUIDStr)
  · rw [if_pos hn]
    cases hget : pubGet st.pubNetworkXObjectConfig a.networkUUID with
    | none =>
        simp only [hget, recordFailure]
        repeat' split
        all_goals exact ⟨rfl, rfl, _, by first
          | rfl
          | exact (List.append_nil _).symm
          | (simp only [List.append_assoc]; rfl)⟩
    | some net =>
        simp only [hget, recordFailure]
        repeat' split
        all_goals exact ⟨rfl, rfl, _, by first
          | rfl
          | exact (List.append_nil _).symm
          | (simp only [List.append_assoc]; rfl)⟩
  · rw [if_neg hn]
    split
    · exact ⟨rfl, rfl, _, rfl⟩
    · exact ⟨rfl, rfl, [], by simp⟩

theorem portFlagsStep_fields (a : ZSystemAdapter) (v : Nat) (port0 : NetworkPortConfig)
    (isFree0 : Bool) :
    (portFlagsStep a v port0 isFree0).ifName = port0.ifName ∧
    (portFlagsStep a v port0 isFree0).failures = port0.failures ∧
    (portFlagsStep a v port0 isFree0).free =
      (if v < DPCIsMgmt then true else if a.freeUplink && !isFree0 then true else isFree0) :=
  ⟨rfl, rfl, rfl⟩

theorem portAddrStep_fields (a : ZSystemAdapter) (port : NetworkPortConfig) :
    (portAddrStep a port).ifName = port.ifName ∧
    (portAddrStep a port).free = port.free ∧
    (∃ extra, (portAddrStep a port).failures = port.failures ++ extra) := by
  unfold portAddrStep
  by_cases h : (a.addr ≠ "" ∧ parseIP? a.addr = none)
  · rw [if_pos h]
    exact ⟨rfl, rfl, _, rfl⟩
  · rw [if_neg h]
    exact ⟨rfl, rfl, [], (List.append_nil _).symm⟩

theorem finishSystemAdapterPort_fields (st : AgentState) (a : ZSystemAdapter) (v : Nat)
    (port0 : NetworkPortConfig) (isFree0 : Bool) :
    (finishSystemAdapterPort st a v port0 isFree0).ifName = port0.ifName ∧
    (finishSystemAdapterPort st a v port0 isFree0).free =
      (if v < DPCIsMgmt then true else if a.freeUplink && !isFree0 then true else isFree0) ∧
    (∃ extra, (finishSystemAdapterPort st a v port0 isFree0).failures =
      port0.failures ++ extra) := by
  obtain ⟨ha1, ha2, ea, hea⟩ := portAddrStep_fields a (portFlagsStep a v port0 isFree0)
  obtain ⟨hn1, hn2, en, hen⟩ :=
    portNetworkStep_fields st a (portAddrStep a (portFlagsStep a v port0 isFree0))
  refine ⟨?_, ?_, ?_⟩
  · unfold finishSystemAdapterPort
    rw [hn1, ha1]
    rfl
  · unfold finishSystemAdapterPort
    rw [hn2, ha2]
    rfl
  · unfold finishSystemAdapterPort
    refine ⟨ea ++ en, ?_⟩
    have hf : (portFlagsStep a v port0 isFree0).failures = port0.failures := rfl
    rw [hen, hea, hf]
    simp [List.append_assoc]

/-- Claim C7: physical-I/O lookup is attempted first by logical label then by
physical label; if neither resolves, the returned port uses the adapter's own
name as interface name, is marked free-uplink, carries the recorded missing-
physical-I/O failure as its first failure, and is still emitted; if the
lookup resolves but the physical I/O's type is not network-capable, the
adapter is dropped entirely (nil returned, nothing emitted, no error recorded
anywhere). -/
theorem phyio_resolution (st : AgentState) (a : ZSystemAdapter) (version : Nat) :
    (resolvePhyio st a = none →
      ∃ p, parseOneSystemAdapterConfig st a version = some p ∧ p.ifName = a.name ∧
        p.free = true ∧ p.failures.head? = some (missingPhyioErr a)) ∧
    (∀ io, resolvePhyio st a = some io → io.ptype.isNet = false →
      parseOneSystemAdapterConfig st a version = none) ∧
    (∀ io, lookupDeviceIoLogicallabel st a.name = some io → resolvePhyio st a = some io) := by
  refine ⟨?_, ?_, ?_⟩
  · intro h
    simp only [parseOneSystemAdapterConfig, h]
    obtain ⟨h1, h2, e, h3⟩ := finishSystemAdapterPort_fields st a version
      { (recordFailure
          { zeroPort with
            logicallabel := a.name,
            aliasName := a.aliasName,
            phylabel := if a.lowerLayerName == "" then a.name else a.lowerLayerName }
          (missingPhyioErr a)) with ifName := a.name } true
    refine ⟨_, rfl, ?_, ?_, ?_⟩
    · rw [h1]
    · rw [h2]
      simp
    · rw [h3]
      rfl
  · intro io hio hnet
    simp [parseOneSystemAdapterConfig, hio, hnet]
  · intro io hio
    simp [resolvePhyio, hio]

/-- Witness for claim C7: a missing physical I/O yields an emitted free port
named after the adapter with the missing-phyio failure first; a USB (non-
network) physical I/O drops the adapter. -/
theorem phyio_resolution_witness :
    (∃ p, parseOneSystemAdapterConfig adapterState sysAdapterMissing 1 = some p ∧
      p.ifName = sysAdapterMissing.name ∧ p.free = true ∧
      p.failures.head? = some (missingPhyioErr sysAdapterMissing)) ∧
    parseOneSystemAdapterConfig adapterState sysAdapterUsb 1 = none :=
  ⟨(phyio_resolution adapterState sysAdapterMissing 1).1 (by decide),
   (phyio_resolution adapterState sysAdapterUsb 1).2.1 samplePhyUsb (by decide) (by decide)⟩

/-- Claim C6: for every system adapter evaluated after network dependency
resolution — static DHCP with an empty resolved subnet records an error on the
port; client mode records nothing; none mode records an error exactly when the
port is a management port; any other DHCP value records an unconditional
error; and whenever the adapter is not dropped by the non-network physical-I/O
check, the port is still emitted. -/
theorem dhcp_mode_validation (sysAdapter : ZSystemAdapter) (port : NetworkPortConfig)
    (isMgmt : Bool) (network : Option NetworkXObjectConfig) (st : AgentState)
    (version : Nat) :
    (port.dhcp = DhcpType.dtStatic → port.addrSubnet = "" →
      (dhcpModeValidate sysAdapter port isMgmt network).failures =
        port.failures ++ [staticNoSubnetErr port.ifName sysAdapter.name sysAdapter.addr]) ∧
    (port.dhcp = DhcpType.dtStatic → port.addrSubnet ≠ "" →
      dhcpModeValidate sysAdapter port isMgmt network = port) ∧
    (port.dhcp = DhcpType.dtClient →
      dhcpModeValidate sysAdapter port isMgmt network = port) ∧
    (port.dhcp = DhcpType.dtNone → isMgmt = true →
      (dhcpModeValidate sysAdapter port isMgmt network).failures =
        port.failures ++ [dtNoneMgmtErr port.ifName]) ∧
    (port.dhcp = DhcpType.dtNone → isMgmt = false →
      dhcpModeValidate sysAdapter port isMgmt network = port) ∧
    (∀ code, port.dhcp = DhcpType.dtOther code →
      (dhcpModeValidate sysAdapter port isMgmt network).failures.length =
        port.failures.length + 1) ∧
    ((resolvePhyio st sysAdapter = none ∨
      (∃ io, resolvePhyio st sysAdapter = some io ∧ io.ptype.isNet = true)) →
      (parseOneSystemAdapterConfig st sysAdapter version).isSome = true) := by
  refine ⟨?_, ?_, ?_, ?_, ?_, ?_, ?_⟩
  · intro hd hs
    simp [dhcpModeValidate, hd, hs, recordFailure]
  · intro hd hs
    simp [dhcpModeValidate, hd, hs]
  · intro hd
    simp [dhcpModeValidate, hd]
  · intro hd hm
    simp [dhcpModeValidate, hd, hm, recordFailure]
  · intro hd hm
    simp [dhcpModeValidate, hd, hm]
  · intro code hd
    simp [dhcpModeValidate, hd, recordFailure]
  · intro h
    rcases h with h | ⟨io, hio, hnet⟩
    · simp [parseOneSystemAdapterConfig, h]
    · simp [parseOneSystemAdapterConfig, hio, hnet]

/-- Witness for claim C6: a static-mode port with an empty resolved subnet
records the static-subnet error, and an adapter whose physical I/O is network-
capable is emitted. -/
theorem dhcp_mode_validation_witness :
    (dhcpModeValidate sysAdapterEth { zeroPort with dhcp := DhcpType.dtStatic } true
        (some sampleStaticNet)).failures =
      ({ zeroPort with dhcp := DhcpType.dtStatic } : NetworkPortConfig).failures ++
        [staticNoSubnetErr ({ zeroPort with dhcp := DhcpType.dtStatic } :
          NetworkPortConfig).ifName sysAdapterEth.name sysAdapterEth.addr] ∧
    (parseOneSystemAdapterConfig adapterState sysAdapterEth 1).isSome = true :=
  ⟨(dhcp_mode_validation sysAdapterEth { zeroPort with dhcp := DhcpType.dtStatic } true
      (some sampleStaticNet) adapterState 1).1 rfl rfl,
   (dhcp_mode_validation sysAdapterEth { zeroPort with dhcp := DhcpType.dtStatic } true
      (some sampleStaticNet) adapterState 1).2.2.2.2.2.2
     (Or.inr ⟨samplePhyEth, by decide, by decide⟩)⟩

/-- Claim C10: even when system-adapter parsing is forced, no DevicePortConfig
is published when the built port list is empty or when ports and version are
deep-equal to the held device port configuration; otherwise a publish with a
fresh time priority occurs and the held configuration is replaced. -/
theorem dpc_publish_guards (st : AgentState) (l : List ZSystemAdapter) (now : Nat) :
    ((buildNewPorts { st with systemAdaptersPrevConfigHash := some l } l
        (inferDPCVersion l)).length = 0 →
      parseSystemAdapterConfig st l true now =
        ({ st with systemAdaptersPrevConfigHash := some l }, [])) ∧
    ((buildNewPorts { st with systemAdaptersPrevConfigHash := some l } l
        (inferDPCVersion l)) = st.devicePortConfig.ports →
      inferDPCVersion l = st.devicePortConfig.version →
      parseSystemAdapterConfig st l true now =
        ({ st with systemAdaptersPrevConfigHash := some l }, [])) ∧
    ((buildNewPorts { st with systemAdaptersPrevConfigHash := some l } l
        (inferDPCVersion l)).length ≠ 0 →
      ¬((buildNewPorts { st with systemAdaptersPrevConfigHash := some l } l
          (inferDPCVersion l)) = st.devicePortConfig.ports ∧
        inferDPCVersion l = st.devicePortConfig.version) →
      parseSystemAdapterConfig st l true now =
        ({ st with
            systemAdaptersPrevConfigHash := some l,
            devicePortConfig :=
              { version := inferDPCVersion l, timePriority := now,
                ports := buildNewPorts { st with systemAdaptersPrevConfigHash := some l } l
                  (inferDPCVersion l) } },
         [AgentEvent.pubDevicePort
            { version := inferDPCVersion l, timePriority := now,
              ports := buildNewPorts { st with systemAdaptersPrevConfigHash := some l } l
                (inferDPCVersion l) }])) := by
  have hgate : ¬((some l = st.systemAdaptersPrevConfigHash) ∧ true = false) := by simp
  refine ⟨?_, ?_, ?_⟩
  · intro h0
    simp only [parseSystemAdapterConfig]
    rw [if_neg hgate, if_pos h0]
  · intro hp hv
    by_cases h0 : (buildNewPorts { st with systemAdaptersPrevConfigHash := some l } l
        (inferDPCVersion l)).length = 0
    · simp only [parseSystemAdapterConfig]
      rw [if_neg hgate, if_pos h0]
    · simp only [parseSystemAdapterConfig]
      rw [if_neg hgate, if_neg h0, if_pos ⟨hp, hv⟩]
  · intro h0 hne
    simp only [parseSystemAdapterConfig]
    rw [if_neg hgate, if_neg h0, if_neg hne]

/-- Witness for claim C10 at a state with no physical I/O: the built port list
carries the missing-phyio port, differs from the empty held configuration, and
is published with the fresh time priority. -/
theorem dpc_publish_guards_witness :
    (buildNewPorts { emptyAgentState with systemAdaptersPrevConfigHash := some [sysAdapterEth] }
        [sysAdapterEth] (inferDPCVersion [sysAdapterEth])).length ≠ 0 ∧
    parseSystemAdapterConfig emptyAgentState [sysAdapterEth] true 7 =
      ({ emptyAgentState with
          systemAdaptersPrevConfigHash := some [sysAdapterEth],
          devicePortConfig :=
            { version := inferDPCVersion [sysAdapterEth], timePriority := 7,
              ports := buildNewPorts
                { emptyAgentState with systemAdaptersPrevConfigHash := some [sysAdapterEth] }
                [sysAdapterEth] (inferDPCVersion [sysAdapterEth]) } },
       [AgentEvent.pubDevicePort
          { version := inferDPCVersion [sysAdapterEth], timePriority := 7,
            ports := buildNewPorts
              { emptyAgentState with systemAdaptersPrevConfigHash := some [sysAdapterEth] }
              [sysAdapterEth] (inferDPCVersion [sysAdapterEth]) } ]) :=
  ⟨by decide,
   (dpc_publish_guards emptyAgentState [sysAdapterEth] 7).2.2 (by decide) (by decide)⟩

theorem publishNetworkInstanceConfig_hash (st : AgentState)
    (insts : List ZNetworkInstanceConfig) :
    (publishNetworkInstanceConfig st insts).1.networkInstancePrevConfigHash =
      st.networkInstancePrevConfigHash := by
  simp only [publishNetworkInstanceConfig]
  split
  · rfl
  · rfl

/-- Claim C5: for every per-sub-domain change-detection gate — base OS,
networks, network instances, app instances, datastores, device I/O, config
items, and the system adapters the cited source also gates — after every
invocation the stored previous-hash equals the digest of the incoming
elements, and when the incoming digest equals the stored one (and no
force-parse override applies) the invocation performs no publish or unpublish
calls and leaves the state untouched. -/
theorem change_detection_gate (st : AgentState) (lB : List ZBaseOSConfig)
    (items : List ZConfigItem) (lS : List ZSystemAdapter) (force : Bool) (now : Nat)
    (nets : List ZNetworkConfig) (insts : List ZNetworkInstanceConfig)
    (apps : List ZAppInstanceConfig) (cfgNetworks : List ZNetworkConfig)
    (cfgNetworkInstances : List ZNetworkInstanceConfig)
    (stores : List ZDatastoreConfig) (ioList : List (Option ZPhysicalIO)) :
    ((parseBaseOsConfig st lB).1.baseosPrevConfigHash = some lB) ∧
    (st.baseosPrevConfigHash = some lB → parseBaseOsConfig st lB = (st, [])) ∧
    ((parseConfigItems st items).1.itemsPrevConfigHash = some items) ∧
    (st.itemsPrevConfigHash = some items → parseConfigItems st items = (st, [])) ∧
    ((parseSystemAdapterConfig st lS force now).1.systemAdaptersPrevConfigHash = some lS) ∧
    (st.systemAdaptersPrevConfigHash = some lS →
      parseSystemAdapterConfig st lS false now = (st, [])) ∧
    ((parseNetworkXObjectConfig st nets).2.1.networkConfigPrevConfigHash = some nets) ∧
    (st.networkConfigPrevConfigHash = some nets →
      parseNetworkXObjectConfig st nets = (false, st, [])) ∧
    ((parseNetworkInstanceConfig st insts).1.networkInstancePrevConfigHash = some insts) ∧
    (st.networkInstancePrevConfigHash = some insts →
      parseNetworkInstanceConfig st insts = (st, [])) ∧
    ((parseAppInstanceConfig st apps cfgNetworks
        cfgNetworkInstances).1.appinstancePrevConfigHash = some apps) ∧
    (st.appinstancePrevConfigHash = some apps →
      parseAppInstanceConfig st apps cfgNetworks cfgNetworkInstances = (st, [])) ∧
    ((parseDatastoreConfig st stores).1.datastoreConfigPrevConfigHash = some stores) ∧
    (st.datastoreConfigPrevConfigHash = some stores →
      parseDatastoreConfig st stores = (st, [])) ∧
    ((parseDeviceIoListConfig st ioList).2.1.deviceIoListPrevConfigHash = some ioList) ∧
    (st.deviceIoListPrevConfigHash = some ioList →
      parseDeviceIoListConfig st ioList = (false, st, [])) := by
  refine ⟨?_, ?_, ?_, ?_, ?_, ?_, ?_, ?_, ?_, ?_, ?_, ?_, ?_, ?_, ?_, ?_⟩
  · by_cases h : (some lB : Option (List ZBaseOSConfig)) = st.baseosPrevConfigHash
    · simp only [parseBaseOsConfig]
      rw [if_pos h]
      exact h.symm
    · simp only [parseBaseOsConfig]
      rw [if_neg h]
  · intro h
    simp only [parseBaseOsConfig]
    rw [if_pos h.symm]
  · by_cases h : (some items : Option (List ZConfigItem)) = st.itemsPrevConfigHash
    · simp only [parseConfigItems]
      rw [if_pos h]
    · simp only [parseConfigItems]
      rw [if_neg h]
      repeat' split
      all_goals rfl
  · intro h
    simp only [parseConfigItems]
    rw [if_pos h.symm]
    cases st
    simp only at h
    subst h
    rfl
  · by_cases h : ((some lS : Option (List ZSystemAdapter)) = st.systemAdaptersPrevConfigHash
        ∧ force = false)
    · simp only [parseSystemAdapterConfig]
      rw [if_pos h]
      exact h.1.symm
    · simp only [parseSystemAdapterConfig]
      rw [if_neg h]
      repeat' split
      all_goals rfl
  · intro h
    simp only [parseSystemAdapterConfig]
    rw [if_pos ⟨h.symm, by trivial⟩]
  · by_cases h : (some nets : Option (List ZNetworkConfig)) = st.networkConfigPrevConfigHash
    · simp only [parseNetworkXObjectConfig]
      rw [if_pos h]
      exact h.symm
    · simp only [parseNetworkXObjectConfig]
      rw [if_neg h]
  · intro h
    simp only [parseNetworkXObjectConfig]
    rw [if_pos h.symm]
  · by_cases h : (some insts : Option (List ZNetworkInstanceConfig)) =
        st.networkInstancePrevConfigHash
    · simp only [parseNetworkInstanceConfig]
      rw [if_pos h]
      exact h.symm
    · simp only [parseNetworkInstanceConfig]
      rw [if_neg h]
      rw [publishNetworkInstanceConfig_hash]
  · intro h
    simp only [parseNetworkInstanceConfig]
    rw [if_pos h.symm]
  · by_cases h : (some apps : Option (List ZAppInstanceConfig)) = st.appinstancePrevConfigHash
    · simp only [parseAppInstanceConfig]
      rw [if_pos h]
      exact h.symm
    · simp only [parseAppInstanceConfig]
      rw [if_neg h]
  · intro h
    simp only [parseAppInstanceConfig]
    rw [if_pos h.symm]
  · by_cases h : (some stores : Option (List ZDatastoreConfig)) =
        st.datastoreConfigPrevConfigHash
    · simp only [parseDatastoreConfig]
      rw [if_pos h]
      exact h.symm
    · simp only [parseDatastoreConfig]
      rw [if_neg h]
  · intro h
    simp only [parseDatastoreConfig]
    rw [if_pos h.symm]
  · by_cases h : (some ioList : Option (List (Option ZPhysicalIO))) =
        st.deviceIoListPrevConfigHash
    · simp only [parseDeviceIoListConfig]
      rw [if_pos h]
      exact h.symm
    · simp only [parseDeviceIoListConfig]
      rw [if_neg h]
  · intro h
    simp only [parseDeviceIoListConfig]
    rw [if_pos h.symm]

/-- Witness for claim C5 at a state whose stored hashes already match the
incoming (empty) element lists. -/
theorem change_detection_gate_witness :
    ((parseBaseOsConfig c5State []).1.baseosPrevConfigHash = some []) ∧
    (c5State.baseosPrevConfigHash = some [] → parseBaseOsConfig c5State [] = (c5State, [])) ∧
    ((parseConfigItems c5State []).1.itemsPrevConfigHash = some []) ∧
    (c5State.itemsPrevConfigHash = some [] → parseConfigItems c5State [] = (c5State, [])) ∧
    ((parseSystemAdapterConfig c5State [] false 3).1.systemAdaptersPrevConfigHash = some []) ∧
    (c5State.systemAdaptersPrevConfigHash = some [] →
      parseSystemAdapterConfig c5State [] false 3 = (c5State, [])) ∧
    ((parseNetworkXObjectConfig c5State []).2.1.networkConfigPrevConfigHash = some []) ∧
    (c5State.networkConfigPrevConfigHash = some [] →
      parseNetworkXObjectConfig c5State [] = (false, c5State, [])) ∧
    ((parseNetworkInstanceConfig c5State []).1.networkInstancePrevConfigHash = some []) ∧
    (c5State.networkInstancePrevConfigHash = some [] →
      parseNetworkInstanceConfig c5State [] = (c5State, [])) ∧
    ((parseAppInstanceConfig c5State [] [] []).1.appinstancePrevConfigHash = some []) ∧
    (c5State.appinstancePrevConfigHash = some [] →
      parseAppInstanceConfig c5State [] [] [] = (c5State, [])) ∧
    ((parseDatastoreConfig c5State []).1.datastoreConfigPrevConfigHash = some []) ∧
    (c5State.datastoreConfigPrevConfigHash = some [] →
      parseDatastoreConfig c5State [] = (c5State, [])) ∧
    ((parseDeviceIoListConfig c5State []).2.1.deviceIoListPrevConfigHash = some []) ∧
    (c5State.deviceIoListPrevConfigHash = some [] →
      parseDeviceIoListConfig c5State [] = (false, c5State, [])) :=
  change_detection_gate c5State [] [] [] false 3 [] [] [] [] [] [] []

theorem pubGet_isSome_eq {α : Type} (s : PubStore α) (k : String) :
    (pubGet s k).isSome = pubContains s k := by
  induction s with
  | nil => rfl
  | cons hd tl ih =>
      simp only [pubGet, pubContains, List.find?, List.any_cons] at *
      cases hpa : (hd.1 == k) with
      | true => simp
      | false => simpa using ih

theorem unpublishCertObjConfig_spec (cs : PubStore CertObjConfig) (k : String) :
    ((unpublishCertObjConfig cs k).2 =
      (if pubContains cs k = true then [AgentEvent.unpubCertObj k] else [])) ∧
    (∀ u, u ≠ k →
      pubContains (unpublishCertObjConfig cs k).1 u = pubContains cs u) := by
  cases hg : pubGet cs k with
  | none =>
      have hc : pubContains cs k = false := by rw [← pubGet_isSome_eq, hg]; rfl
      constructor
      · simp [unpublishCertObjConfig, hg, hc]
      · intro u hu
        simp [unpublishCertObjConfig, hg]
  | some c =>
      have hc : pubContains cs k = true := by rw [← pubGet_isSome_eq, hg]; rfl
      constructor
      · simp [unpublishCertObjConfig, hg, hc]
      · intro u hu
        have hsteq : (unpublishCertObjConfig cs k).1 = pubUnpublish cs k := by
          simp [unpublishCertObjConfig, hg]
        rw [hsteq]
        exact pubContains_unpublish_ne cs k u hu

theorem baseOsPublishLoop_counts (l : List ZBaseOSConfig) (bs : PubStore BaseOsConfig)
    (cs : PubStore CertObjConfig) (u : String) :
    countEv (evIsUnpubBaseOs u) (baseOsPublishLoop l bs cs).2.2 = 0 ∧
    countEv (evIsUnpubCertObj u) (baseOsPublishLoop l bs cs).2.2 = 0 := by
  induction l generalizing bs cs with
  | nil => exact ⟨rfl, rfl⟩
  | cons hd tl ih =>
      simp only [baseOsPublishLoop]
      by_cases hv : (hd.baseOSVersion == "") = true
      · simp only [hv, if_true]
        exact ih bs cs
      · simp only [hv, Bool.false_eq_true, if_false]
        cases hc : getCertObjects (translateBaseOs hd).uuidandversion
            (translateBaseOs hd).configSha256 (translateBaseOs hd).storageConfigList with
        | some ci =>
            simp only [hc, publishCertObjConfig]
            constructor
            · simp [countEv_cons, countEv_append, evIsUnpubBaseOs, (ih _ _).1]
            · simp [countEv_cons, countEv_append, evIsUnpubCertObj, (ih _ _).2]
        | none =>
            simp only [hc]
            constructor
            · simp [countEv_cons, countEv_append, evIsUnpubBaseOs, (ih _ _).1]
            · simp [countEv_cons, countEv_append, evIsUnpubCertObj, (ih _ _).2]

theorem baseOsDeleteLoop_notmem (items : List String) (l : List ZBaseOSConfig)
    (bs : PubStore BaseOsConfig) (cs : PubStore CertObjConfig) (u : String)
    (h : u ∉ items) :
    countEv (evIsUnpubBaseOs u) (baseOsDeleteLoop items l bs cs).2.2 = 0 ∧
    countEv (evIsUnpubCertObj u) (baseOsDeleteLoop items l bs cs).2.2 = 0 := by
  induction items generalizing bs cs with
  | nil => exact ⟨rfl, rfl⟩
  | cons k rest ih =>
      have hku : u ≠ k := fun hx => h (hx ▸ List.mem_cons_self k rest)
      have hrest : u ∉ rest := fun hx => h (List.mem_cons_of_mem _ hx)
      simp only [baseOsDeleteLoop]
      by_cases hf : (l.any (fun baseOs => baseOs.uuidandversion.uuid == k)) = true
      · simp only [hf, if_true]
        exact ih _ _ hrest
      · simp only [hf, Bool.false_eq_true, if_false]
        obtain ⟨hev, hcont⟩ := unpublishCertObjConfig_spec cs k
        have hbeq : (k == u) = false := beq_eq_false_iff_ne.mpr (fun hx => hku hx.symm)
        constructor
        · rw [hev]
          by_cases hcs : pubContains cs k = true
          · simp [hcs, countEv_cons, countEv_append, evIsUnpubBaseOs, hbeq,
              (ih _ _ hrest).1]
          · simp [hcs, countEv_cons, countEv_append, evIsUnpubBaseOs, hbeq,
              (ih _ _ hrest).1]
        · rw [hev]
          by_cases hcs : pubContains cs k = true
          · simp [hcs, countEv_cons, countEv_append, evIsUnpubCertObj, hbeq,
              (ih _ _ hrest).2]
          · simp [hcs, countEv_cons, countEv_append, evIsUnpubCertObj, hbeq,
              (ih _ _ hrest).2]

theorem baseOsDeleteLoop_mem (items : List String) (l : List ZBaseOSConfig)
    (bs : PubStore BaseOsConfig) (cs : PubStore CertObjConfig) (u : String)
    (hnd : items.Nodup) (hmem : u ∈ items)
    (hnf : (l.any (fun baseOs => baseOs.uuidandversion.uuid == u)) = false) :
    countEv (evIsUnpubBaseOs u) (baseOsDeleteLoop items l bs cs).2.2 = 1 ∧
    countEv (evIsUnpubCertObj u) (baseOsDeleteLoop items l bs cs).2.2 =
      (if pubContains cs u = true then 1 else 0) := by
  induction items generalizing bs cs with
  | nil => cases hmem
  | cons k rest ih =>
      rcases List.mem_cons.mp hmem with heq | hur
      · subst heq
        simp only [baseOsDeleteLoop, hnf, Bool.false_eq_true, if_false]
        obtain ⟨hev, hcont⟩ := unpublishCertObjConfig_spec cs u
        have hurest : u ∉ rest := (List.nodup_cons.mp hnd).1
        constructor
        · rw [hev]
          by_cases hcs : pubContains cs u = true
          · simp [hcs, countEv_cons, countEv_append, evIsUnpubBaseOs,
              (baseOsDeleteLoop_notmem rest l _ _ u hurest).1]
          · simp [hcs, countEv_cons, countEv_append, evIsUnpubBaseOs,
              (baseOsDeleteLoop_notmem rest l _ _ u hurest).1]
        · rw [hev]
          by_cases hcs : pubContains cs u = true
          · simp [hcs, countEv_cons, countEv_append, evIsUnpubCertObj,
              (baseOsDeleteLoop_notmem rest l _ _ u hurest).2]
          · simp [hcs, countEv_cons, countEv_append, evIsUnpubCertObj,
              (baseOsDeleteLoop_notmem rest l _ _ u hurest).2]
      · have hku : u ≠ k := fun hx =>
          (List.nodup_cons.mp hnd).1 (hx ▸ hur)
        have hndr : rest.Nodup := (List.nodup_cons.mp hnd).2
        have hbeq : (k == u) = false := beq_eq_false_iff_ne.mpr (fun hx => hku hx.symm)
        simp only [baseOsDeleteLoop]
        by_cases hf : (l.any (fun baseOs => baseOs.uuidandversion.uuid == k)) = true
        · simp only [hf, if_true]
          exact ih _ _ hndr hur
        · simp only [hf, Bool.false_eq_true, if_false]
          obtain ⟨hev, hcont⟩ := unpublishCertObjConfig_spec cs k
          have hcc : pubContains (unpublishCertObjConfig cs k).1 u = pubContains cs u :=
            hcont u hku
          constructor
          · rw [hev]
            by_cases hcs : pubContains cs k = true
            · simp [hcs, countEv_cons, countEv_append, evIsUnpubBaseOs, hbeq,
                (ih _ _ hndr hur).1]
            · simp [hcs, countEv_cons, countEv_append, evIsUnpubBaseOs, hbeq,
                (ih _ _ hndr hur).1]
          · rw [hev]
            have hrec := (ih ((pubUnpublish bs k)) ((unpublishCertObjConfig cs k).1) hndr hur).2
            rw [hcc] at hrec
            by_cases hcs : pubContains cs k = true
            · simp [hcs, countEv_cons, countEv_append, evIsUnpubCertObj, hbeq, hrec]
            · simp [hcs, countEv_cons, countEv_append, evIsUnpubCertObj, hbeq, hrec]

theorem appPublishLoop_counts (apps : List ZAppInstanceConfig)
    (cfgNetworks : List ZNetworkConfig) (cfgNetworkInstances : List ZNetworkInstanceConfig)
    (ap : PubStore AppInstanceConfig) (cs : PubStore CertObjConfig) (u : String) :
    countEv (evIsUnpubAppInst u)
      (appPublishLoop apps cfgNetworks cfgNetworkInstances ap cs).2.2 = 0 ∧
    countEv (evIsUnpubCertObj u)
      (appPublishLoop apps cfgNetworks cfgNetworkInstances ap cs).2.2 = 0 := by
  induction apps generalizing ap cs with
  | nil => exact ⟨rfl, rfl⟩
  | cons hd tl ih =>
      simp only [appPublishLoop]
      cases hc : getCertObjects
          (translateAppInstance hd cfgNetworks cfgNetworkInstances).uuidandversion
          (translateAppInstance hd cfgNetworks cfgNetworkInstances).configSha256
          (translateAppInstance hd cfgNetworks cfgNetworkInstances).storageConfigList with
      | some ci =>
          simp only [hc, publishCertObjConfig]
          constructor
          · simp [countEv_cons, countEv_append, evIsUnpubAppInst, (ih _ _).1]
          · simp [countEv_cons, countEv_append, evIsUnpubCertObj, (ih _ _).2]
      | none =>
          simp only [hc]
          constructor
          · simp [countEv_cons, countEv_append, evIsUnpubAppInst, (ih _ _).1]
          · simp [countEv_cons, countEv_append, evIsUnpubCertObj, (ih _ _).2]

theorem appDeleteLoop_notmem (items : List String) (apps : List ZAppInstanceConfig)
    (ap : PubStore AppInstanceConfig) (cs : PubStore CertObjConfig) (u : String)
    (h : u ∉ items) :
    countEv (evIsUnpubAppInst u) (appDeleteLoop items apps ap cs).2.2 = 0 ∧
    countEv (evIsUnpubCertObj u) (appDeleteLoop items apps ap cs).2.2 = 0 := by
  induction items generalizing ap cs with
  | nil => exact ⟨rfl, rfl⟩
  | cons k rest ih =>
      have hku : u ≠ k := fun hx => h (hx ▸ List.mem_cons_self k rest)
      have hrest : u ∉ rest := fun hx => h (List.mem_cons_of_mem _ hx)
      simp only [appDeleteLoop]
      by_cases hf : (apps.any (fun app => app.uuidandversion.uuid == k)) = true
      · simp only [hf, if_true]
        exact ih _ _ hrest
      · simp only [hf, Bool.false_eq_true, if_false]
        obtain ⟨hev, hcont⟩ := unpublishCertObjConfig_spec cs k
        have hbeq : (k == u) = false := beq_eq_false_iff_ne.mpr (fun hx => hku hx.symm)
        constructor
        · rw [hev]
          by_cases hcs : pubContains cs k = true
          · simp [hcs, countEv_cons, countEv_append, evIsUnpubAppInst, hbeq,
              (ih _ _ hrest).1]
          · simp [hcs, countEv_cons, countEv_append, evIsUnpubAppInst, hbeq,
              (ih _ _ hrest).1]
        · rw [hev]
          by_cases hcs : pubContains cs k = true
          · simp [hcs, countEv_cons, countEv_append, evIsUnpubCertObj, hbeq,
              (ih _ _ hrest).2]
          · simp [hcs, countEv_cons, countEv_append, evIsUnpubCertObj, hbeq,
              (ih _ _ hrest).2]

theorem appDeleteLoop_mem (items : List String) (apps : List ZAppInstanceConfig)
    (ap : PubStore AppInstanceConfig) (cs : PubStore CertObjConfig) (u : String)
    (hnd : items.Nodup) (hmem : u ∈ items)
    (hnf : (apps.any (fun app => app.uuidandversion.uuid == u)) = false) :
    countEv (evIsUnpubAppInst u) (appDeleteLoop items apps ap cs).2.2 = 1 ∧
    countEv (evIsUnpubCertObj u) (appDeleteLoop items apps ap cs).2.2 =
      (if pubContains cs u = true then 1 else 0) := by
  induction items generalizing ap cs with
  | nil => cases hmem
  | cons k rest ih =>
      rcases List.mem_cons.mp hmem with heq | hur
      · subst heq
        simp only [appDeleteLoop, hnf, Bool.false_eq_true, if_false]
        obtain ⟨hev, hcont⟩ := unpublishCertObjConfig_spec cs u
        have hurest : u ∉ rest := (List.nodup_cons.mp hnd).1
        constructor
        · rw [hev]
          by_cases hcs : pubContains cs u = true
          · simp [hcs, countEv_cons, countEv_append, evIsUnpubAppInst,
              (appDeleteLoop_notmem rest apps _ _ u hurest).1]
          · simp [hcs, countEv_cons, countEv_append, evIsUnpubAppInst,
              (appDeleteLoop_notmem rest apps _ _ u hurest).1]
        · rw [hev]
          by_cases hcs : pubContains cs u = true
          · simp [hcs, countEv_cons, countEv_append, evIsUnpubCertObj,
              (appDeleteLoop_notmem rest apps _ _ u hurest).2]
          · simp [hcs, countEv_cons, countEv_append, evIsUnpubCertObj,
              (appDeleteLoop_notmem rest apps _ _ u hurest).2]
      · have hku : u ≠ k := fun hx =>
          (List.nodup_cons.mp hnd).1 (hx ▸ hur)
        have hndr : rest.Nodup := (List.nodup_cons.mp hnd).2
        have hbeq : (k == u) = false := beq_eq_false_iff_ne.mpr (fun hx => hku hx.symm)
        simp only [appDeleteLoop]
        by_cases hf : (apps.any (fun app => app.uuidandversion.uuid == k)) = true
        · simp only [hf, if_true]
          exact ih _ _ hndr hur
        · simp only [hf, Bool.false_eq_true, if_false]
          obtain ⟨hev, hcont⟩ := unpublishCertObjConfig_spec cs k
          have hcc : pubContains (unpublishCertObjConfig cs k).1 u = pubContains cs u :=
            hcont u hku
          constructor
          · rw [hev]
            by_cases hcs : pubContains cs k = true
            · simp [hcs, countEv_cons, countEv_append, evIsUnpubAppInst, hbeq,
                (ih _ _ hndr hur).1]
            · simp [hcs, countEv_cons, countEv_append, evIsUnpubAppInst, hbeq,
                (ih _ _ hndr hur).1]
          · rw [hev]
            have hrec := (ih ((pubUnpublish ap k)) ((unpublishCertObjConfig cs k).1) hndr hur).2
            rw [hcc] at hrec
            by_cases hcs : pubContains cs k = true
            · simp [hcs, countEv_cons, countEv_append, evIsUnpubCertObj, hbeq, hrec]
            · simp [hcs, countEv_cons, countEv_append, evIsUnpubCertObj, hbeq, hrec]

theorem parseBaseOsConfig_events (st : AgentState) (cfgOsList : List ZBaseOSConfig)
    (h : some cfgOsList ≠ st.baseosPrevConfigHash) :
    (parseBaseOsConfig st cfgOsList).2 =
      (baseOsDeleteLoop (pubKeys st.pubBaseOsConfig) cfgOsList st.pubBaseOsConfig
        st.pubCertObjConfig).2.2 ++
      (baseOsPublishLoop cfgOsList
        (baseOsDeleteLoop (pubKeys st.pubBaseOsConfig) cfgOsList st.pubBaseOsConfig
          st.pubCertObjConfig).1
        (baseOsDeleteLoop (pubKeys st.pubBaseOsConfig) cfgOsList st.pubBaseOsConfig
          st.pubCertObjConfig).2.1).2.2 := by
  simp only [parseBaseOsConfig]
  rw [if_neg h]

theorem parseAppInstanceConfig_events (st : AgentState) (apps : List ZAppInstanceConfig)
    (cfgNetworks : List ZNetworkConfig) (cfgNetworkInstances : List ZNetworkInstanceConfig)
    (h : some apps ≠ st.appinstancePrevConfigHash) :
    (parseAppInstanceConfig st apps cfgNetworks cfgNetworkInstances).2 =
      (appDeleteLoop (pubKeys st.pubAppInstanceConfig) apps st.pubAppInstanceConfig
        st.pubCertObjConfig).2.2 ++
      (appPublishLoop apps cfgNetworks cfgNetworkInstances
        (appDeleteLoop (pubKeys st.pubAppInstanceConfig) apps st.pubAppInstanceConfig
          st.pubCertObjConfig).1
        (appDeleteLoop (pubKeys st.pubAppInstanceConfig) apps st.pubAppInstanceConfig
          st.pubCertObjConfig).2.1).2.2 := by
  simp only [parseAppInstanceConfig]
  rw [if_neg h]

theorem netXDeleteLoop_notmem (items : List String) (nets : List ZNetworkConfig)
    (pub : PubStore NetworkXObjectConfig) (u : String) (h : u ∉ items) :
    countEv (evIsUnpubNetX u) (netXDeleteLoop items nets pub).2 = 0 := by
  induction items generalizing pub with
  | nil => rfl
  | cons k rest ih =>
      have hku : u ≠ k := fun hx => h (hx ▸ List.mem_cons_self k rest)
      have hrest : u ∉ rest := fun hx => h (List.mem_cons_of_mem _ hx)
      simp only [netXDeleteLoop]
      cases hl : lookupNetworkId k nets with
      | some x =>
          simp only [hl]
          exact ih _ hrest
      | none =>
          have hbeq : (k == u) = false := beq_eq_false_iff_ne.mpr (fun hx => hku hx.symm)
          simp only [hl]
          simp [countEv_cons, evIsUnpubNetX, hbeq, ih _ hrest]

theorem netXDeleteLoop_mem (items : List String) (nets : List ZNetworkConfig)
    (pub : PubStore NetworkXObjectConfig) (u : String)
    (hnd : items.Nodup) (hmem : u ∈ items) (hnf : lookupNetworkId u nets = none) :
    countEv (evIsUnpubNetX u) (netXDeleteLoop items nets pub).2 = 1 := by
  induction items generalizing pub with
  | nil => cases hmem
  | cons k rest ih =>
      rcases List.mem_cons.mp hmem with heq | hur
      · subst heq
        simp only [netXDeleteLoop, hnf]
        have hurest : u ∉ rest := (List.nodup_cons.mp hnd).1
        simp [countEv_cons, evIsUnpubNetX, netXDeleteLoop_notmem rest nets _ u hurest]
      · have hku : u ≠ k := fun hx => (List.nodup_cons.mp hnd).1 (hx ▸ hur)
        have hndr : rest.Nodup := (List.nodup_cons.mp hnd).2
        have hbeq : (k == u) = false := beq_eq_false_iff_ne.mpr (fun hx => hku hx.symm)
        simp only [netXDeleteLoop]
        cases hl : lookupNetworkId k nets with
        | some x =>
            simp only [hl]
            exact ih _ hndr hur
        | none =>
            simp only [hl]
            simp [countEv_cons, evIsUnpubNetX, hbeq, ih _ hndr hur]

theorem netXPublishLoop_no_unpub (nets : List ZNetworkConfig)
    (pub : PubStore NetworkXObjectConfig) (u : String) :
    countEv (evIsUnpubNetX u) (netXPublishLoop nets pub).2 = 0 := by
  induction nets generalizing pub with
  | nil => rfl
  | cons netEnt rest ih =>
      simp only [netXPublishLoop]
      simp [countEv_cons, evIsUnpubNetX, ih]

theorem parseNetworkXObjectConfig_events (st : AgentState) (nets : List ZNetworkConfig)
    (h : some nets ≠ st.networkConfigPrevConfigHash) :
    (parseNetworkXObjectConfig st nets).2.2 =
      (netXDeleteLoop (pubKeys st.pubNetworkXObjectConfig) nets
        st.pubNetworkXObjectConfig).2 ++
      (netXPublishLoop nets
        (netXDeleteLoop (pubKeys st.pubNetworkXObjectConfig) nets
          st.pubNetworkXObjectConfig).1).2 := by
  simp only [parseNetworkXObjectConfig, publishNetworkXObjectConfig]
  rw [if_neg h]

theorem dsDeleteLoop_notmem (items : List String) (stores : List ZDatastoreConfig)
    (pub : PubStore DatastoreConfig) (u : String) (h : u ∉ items) :
    countEv (evIsUnpubDatastore u) (dsDeleteLoop items stores pub).2 = 0 := by
  induction items generalizing pub with
  | nil => rfl
  | cons k rest ih =>
      have hku : u ≠ k := fun hx => h (hx ▸ List.mem_cons_self k rest)
      have hrest : u ∉ rest := fun hx => h (List.mem_cons_of_mem _ hx)
      simp only [dsDeleteLoop]
      cases hl : lookupDatastore stores k with
      | some x =>
          simp only [hl]
          exact ih _ hrest
      | none =>
          have hbeq : (k == u) = false := beq_eq_false_iff_ne.mpr (fun hx => hku hx.symm)
          simp only [hl]
          simp [countEv_cons, evIsUnpubDatastore, hbeq, ih _ hrest]

theorem dsDeleteLoop_mem (items : List String) (stores : List ZDatastoreConfig)
    (pub : PubStore DatastoreConfig) (u : String)
    (hnd : items.Nodup) (hmem : u ∈ items) (hnf : lookupDatastore stores u = none) :
    countEv (evIsUnpubDatastore u) (dsDeleteLoop items stores pub).2 = 1 := by
  induction items generalizing pub with
  | nil => cases hmem
  | cons k rest ih =>
      rcases List.mem_cons.mp hmem with heq | hur
      · subst heq
        simp only [dsDeleteLoop, hnf]
        have hurest : u ∉ rest := (List.nodup_cons.mp hnd).1
        simp [countEv_cons, evIsUnpubDatastore, dsDeleteLoop_notmem rest stores _ u hurest]
      · have hku : u ≠ k := fun hx => (List.nodup_cons.mp hnd).1 (hx ▸ hur)
        have hndr : rest.Nodup := (List.nodup_cons.mp hnd).2
        have hbeq : (k == u) = false := beq_eq_false_iff_ne.mpr (fun hx => hku hx.symm)
        simp only [dsDeleteLoop]
        cases hl : lookupDatastore stores k with
        | some x =>
            simp only [hl]
            exact ih _ hndr hur
        | none =>
            simp only [hl]
            simp [countEv_cons, evIsUnpubDatastore, hbeq, ih _ hndr hur]

theorem dsPublishLoop_no_unpub (stores : List ZDatastoreConfig)
    (pub : PubStore DatastoreConfig) (u : String) :
    countEv (evIsUnpubDatastore u) (dsPublishLoop stores pub).2 = 0 := by
  induction stores generalizing pub with
  | nil => rfl
  | cons ds rest ih =>
      simp only [dsPublishLoop]
      simp [countEv_cons, evIsUnpubDatastore, ih]

theorem parseDatastoreConfig_events (st : AgentState) (stores : List ZDatastoreConfig)
    (h : some stores ≠ st.datastoreConfigPrevConfigHash) :
    (parseDatastoreConfig st stores).2 =
      (dsDeleteLoop (pubKeys st.pubDatastoreConfig) stores st.pubDatastoreConfig).2 ++
      (dsPublishLoop stores
        (dsDeleteLoop (pubKeys st.pubDatastoreConfig) stores st.pubDatastoreConfig).1).2 := by
  simp only [parseDatastoreConfig, publishDatastoreConfig]
  rw [if_neg h]

theorem niDeleteLoop_count_notmem (entries : List (String × NetworkInstanceConfig))
    (insts : List ZNetworkInstanceConfig) (pub : PubStore NetworkInstanceConfig)
    (u : String) (h : u ∉ entries.map (fun p => p.1)) :
    countEv (evIsUnpubNetInst u) (niDeleteLoop entries insts pub).2 = 0 := by
  induction entries generalizing pub with
  | nil => rfl
  | cons hd rest ih =>
      obtain ⟨k, v⟩ := hd
      rw [List.map_cons] at h
      have hku : u ≠ k := fun hx => h (hx ▸ List.mem_cons_self k _)
      have hrest : u ∉ rest.map (fun p => p.1) := fun hx => h (List.mem_cons_of_mem _ hx)
      simp only [niDeleteLoop]
      cases hl : lookupNetworkInstanceById k insts with
      | some x =>
          simp only [hl]
          exact ih _ hrest
      | none =>
          have hbeq : (k == u) = false := beq_eq_false_iff_ne.mpr (fun hx => hku hx.symm)
          simp only [hl]
          simp [countEv_cons, evIsUnpubNetInst, hbeq, ih _ hrest]

theorem niDeleteLoop_count_mem (entries : List (String × NetworkInstanceConfig))
    (insts : List ZNetworkInstanceConfig) (pub : PubStore NetworkInstanceConfig)
    (u : String) (hnd : (entries.map (fun p => p.1)).Nodup)
    (hmem : u ∈ entries.map (fun p => p.1))
    (hnf : lookupNetworkInstanceById u insts = none) :
    countEv (evIsUnpubNetInst u) (niDeleteLoop entries insts pub).2 = 1 := by
  induction entries generalizing pub with
  | nil => cases hmem
  | cons hd rest ih =>
      obtain ⟨k, v⟩ := hd
      rw [List.map_cons] at hnd hmem
      rcases List.mem_cons.mp hmem with heq | hur
      · subst heq
        simp only [niDeleteLoop, hnf]
        have hurest : u ∉ rest.map (fun p => p.1) := (List.nodup_cons.mp hnd).1
        simp [countEv_cons, evIsUnpubNetInst,
          niDeleteLoop_count_notmem rest insts _ u hurest]
      · have hku : u ≠ k := fun hx => (List.nodup_cons.mp hnd).1 (hx ▸ hur)
        have hndr := (List.nodup_cons.mp hnd).2
        have hbeq : (k == u) = false := beq_eq_false_iff_ne.mpr (fun hx => hku hx.symm)
        simp only [niDeleteLoop]
        cases hl : lookupNetworkInstanceById k insts with
        | some x =>
            simp only [hl]
            exact ih _ hndr hur
        | none =>
            simp only [hl]
            simp [countEv_cons, evIsUnpubNetInst, hbeq, ih _ hndr hur]

theorem publishOneNetworkInstance_no_unpub (apiConfigEntry : ZNetworkInstanceConfig)
    (pub : PubStore NetworkInstanceConfig) (u : String) :
    countEv (evIsUnpubNetInst u) (publishOneNetworkInstance apiConfigEntry pub).2 = 0 := by
  simp only [publishOneNetworkInstance]
  repeat' split
  all_goals simp [countEv, countEv_cons, countEv_append, evIsUnpubNetInst]

theorem niPublishLoop_no_unpub (insts : List ZNetworkInstanceConfig)
    (pub : PubStore NetworkInstanceConfig) (u : String) :
    countEv (evIsUnpubNetInst u) (niPublishLoop insts pub).2 = 0 := by
  induction insts generalizing pub with
  | nil => rfl
  | cons apiConfigEntry rest ih =>
      simp only [niPublishLoop]
      rw [countEv_append, publishOneNetworkInstance_no_unpub, ih]

theorem publishNetworkInstanceConfig_unpub_count (st : AgentState)
    (insts : List ZNetworkInstanceConfig) (u : String)
    (hnd : (st.pubNetworkInstanceConfig.map (fun p => p.1)).Nodup)
    (hmem : u ∈ st.pubNetworkInstanceConfig.map (fun p => p.1))
    (hnf : lookupNetworkInstanceById u insts = none) :
    countEv (evIsUnpubNetInst u) (publishNetworkInstanceConfig st insts).2 = 1 := by
  simp only [publishNetworkInstanceConfig]
  by_cases hv : vpnCountOf insts > 1
  · rw [if_pos hv]
    exact niDeleteLoop_count_mem _ _ _ _ hnd hmem hnf
  · rw [if_neg hv]
    show countEv (evIsUnpubNetInst u) (_ ++ _) = 1
    rw [countEv_append, niDeleteLoop_count_mem _ _ _ _ hnd hmem hnf, niPublishLoop_no_unpub]

/-- C3 (deletion completeness), for every UUID-keyed entity kind with a
delete pass: a published key (of a store with pairwise-distinct keys) absent
from the new snapshot is unpublished exactly once when the snapshot (whose
digest differs from the stored one) is processed — for base OS and app
instances together with exactly one certificate-bundle unpublish when a bundle
is stored under that key (none otherwise), and likewise exactly one unpublish
for networks, network instances and datastores. -/
theorem deletion_completeness (st1 st2 st3 st4 st5 : AgentState)
    (cfgOsList : List ZBaseOSConfig)
    (apps : List ZAppInstanceConfig) (cfgNetworks : List ZNetworkConfig)
    (cfgNetworkInstances : List ZNetworkInstanceConfig)
    (nets : List ZNetworkConfig) (insts : List ZNetworkInstanceConfig)
    (stores : List ZDatastoreConfig) (u v w x y : String)
    (h1nd : (pubKeys st1.pubBaseOsConfig).Nodup)
    (h1mem : u ∈ pubKeys st1.pubBaseOsConfig)
    (h1abs : (cfgOsList.any (fun baseOs => baseOs.uuidandversion.uuid == u)) = false)
    (h1hash : some cfgOsList ≠ st1.baseosPrevConfigHash)
    (h2nd : (pubKeys st2.pubAppInstanceConfig).Nodup)
    (h2mem : v ∈ pubKeys st2.pubAppInstanceConfig)
    (h2abs : (apps.any (fun app => app.uuidandversion.uuid == v)) = false)
    (h2hash : some apps ≠ st2.appinstancePrevConfigHash)
    (h3nd : (pubKeys st3.pubNetworkXObjectConfig).Nodup)
    (h3mem : w ∈ pubKeys st3.pubNetworkXObjectConfig)
    (h3abs : lookupNetworkId w nets = none)
    (h3hash : some nets ≠ st3.networkConfigPrevConfigHash)
    (h4nd : (pubKeys st4.pubNetworkInstanceConfig).Nodup)
    (h4mem : x ∈ pubKeys st4.pubNetworkInstanceConfig)
    (h4abs : lookupNetworkInstanceById x insts = none)
    (h4hash : some insts ≠ st4.networkInstancePrevConfigHash)
    (h5nd : (pubKeys st5.pubDatastoreConfig).Nodup)
    (h5mem : y ∈ pubKeys st5.pubDatastoreConfig)
    (h5abs : lookupDatastore stores y = none)
    (h5hash : some stores ≠ st5.datastoreConfigPrevConfigHash) :
    (countEv (evIsUnpubBaseOs u) (parseBaseOsConfig st1 cfgOsList).2 = 1 ∧
     countEv (evIsUnpubCertObj u) (parseBaseOsConfig st1 cfgOsList).2 =
       (if pubContains st1.pubCertObjConfig u = true then 1 else 0)) ∧
    (countEv (evIsUnpubAppInst v)
       (parseAppInstanceConfig st2 apps cfgNetworks cfgNetworkInstances).2 = 1 ∧
     countEv (evIsUnpubCertObj v)
       (parseAppInstanceConfig st2 apps cfgNetworks cfgNetworkInstances).2 =
       (if pubContains st2.pubCertObjConfig v = true then 1 else 0)) ∧
    (countEv (evIsUnpubNetX w) (parseNetworkXObjectConfig st3 nets).2.2 = 1) ∧
    (countEv (evIsUnpubNetInst x) (parseNetworkInstanceConfig st4 insts).2 = 1) ∧
    (countEv (evIsUnpubDatastore y) (parseDatastoreConfig st5 stores).2 = 1) := by
  have hdel1 := baseOsDeleteLoop_mem (pubKeys st1.pubBaseOsConfig) cfgOsList
    st1.pubBaseOsConfig st1.pubCertObjConfig u h1nd h1mem h1abs
  have hdel2 := appDeleteLoop_mem (pubKeys st2.pubAppInstanceConfig) apps
    st2.pubAppInstanceConfig st2.pubCertObjConfig v h2nd h2mem h2abs
  rw [parseBaseOsConfig_events st1 cfgOsList h1hash,
    parseAppInstanceConfig_events st2 apps cfgNetworks cfgNetworkInstances h2hash,
    parseNetworkXObjectConfig_events st3 nets h3hash,
    parseDatastoreConfig_events st5 stores h5hash]
  refine ⟨⟨?_, ?_⟩, ⟨?_, ?_⟩, ?_, ?_, ?_⟩
  · rw [countEv_append, hdel1.1, (baseOsPublishLoop_counts _ _ _ u).1]
  · rw [countEv_append, hdel1.2, (baseOsPublishLoop_counts _ _ _ u).2, Nat.add_zero]
  · rw [countEv_append, hdel2.1, (appPublishLoop_counts _ _ _ _ _ v).1]
  · rw [countEv_append, hdel2.2, (appPublishLoop_counts _ _ _ _ _ v).2, Nat.add_zero]
  · rw [countEv_append, netXDeleteLoop_mem _ _ _ _ h3nd h3mem h3abs,
      netXPublishLoop_no_unpub]
  · simp only [parseNetworkInstanceConfig]
    rw [if_neg h4hash]
    exact publishNetworkInstanceConfig_unpub_count _ insts x h4nd h4mem h4abs
  · rw [countEv_append, dsDeleteLoop_mem _ _ _ _ h5nd h5mem h5abs,
      dsPublishLoop_no_unpub]

theorem deletion_completeness_witness :
    (countEv (evIsUnpubBaseOs "55555555-5555-5555-5555-555555555555")
       (parseBaseOsConfig c3State []).2 = 1 ∧
     countEv (evIsUnpubCertObj "55555555-5555-5555-5555-555555555555")
       (parseBaseOsConfig c3State []).2 =
       (if pubContains c3State.pubCertObjConfig
            "55555555-5555-5555-5555-555555555555" = true then 1 else 0)) ∧
    (countEv (evIsUnpubAppInst "11111111-1111-1111-1111-111111111111")
       (parseAppInstanceConfig c3State [] [] []).2 = 1 ∧
     countEv (evIsUnpubCertObj "11111111-1111-1111-1111-111111111111")
       (parseAppInstanceConfig c3State [] [] []).2 =
       (if pubContains c3State.pubCertObjConfig
            "11111111-1111-1111-1111-111111111111" = true then 1 else 0)) ∧
    (countEv (evIsUnpubNetX "44444444-4444-4444-4444-444444444444")
       (parseNetworkXObjectConfig c3State []).2.2 = 1) ∧
    (countEv (evIsUnpubNetInst "33333333-3333-3333-3333-333333333333")
       (parseNetworkInstanceConfig c3State []).2 = 1) ∧
    (countEv (evIsUnpubDatastore "66666666-6666-6666-6666-666666666666")
       (parseDatastoreConfig c3State []).2 = 1) :=
  deletion_completeness c3State c3State c3State c3State c3State [] [] [] [] [] [] []
    "55555555-5555-5555-5555-555555555555" "11111111-1111-1111-1111-111111111111"
    "44444444-4444-4444-4444-444444444444" "33333333-3333-3333-3333-333333333333"
    "66666666-6666-6666-6666-666666666666"
    (by decide) (by decide) rfl (Option.some_ne_none _)
    (by decide) (by decide) rfl (Option.some_ne_none _)
    (by decide) (by decide) rfl (Option.some_ne_none _)
    (by decide) (by decide) rfl (Option.some_ne_none _)
    (by decide) (by decide) rfl (Option.some_ne_none _)
